import Mathlib

/-!
Shallow embedding of the Hatari WD1772 floppy disk controller (FDC) and DMA
emulation core, `src/fdc.c`, together with proofs about the claims of the
natural-language specification.

Conventions of the embedding:
* 8-bit and 16-bit machine registers are modelled as `Nat` with explicit
  `% 256` / `% 65536` (or bit masks) exactly where the C code truncates.
* The file-scope C records `FDC_STRUCT`, `FDC_DMA_STRUCT` and
  `FDC_DRIVE_STRUCT` become the structures `FdcRegs`, `DmaRegs` and `Drive`,
  collected (together with the memory-mapped DMA-address bytes, the MFP IRQ
  line and a log of DMA block writes to RAM) in a single `Machine` record.
* Calls into the rest of the emulator (angular clock timings, disk-image
  accesses, the random generator) are modelled by an `Env` record of oracle
  values, passed to every state-update function that consults them.
* Writing a 16-byte DMA block to system RAM is modelled by appending the
  block to the `memWrites` event log of the machine.
-/

namespace Fdc

/-! ### Register bit constants (from fdc.c) -/

def FDC_STR_BIT_BUSY : Nat := 0x01
def FDC_STR_BIT_INDEX : Nat := 0x02
def FDC_STR_BIT_DRQ : Nat := 0x02
def FDC_STR_BIT_TR00 : Nat := 0x04
def FDC_STR_BIT_LOST_DATA : Nat := 0x04
def FDC_STR_BIT_CRC_ERROR : Nat := 0x08
def FDC_STR_BIT_RNF : Nat := 0x10
def FDC_STR_BIT_SPIN_UP : Nat := 0x20
def FDC_STR_BIT_RECORD_TYPE : Nat := 0x20
def FDC_STR_BIT_WPRT : Nat := 0x40
def FDC_STR_BIT_MOTOR_ON : Nat := 0x80

def FDC_COMMAND_BIT_VERIFY : Nat := 1 <<< 2
def FDC_COMMAND_BIT_HEAD_LOAD : Nat := 1 <<< 2
def FDC_COMMAND_BIT_SPIN_UP : Nat := 1 <<< 3
def FDC_COMMAND_BIT_UPDATE_TRACK : Nat := 1 <<< 4
def FDC_COMMAND_BIT_MULTIPLE_SECTOR : Nat := 1 <<< 4

def FDC_INTERRUPT_COND_IP : Nat := 1 <<< 2
def FDC_INTERRUPT_COND_IMMEDIATE : Nat := 1 <<< 3

/-! ### Command identifiers (enum used in FDC.Command) -/

def FDCEMU_CMD_NULL : Nat := 0
def FDCEMU_CMD_RESTORE : Nat := 1
def FDCEMU_CMD_SEEK : Nat := 2
def FDCEMU_CMD_STEP : Nat := 3
def FDCEMU_CMD_READSECTORS : Nat := 4
def FDCEMU_CMD_WRITESECTORS : Nat := 5
def FDCEMU_CMD_READADDRESS : Nat := 6
def FDCEMU_CMD_READTRACK : Nat := 7
def FDCEMU_CMD_WRITETRACK : Nat := 8
def FDCEMU_CMD_MOTOR_STOP : Nat := 9

/-! ### Sub-state identifiers (enum used in FDC.CommandState), numbered in
source order -/

def FDCEMU_RUN_NULL : Nat := 0
def FDCEMU_RUN_RESTORE_SEEKTOTRACKZERO : Nat := 1
def FDCEMU_RUN_RESTORE_SEEKTOTRACKZERO_SPIN_UP : Nat := 2
def FDCEMU_RUN_RESTORE_SEEKTOTRACKZERO_MOTOR_ON : Nat := 3
def FDCEMU_RUN_RESTORE_SEEKTOTRACKZERO_LOOP : Nat := 4
def FDCEMU_RUN_RESTORE_VERIFY : Nat := 5
def FDCEMU_RUN_RESTORE_VERIFY_HEAD_OK : Nat := 6
def FDCEMU_RUN_RESTORE_VERIFY_NEXT_SECTOR_HEADER : Nat := 7
def FDCEMU_RUN_RESTORE_VERIFY_CHECK_SECTOR_HEADER : Nat := 8
def FDCEMU_RUN_RESTORE_COMPLETE : Nat := 9
def FDCEMU_RUN_SEEK_TOTRACK : Nat := 10
def FDCEMU_RUN_SEEK_TOTRACK_SPIN_UP : Nat := 11
def FDCEMU_RUN_SEEK_TOTRACK_MOTOR_ON : Nat := 12
def FDCEMU_RUN_SEEK_VERIFY : Nat := 13
def FDCEMU_RUN_SEEK_VERIFY_HEAD_OK : Nat := 14
def FDCEMU_RUN_SEEK_VERIFY_NEXT_SECTOR_HEADER : Nat := 15
def FDCEMU_RUN_SEEK_VERIFY_CHECK_SECTOR_HEADER : Nat := 16
def FDCEMU_RUN_SEEK_COMPLETE : Nat := 17
def FDCEMU_RUN_STEP_ONCE : Nat := 18
def FDCEMU_RUN_STEP_ONCE_SPIN_UP : Nat := 19
def FDCEMU_RUN_STEP_ONCE_MOTOR_ON : Nat := 20
def FDCEMU_RUN_STEP_VERIFY : Nat := 21
def FDCEMU_RUN_STEP_VERIFY_HEAD_OK : Nat := 22
def FDCEMU_RUN_STEP_VERIFY_NEXT_SECTOR_HEADER : Nat := 23
def FDCEMU_RUN_STEP_VERIFY_CHECK_SECTOR_HEADER : Nat := 24
def FDCEMU_RUN_STEP_COMPLETE : Nat := 25
def FDCEMU_RUN_READSECTORS_READDATA : Nat := 26
def FDCEMU_RUN_READSECTORS_READDATA_SPIN_UP : Nat := 27
def FDCEMU_RUN_READSECTORS_READDATA_HEAD_LOAD : Nat := 28
def FDCEMU_RUN_READSECTORS_READDATA_MOTOR_ON : Nat := 29
def FDCEMU_RUN_READSECTORS_READDATA_NEXT_SECTOR_HEADER : Nat := 30
def FDCEMU_RUN_READSECTORS_READDATA_CHECK_SECTOR_HEADER : Nat := 31
def FDCEMU_RUN_READSECTORS_READDATA_TRANSFER_START : Nat := 32
def FDCEMU_RUN_READSECTORS_READDATA_TRANSFER_LOOP : Nat := 33
def FDCEMU_RUN_READSECTORS_CRC : Nat := 34
def FDCEMU_RUN_READSECTORS_RNF : Nat := 35
def FDCEMU_RUN_READSECTORS_COMPLETE : Nat := 36
def FDCEMU_RUN_WRITESECTORS_WRITEDATA : Nat := 37
def FDCEMU_RUN_WRITESECTORS_WRITEDATA_SPIN_UP : Nat := 38
def FDCEMU_RUN_WRITESECTORS_WRITEDATA_HEAD_LOAD : Nat := 39
def FDCEMU_RUN_WRITESECTORS_WRITEDATA_MOTOR_ON : Nat := 40
def FDCEMU_RUN_WRITESECTORS_WRITEDATA_NEXT_SECTOR_HEADER : Nat := 41
def FDCEMU_RUN_WRITESECTORS_WRITEDATA_CHECK_SECTOR_HEADER : Nat := 42
def FDCEMU_RUN_WRITESECTORS_WRITEDATA_TRANSFER_START : Nat := 43
def FDCEMU_RUN_WRITESECTORS_WRITEDATA_TRANSFER_LOOP : Nat := 44
def FDCEMU_RUN_WRITESECTORS_CRC : Nat := 45
def FDCEMU_RUN_WRITESECTORS_RNF : Nat := 46
def FDCEMU_RUN_WRITESECTORS_COMPLETE : Nat := 47
def FDCEMU_RUN_READADDRESS : Nat := 48
def FDCEMU_RUN_READADDRESS_SPIN_UP : Nat := 49
def FDCEMU_RUN_READADDRESS_HEAD_LOAD : Nat := 50
def FDCEMU_RUN_READADDRESS_MOTOR_ON : Nat := 51
def FDCEMU_RUN_READADDRESS_TRANSFER_START : Nat := 52
def FDCEMU_RUN_READADDRESS_TRANSFER_LOOP : Nat := 53
def FDCEMU_RUN_READADDRESS_COMPLETE : Nat := 54
def FDCEMU_RUN_READTRACK : Nat := 55
def FDCEMU_RUN_READTRACK_SPIN_UP : Nat := 56
def FDCEMU_RUN_READTRACK_HEAD_LOAD : Nat := 57
def FDCEMU_RUN_READTRACK_MOTOR_ON : Nat := 58
def FDCEMU_RUN_READTRACK_INDEX : Nat := 59
def FDCEMU_RUN_READTRACK_TRANSFER_LOOP : Nat := 60
def FDCEMU_RUN_READTRACK_COMPLETE : Nat := 61
def FDCEMU_RUN_WRITETRACK : Nat := 62
def FDCEMU_RUN_WRITETRACK_SPIN_UP : Nat := 63
def FDCEMU_RUN_WRITETRACK_HEAD_LOAD : Nat := 64
def FDCEMU_RUN_WRITETRACK_MOTOR_ON : Nat := 65
def FDCEMU_RUN_WRITETRACK_INDEX : Nat := 66
def FDCEMU_RUN_WRITETRACK_TRANSFER_LOOP : Nat := 67
def FDCEMU_RUN_WRITETRACK_COMPLETE : Nat := 68
def FDCEMU_RUN_MOTOR_STOP : Nat := 69
def FDCEMU_RUN_MOTOR_STOP_WAIT : Nat := 70
def FDCEMU_RUN_MOTOR_STOP_COMPLETE : Nat := 71

/-! ### Delay / geometry constants -/

def FDC_DELAY_CYCLE_MFM_BYTE : Nat := 4 * 8 * 8
def FDC_TRACK_BYTES_STANDARD : Nat := 6268
def FDC_DELAY_IP_SPIN_UP : Nat := 6
def FDC_DELAY_IP_MOTOR_OFF : Nat := 9
def FDC_DELAY_IP_ADDRESS_ID : Nat := 5
def FDC_DELAY_US_HEAD_LOAD : Nat := 15 * 1000
def FDC_DELAY_CYCLE_TYPE_I_PREPARE : Int := 90 * 8
def FDC_DELAY_CYCLE_TYPE_II_PREPARE : Int := 1 * 8
def FDC_DELAY_CYCLE_TYPE_III_PREPARE : Int := 1 * 8
def FDC_DELAY_CYCLE_TYPE_IV_PREPARE : Int := 100 * 8
def FDC_DELAY_CYCLE_COMMAND_COMPLETE : Int := 1 * 8
def FDC_DELAY_CYCLE_COMMAND_IMMEDIATE : Int := 0
def FDC_DELAY_CYCLE_WAIT_NO_DRIVE_FLOPPY : Int := 50000
def FDC_DELAY_CYCLE_REFRESH_INDEX_PULSE : Int := 500
def FDC_DMA_SECTOR_SIZE : Nat := 512
def FDC_DMA_FIFO_SIZE : Nat := 16
def FDC_PHYSICAL_MAX_TRACK : Nat := 90
def FDC_TRACK_LAYOUT_STANDARD_GAP1 : Nat := 60
def FDC_TRACK_LAYOUT_STANDARD_GAP2 : Nat := 12
def FDC_TRACK_LAYOUT_STANDARD_GAP3a : Nat := 22
def FDC_TRACK_LAYOUT_STANDARD_GAP3b : Nat := 12
def FDC_TRACK_LAYOUT_STANDARD_GAP4 : Nat := 40

/-- Step rates in ms, indexed by the two low bits of a type I command
(array `FDC_StepRate_ms` in fdc.c). -/
def FDC_StepRate_ms (i : Nat) : Nat := [6, 12, 2, 3].getD i 0

/-! ### Machine-integer helpers -/

/-- Truncation to an unsigned 8-bit value. -/
def u8 (n : Nat) : Nat := n % 256

/-- Truncation to an unsigned 16-bit value. -/
def u16 (n : Nat) : Nat := n % 65536

/-- Decrement of an unsigned 8-bit register, wrapping at 0 (the C `--` on a
`Uint8`). -/
def u8dec (n : Nat) : Nat := (n + 255) % 256

/-- Increment of an unsigned 8-bit register, wrapping at 255. -/
def u8inc (n : Nat) : Nat := (n + 1) % 256

/-- Subtraction on an unsigned 16-bit register, wrapping (the C `-=` on a
`Uint16`). -/
def u16sub (a b : Nat) : Nat := (a + 65536 - b % 65536) % 65536

/-- Addition of a signed step direction to an unsigned 8-bit register,
wrapping as the C `+=` on a `Uint8` does. -/
def u8addInt (n : Nat) (d : Int) : Nat := (((n : Int) + d) % 256).toNat

/-! ### State records -/

/-- Machine type, from the emulator configuration
(`ConfigureParams.System.nMachineType`). -/
inductive MachineType where
  | ST | MegaST | STE | MegaSTE | TT | Falcon
deriving Repr, DecidableEq

/-- Machines whose RAM (and hence DMA address) is limited to 4 MB: the check
made in `FDC_DmaAddress_WriteByte` and `FDC_WriteDMAAddress`. -/
def MachineType.limited4MB : MachineType → Bool
  | .ST => true
  | .STE => true
  | .MegaSTE => true
  | _ => false

/-- The WD1772 register file and internal variables (`FDC_STRUCT`). -/
structure FdcRegs where
  DR : Nat
  TR : Nat
  SR : Nat
  CR : Nat
  STR : Nat
  StepDirection : Int
  SideSignal : Nat
  DriveSelSignal : Int
  Command : Nat
  CommandState : Nat
  CommandType : Nat
  ReplaceCommandPossible : Bool
  StatusTypeI : Bool
  IndexPulse_Counter : Nat
  NextSector_ID_Field_SR : Nat
  InterruptCond : Nat
deriving Repr, DecidableEq

/-- The DMA engine state (`FDC_DMA_STRUCT`). -/
structure DmaRegs where
  Status : Nat
  Mode : Nat
  SectorCount : Nat
  BytesInSector : Nat
  FIFO : List Nat
  FIFO_Size : Nat
  ff8604_recent_val : Nat
  PosInBuffer : Int
  PosInBufferTransfer : Int
  BytesToTransfer : Int
deriving Repr, DecidableEq

/-- One floppy drive (`FDC_DRIVE_STRUCT`). -/
structure Drive where
  Enabled : Bool
  DiskInserted : Bool
  RPM : Nat
  Density : Nat
  HeadTrack : Nat
  IndexPulse_Time : Nat
deriving Repr, DecidableEq

/-- The whole modelled machine: FDC, DMA, the two drives, the three
memory-mapped DMA address bytes ($ff8609/$ff860b/$ff860d), the MFP IRQ line
(true = interrupt asserted) and the log of 16-byte DMA block writes to RAM. -/
structure Machine where
  machType : MachineType
  fdc : FdcRegs
  dma : DmaRegs
  drive0 : Drive
  drive1 : Drive
  dmaAddrHi : Nat
  dmaAddrMid : Nat
  dmaAddrLo : Nat
  irq : Bool
  memWrites : List (Nat × List Nat)
deriving Repr, DecidableEq

/-- Oracle values for the parts of the emulator outside fdc.c: angular-clock
results, disk-image queries and random values. -/
structure Env where
  /-- Result of `FDC_NextSectorID_NbBytes` (negative when no drive/floppy). -/
  nextSectorID_NbBytes : Int
  /-- Sector number stored into `NextSector_ID_Field_SR` by
  `FDC_NextSectorID_NbBytes`. -/
  nextSectorSR : Nat
  /-- Result of `FDC_NextIndexPulse_FdcCycles` (negative when no drive). -/
  nextIndexPulse : Int
  /-- Whether `Floppy_ReadSectors` succeeds. -/
  readSectorOk : Bool
  /-- Sector size reported by the image backend (512 for ST/MSA). -/
  sectorSize : Int
  /-- Whether `Floppy_WriteSectors` succeeds. -/
  writeSectorOk : Bool
  /-- Result of `Floppy_IsWriteProtected` for the selected drive. -/
  isWriteProtected : Bool
  /-- Result of `FDC_GetSidesPerDisk` for the selected drive. -/
  sidesPerDisk : Nat
  /-- Reference time stored by `FDC_IndexPulse_Init` (random on hardware). -/
  indexInit : Nat
  /-- Whether `FDC_IndexPulse_Update` sees an index-pulse crossing now. -/
  pulseCrossed : Bool
  /-- Cycles per revolution used to advance the index reference time. -/
  pulsePeriod : Nat
  /-- System RAM contents, for FIFO loads in `FDC_DMA_FIFO_Pull`. -/
  ram : Nat → Nat
  /-- Contents of `DMADiskWorkSpace`, for FIFO pushes. -/
  workspace : Int → Nat

/-! ### Small state helpers -/

/-- Apply an update to the FDC register record inside a machine. -/
def withFdc (m : Machine) (f : FdcRegs → FdcRegs) : Machine :=
  { m with fdc := f m.fdc }

/-- Apply an update to the DMA record inside a machine. -/
def withDma (m : Machine) (f : DmaRegs → DmaRegs) : Machine :=
  { m with dma := f m.dma }

/-- The currently selected drive (only consulted under a
`DriveSelSignal >= 0` guard in the source). -/
def selDrive (m : Machine) : Drive :=
  if m.fdc.DriveSelSignal = 1 then m.drive1 else m.drive0

/-- Replace the currently selected drive. -/
def setSelDrive (m : Machine) (d : Drive) : Machine :=
  if m.fdc.DriveSelSignal = 1 then { m with drive1 := d } else { m with drive0 := d }

/-- Condition `FDC.DriveSelSignal >= 0 && FDC_DRIVES[sel].Enabled`. -/
def driveEnabledSel (m : Machine) : Prop :=
  0 ≤ m.fdc.DriveSelSignal ∧ (selDrive m).Enabled = true

instance (m : Machine) : Decidable (driveEnabledSel m) := by
  unfold driveEnabledSel; infer_instance

/-- Condition used by `FDC_Set_MotorON`, `FDC_IndexPulse_Update` and
`FDC_VerifyTrack`: a valid, enabled drive with a disk inserted. -/
def driveValidSel (m : Machine) : Prop :=
  0 ≤ m.fdc.DriveSelSignal ∧ (selDrive m).Enabled = true ∧
    (selDrive m).DiskInserted = true

instance (m : Machine) : Decidable (driveValidSel m) := by
  unfold driveValidSel; infer_instance

/-! ### Timing helpers from fdc.c -/

/-- The function `FDC_DelayToFdcCycles`: micro-seconds to cycles of the 8 MHz
reference clock. -/
def FDC_DelayToFdcCycles (delayMicro : Nat) : Int :=
  ((8000000 * delayMicro) / 1000000 : Nat)

/-- The function `FDC_TransferByte_FdcCycles`: cycles needed to transfer
`nbBytes` MFM bytes on the selected drive. -/
def FDC_TransferByte_FdcCycles (m : Machine) (nbBytes : Int) : Int :=
  (nbBytes * (FDC_DELAY_CYCLE_MFM_BYTE : Int)) / ((selDrive m).Density : Int)

/-- Delay of one step at the step rate selected by the two low bits of the
current command (`FDC_StepRate_ms[ FDC_STEP_RATE ]` converted to cycles). -/
def stepRateDelay (m : Machine) : Int :=
  FDC_DelayToFdcCycles (FDC_StepRate_ms (m.fdc.CR &&& 0x03) * 1000)

/-! ### Status register and IRQ -/

/-- The function `FDC_Update_STR`: clear all bits of `dis`, then set all
bits of `en`, in the 8-bit status register. -/
def FDC_Update_STR (m : Machine) (dis en : Nat) : Machine :=
  withFdc m fun r => { r with STR := (r.STR &&& (255 ^^^ dis)) ||| en }

/-- The function `FDC_SetIRQ`: assert the MFP interrupt line. -/
def FDC_SetIRQ (m : Machine) : Machine := { m with irq := true }

/-- The function `FDC_ClearIRQ`: deassert the interrupt line, unless the
immediate force-interrupt condition is latched. -/
def FDC_ClearIRQ (m : Machine) : Machine :=
  if m.fdc.InterruptCond &&& FDC_INTERRUPT_COND_IMMEDIATE = 0 then
    { m with irq := false }
  else m

/-- The function `FDC_SetDMAStatus`: bit 0 of the 16-bit DMA status word is
0 on error and 1 on no error. -/
def FDC_SetDMAStatus (m : Machine) (bError : Bool) : Machine :=
  if !bError then withDma m fun d => { d with Status := d.Status ||| 0x1 }
  else withDma m fun d => { d with Status := d.Status &&& 0xfffe }

/-- The function `FDC_CmdCompleteCommon`: clear BUSY, optionally raise the
IRQ, and switch to the fake motor-stop command. -/
def FDC_CmdCompleteCommon (m : Machine) (doInt : Bool) : Machine × Int :=
  let m := FDC_Update_STR m FDC_STR_BIT_BUSY 0
  let m := if doInt then FDC_SetIRQ m else m
  let m := withFdc m fun r =>
    { r with Command := FDCEMU_CMD_MOTOR_STOP, CommandState := FDCEMU_RUN_MOTOR_STOP }
  (m, FDC_DELAY_CYCLE_COMMAND_IMMEDIATE)

/-! ### DMA address register -/

/-- The function `FDC_GetDMAAddress`: assemble the 24-bit DMA address from
the three memory-mapped bytes. -/
def FDC_GetDMAAddress (m : Machine) : Nat :=
  (m.dmaAddrHi <<< 16) ||| (m.dmaAddrMid <<< 8) ||| m.dmaAddrLo

/-- The function `FDC_WriteDMAAddress`: store a (masked, word-aligned)
24-bit address into the three DMA address bytes. -/
def FDC_WriteDMAAddress (m : Machine) (address : Nat) : Machine :=
  let address := if m.machType.limited4MB then address &&& 0x3fffff else address
  let address := address &&& 0xfffffffe
  { m with dmaAddrHi := u8 (address >>> 16), dmaAddrMid := u8 (address >>> 8),
           dmaAddrLo := u8 address }

/-- Offsets of the three DMA address byte registers. -/
def ADDR_DMA_HI : Nat := 0xff8609
def ADDR_DMA_MID : Nat := 0xff860b
def ADDR_DMA_LO : Nat := 0xff860d

/-- The function `FDC_DmaAddress_WriteByte`: a CPU byte write to one of the
three DMA address registers.  The byte is stored by the IO layer, then the
high byte is masked to six bits on 4 MB machines and bit 0 of the low byte
is forced to 0. -/
def FDC_DmaAddress_WriteByte (m : Machine) (offset val : Nat) : Machine :=
  let m :=
    if offset = ADDR_DMA_HI then { m with dmaAddrHi := u8 val }
    else if offset = ADDR_DMA_MID then { m with dmaAddrMid := u8 val }
    else if offset = ADDR_DMA_LO then { m with dmaAddrLo := u8 val }
    else m
  let m :=
    if offset = ADDR_DMA_HI ∧ m.machType.limited4MB then
      { m with dmaAddrHi := m.dmaAddrHi &&& 0x3f }
    else m
  if offset = ADDR_DMA_LO then { m with dmaAddrLo := m.dmaAddrLo &&& 0xfe }
  else m

/-! ### DMA FIFO -/

/-- The function `FDC_DMA_FIFO_Push`: add one byte (read from the FDC data
register) to the DMA FIFO.  The byte is always recorded in the low half of
the `ff8604` shadow; when the sector count is 0 the DMA error bit is set
and the byte is discarded; when the FIFO reaches 16 bytes it is flushed to
RAM at the DMA address (modelled by appending to `memWrites`). -/
def FDC_DMA_FIFO_Push (m : Machine) (byte : Nat) : Machine :=
  let m := withDma m fun d =>
    { d with ff8604_recent_val := (d.ff8604_recent_val &&& 0xff00) ||| u8 byte }
  if m.dma.SectorCount = 0 then
    FDC_SetDMAStatus m true
  else
    let m := FDC_SetDMAStatus m false
    let m := withDma m fun d =>
      { d with FIFO := d.FIFO.set d.FIFO_Size (u8 byte), FIFO_Size := d.FIFO_Size + 1 }
    if m.dma.FIFO_Size < FDC_DMA_FIFO_SIZE then m
    else
      let address := FDC_GetDMAAddress m
      let m := { m with memWrites := m.memWrites ++ [(address, m.dma.FIFO)] }
      let m := FDC_WriteDMAAddress m (address + FDC_DMA_FIFO_SIZE)
      let m := withDma m fun d =>
        { d with FIFO_Size := 0,
                 ff8604_recent_val := (d.FIFO.getD 14 0 <<< 8) ||| d.FIFO.getD 15 0,
                 BytesInSector := u16sub d.BytesInSector FDC_DMA_FIFO_SIZE }
      if m.dma.BytesInSector = 0 then
        withDma m fun d =>
          { d with SectorCount := u16sub d.SectorCount 1,
                   BytesInSector := FDC_DMA_SECTOR_SIZE }
      else m

/-- The function `FDC_DMA_FIFO_Pull`: take one byte from the DMA FIFO (to be
written to the FDC data register).  When the sector count is 0 the DMA
error bit is set and 0 is returned without touching the `ff8604` shadow;
when the FIFO is empty, 16 bytes are first loaded from RAM at the DMA
address. -/
def FDC_DMA_FIFO_Pull (env : Env) (m : Machine) : Machine × Nat :=
  if m.dma.SectorCount = 0 then
    (FDC_SetDMAStatus m true, 0)
  else
    let m := FDC_SetDMAStatus m false
    if 0 < m.dma.FIFO_Size then
      let byte := m.dma.FIFO.getD (FDC_DMA_FIFO_SIZE - m.dma.FIFO_Size) 0
      let m := withDma m fun d =>
        { d with FIFO_Size := d.FIFO_Size - 1,
                 ff8604_recent_val := (d.ff8604_recent_val &&& 0xff00) ||| byte }
      (m, byte)
    else
      let address := FDC_GetDMAAddress m
      let newFifo := (List.range FDC_DMA_FIFO_SIZE).map fun i => u8 (env.ram (address + i))
      let m := withDma m fun d => { d with FIFO := newFifo }
      let m := FDC_WriteDMAAddress m (address + FDC_DMA_FIFO_SIZE)
      let m := withDma m fun d =>
        { d with FIFO_Size := FDC_DMA_FIFO_SIZE - 1,
                 ff8604_recent_val := (d.FIFO.getD 14 0 <<< 8) ||| d.FIFO.getD 15 0,
                 BytesInSector := u16sub d.BytesInSector FDC_DMA_FIFO_SIZE }
      let m :=
        if m.dma.BytesInSector = 0 then
          withDma m fun d =>
            { d with SectorCount := u16sub d.SectorCount 1,
                     BytesInSector := FDC_DMA_SECTOR_SIZE }
        else m
      let byte := m.dma.FIFO.getD 0 0
      let m := withDma m fun d =>
        { d with ff8604_recent_val := (d.ff8604_recent_val &&& 0xff00) ||| byte }
      (m, byte)

/-! ### Reset -/

/-- The function `FDC_ResetDMA`: empty the FIFO, reset the per-sector byte
count and the sector count, and clear the transfer cursors. -/
def FDC_ResetDMA (m : Machine) : Machine :=
  withDma m fun d =>
    { d with FIFO_Size := 0, BytesInSector := FDC_DMA_SECTOR_SIZE,
             SectorCount := 0, PosInBuffer := 0, PosInBufferTransfer := 0,
             BytesToTransfer := 0 }

/-- The function `FDC_Reset`: hardware reset of the FDC and DMA.  On a cold
reset (power on) `TR`, `DR` and the `ff8604` shadow are also cleared; on a
warm reset they are kept. -/
def FDC_Reset (bCold : Bool) (m : Machine) : Machine :=
  let m := withFdc m fun r =>
    { r with CR := 0, STR := 0, SR := 1, StatusTypeI := false }
  let m :=
    if bCold then
      let m := withFdc m fun r => { r with TR := 0, DR := 0 }
      withDma m fun d => { d with ff8604_recent_val := 0 }
    else m
  let m := withFdc m fun r =>
    { r with StepDirection := 1, Command := FDCEMU_CMD_NULL,
             CommandState := FDCEMU_RUN_NULL, CommandType := 0,
             InterruptCond := 0, IndexPulse_Counter := 0 }
  let m := { m with drive0 := { m.drive0 with IndexPulse_Time := 0 },
                    drive1 := { m.drive1 with IndexPulse_Time := 0 } }
  let m := withDma m fun d => { d with Status := 1, Mode := 0 }
  FDC_ResetDMA m

/-! ### Angular clock -/

/-- The function `FDC_IndexPulse_Init`: seed the selected drive's index
reference with an (externally random) value, clamped away from 0. -/
def FDC_IndexPulse_Init (env : Env) (m : Machine) : Machine :=
  let t := if env.indexInit = 0 then 1 else env.indexInit
  setSelDrive m { selDrive m with IndexPulse_Time := t }

/-- The function `FDC_IndexPulse_Update`: when the motor is on and an
enabled drive with a disk is selected, re-seed a lost reference and, when
the global clock has crossed one revolution (oracle `pulseCrossed`),
advance the reference, count the pulse, and raise the IRQ if a type IV
force-interrupt-on-index-pulse is latched. -/
def FDC_IndexPulse_Update (env : Env) (m : Machine) : Machine :=
  if m.fdc.STR &&& FDC_STR_BIT_MOTOR_ON = 0 then m
  else if ¬ driveValidSel m then m
  else
    let m := if (selDrive m).IndexPulse_Time = 0 then FDC_IndexPulse_Init env m else m
    if env.pulseCrossed then
      let m := setSelDrive m
        { selDrive m with IndexPulse_Time := (selDrive m).IndexPulse_Time + env.pulsePeriod }
      let m := withFdc m fun r => { r with IndexPulse_Counter := r.IndexPulse_Counter + 1 }
      if m.fdc.InterruptCond &&& FDC_INTERRUPT_COND_IP ≠ 0 then FDC_SetIRQ m else m
    else m

/-- The function `FDC_NextSectorID_NbBytes`: oracle-driven; a non-negative
result also stores the next sector number into `NextSector_ID_Field_SR`. -/
def FDC_NextSectorID_NbBytes (env : Env) (m : Machine) : Machine × Int :=
  if env.nextSectorID_NbBytes < 0 then (m, env.nextSectorID_NbBytes)
  else
    (withFdc m fun r => { r with NextSector_ID_Field_SR := u8 env.nextSectorSR },
     env.nextSectorID_NbBytes)

/-- The function `FDC_Set_MotorON`: start the motor, beginning a spin-up
sequence when the command enables spin-up and the motor was off.  Returns
the updated machine and whether spin-up is needed. -/
def FDC_Set_MotorON (env : Env) (m : Machine) (cr : Nat) : Machine × Bool :=
  let spinUp := cr &&& FDC_COMMAND_BIT_SPIN_UP = 0 ∧ m.fdc.STR &&& FDC_STR_BIT_MOTOR_ON = 0
  let m :=
    if spinUp then
      let m := FDC_Update_STR m FDC_STR_BIT_SPIN_UP 0
      withFdc m fun r => { r with IndexPulse_Counter := 0 }
    else m
  let m := FDC_Update_STR m 0 FDC_STR_BIT_MOTOR_ON
  let m :=
    if ¬ driveValidSel m then m
    else if (selDrive m).IndexPulse_Time = 0 then FDC_IndexPulse_Init env m
    else m
  (m, decide spinUp)

/-- The function `FDC_VerifyTrack`: the verify phase of a type I command
succeeds when an enabled drive with a disk is selected, the physical head
is on the track stored in `TR`, and the requested side exists. -/
def FDC_VerifyTrack (env : Env) (m : Machine) : Bool :=
  if ¬ driveValidSel m then false
  else if (selDrive m).HeadTrack ≠ m.fdc.TR then false
  else if m.fdc.SideSignal = 1 ∧ env.sidesPerDisk = 1 then false
  else true

/-! ### Command classification -/

/-- The function `FDC_GetCmdType`: classify a command byte from its upper
bits into types 1 to 4. -/
def FDC_GetCmdType (cr : Nat) : Nat :=
  if cr &&& 0x80 = 0 then 1
  else if cr &&& 0x40 = 0 then 2
  else if cr &&& 0xf0 ≠ 0xd0 then 3
  else 4

/-! ### Command starters (FDC_TypeI_Restore and friends) -/

/-- The function `FDC_TypeI_Restore`: enter the restore command. -/
def FDC_TypeI_Restore (m : Machine) : Machine × Int :=
  let m := withFdc m fun r =>
    { r with Command := FDCEMU_CMD_RESTORE,
             CommandState := FDCEMU_RUN_RESTORE_SEEKTOTRACKZERO }
  let m := FDC_Update_STR m
    (FDC_STR_BIT_INDEX ||| FDC_STR_BIT_CRC_ERROR ||| FDC_STR_BIT_RNF) FDC_STR_BIT_BUSY
  (m, FDC_DELAY_CYCLE_TYPE_I_PREPARE)

/-- The function `FDC_TypeI_Seek`: enter the seek command. -/
def FDC_TypeI_Seek (m : Machine) : Machine × Int :=
  let m := withFdc m fun r =>
    { r with Command := FDCEMU_CMD_SEEK, CommandState := FDCEMU_RUN_SEEK_TOTRACK }
  let m := FDC_Update_STR m
    (FDC_STR_BIT_INDEX ||| FDC_STR_BIT_CRC_ERROR ||| FDC_STR_BIT_RNF) FDC_STR_BIT_BUSY
  (m, FDC_DELAY_CYCLE_TYPE_I_PREPARE)

/-- The function `FDC_TypeI_Step`: enter the step command, keeping the
current step direction. -/
def FDC_TypeI_Step (m : Machine) : Machine × Int :=
  let m := withFdc m fun r =>
    { r with Command := FDCEMU_CMD_STEP, CommandState := FDCEMU_RUN_STEP_ONCE }
  let m := FDC_Update_STR m
    (FDC_STR_BIT_INDEX ||| FDC_STR_BIT_CRC_ERROR ||| FDC_STR_BIT_RNF) FDC_STR_BIT_BUSY
  (m, FDC_DELAY_CYCLE_TYPE_I_PREPARE)

/-- The function `FDC_TypeI_StepIn`: enter the step command with direction
set to +1. -/
def FDC_TypeI_StepIn (m : Machine) : Machine × Int :=
  let m := withFdc m fun r =>
    { r with Command := FDCEMU_CMD_STEP, CommandState := FDCEMU_RUN_STEP_ONCE,
             StepDirection := 1 }
  let m := FDC_Update_STR m
    (FDC_STR_BIT_INDEX ||| FDC_STR_BIT_CRC_ERROR ||| FDC_STR_BIT_RNF) FDC_STR_BIT_BUSY
  (m, FDC_DELAY_CYCLE_TYPE_I_PREPARE)

/-- The function `FDC_TypeI_StepOut`: enter the step command with direction
set to -1. -/
def FDC_TypeI_StepOut (m : Machine) : Machine × Int :=
  let m := withFdc m fun r =>
    { r with Command := FDCEMU_CMD_STEP, CommandState := FDCEMU_RUN_STEP_ONCE,
             StepDirection := -1 }
  let m := FDC_Update_STR m
    (FDC_STR_BIT_INDEX ||| FDC_STR_BIT_CRC_ERROR ||| FDC_STR_BIT_RNF) FDC_STR_BIT_BUSY
  (m, FDC_DELAY_CYCLE_TYPE_I_PREPARE)

/-- The function `FDC_TypeII_ReadSector`: enter the read sector(s) command. -/
def FDC_TypeII_ReadSector (m : Machine) : Machine × Int :=
  let m := withFdc m fun r =>
    { r with Command := FDCEMU_CMD_READSECTORS,
             CommandState := FDCEMU_RUN_READSECTORS_READDATA }
  let m := FDC_Update_STR m
    (FDC_STR_BIT_DRQ ||| FDC_STR_BIT_LOST_DATA ||| FDC_STR_BIT_CRC_ERROR |||
      FDC_STR_BIT_RNF ||| FDC_STR_BIT_RECORD_TYPE ||| FDC_STR_BIT_WPRT) FDC_STR_BIT_BUSY
  (m, FDC_DELAY_CYCLE_TYPE_II_PREPARE)

/-- The function `FDC_TypeII_WriteSector`: enter the write sector(s)
command. -/
def FDC_TypeII_WriteSector (m : Machine) : Machine × Int :=
  let m := withFdc m fun r =>
    { r with Command := FDCEMU_CMD_WRITESECTORS,
             CommandState := FDCEMU_RUN_WRITESECTORS_WRITEDATA }
  let m := FDC_Update_STR m
    (FDC_STR_BIT_DRQ ||| FDC_STR_BIT_LOST_DATA ||| FDC_STR_BIT_CRC_ERROR |||
      FDC_STR_BIT_RNF ||| FDC_STR_BIT_RECORD_TYPE) FDC_STR_BIT_BUSY
  (m, FDC_DELAY_CYCLE_TYPE_II_PREPARE)

/-- The function `FDC_TypeIII_ReadAddress`: enter the read address
command. -/
def FDC_TypeIII_ReadAddress (m : Machine) : Machine × Int :=
  let m := withFdc m fun r =>
    { r with Command := FDCEMU_CMD_READADDRESS, CommandState := FDCEMU_RUN_READADDRESS }
  let m := FDC_Update_STR m
    (FDC_STR_BIT_DRQ ||| FDC_STR_BIT_LOST_DATA ||| FDC_STR_BIT_CRC_ERROR |||
      FDC_STR_BIT_RNF ||| FDC_STR_BIT_RECORD_TYPE ||| FDC_STR_BIT_WPRT) FDC_STR_BIT_BUSY
  (m, FDC_DELAY_CYCLE_TYPE_III_PREPARE)

/-- The function `FDC_TypeIII_ReadTrack`: enter the read track command. -/
def FDC_TypeIII_ReadTrack (m : Machine) : Machine × Int :=
  let m := withFdc m fun r =>
    { r with Command := FDCEMU_CMD_READTRACK, CommandState := FDCEMU_RUN_READTRACK }
  let m := FDC_Update_STR m
    (FDC_STR_BIT_DRQ ||| FDC_STR_BIT_LOST_DATA ||| FDC_STR_BIT_CRC_ERROR |||
      FDC_STR_BIT_RNF ||| FDC_STR_BIT_RECORD_TYPE ||| FDC_STR_BIT_WPRT) FDC_STR_BIT_BUSY
  (m, FDC_DELAY_CYCLE_TYPE_III_PREPARE)

/-- The function `FDC_TypeIII_WriteTrack`: write track is not implemented;
the RNF bit is set and the command is terminated at once (no busy change,
no IRQ, no motor-stop phase). -/
def FDC_TypeIII_WriteTrack (m : Machine) : Machine × Int :=
  let m := FDC_Update_STR m 0 FDC_STR_BIT_RNF
  let m := withFdc m fun r =>
    { r with Command := FDCEMU_CMD_NULL, CommandState := FDCEMU_RUN_NULL }
  (m, FDC_DELAY_CYCLE_TYPE_III_PREPARE)

/-- The function `FDC_TypeIV_ForceInterrupt`: latch the interrupt condition
from the low four command bits, raise or clear the IRQ accordingly, then
complete through the common path without raising a further interrupt. -/
def FDC_TypeIV_ForceInterrupt (m : Machine) : Machine × Int :=
  let m :=
    if m.fdc.STR &&& FDC_STR_BIT_BUSY = 0 then
      withFdc m fun r => { r with StatusTypeI := true }
    else m
  let m := withFdc m fun r => { r with InterruptCond := r.CR &&& 0x0f }
  let m :=
    if m.fdc.InterruptCond &&& FDC_INTERRUPT_COND_IMMEDIATE ≠ 0 then FDC_SetIRQ m
    else FDC_ClearIRQ m
  let (m, c) := FDC_CmdCompleteCommon m false
  (m, FDC_DELAY_CYCLE_TYPE_IV_PREPARE + c)

/-- The function `FDC_ExecuteTypeICommands`: dispatch a type I command from
the top nibble of `CR`. -/
def FDC_ExecuteTypeICommands (m : Machine) : Machine × Int :=
  let m := withFdc m fun r => { r with CommandType := 1, StatusTypeI := true }
  let m := FDC_ClearIRQ m
  if m.fdc.CR &&& 0xf0 = 0x00 then FDC_TypeI_Restore m
  else if m.fdc.CR &&& 0xf0 = 0x10 then FDC_TypeI_Seek m
  else if m.fdc.CR &&& 0xf0 = 0x20 ∨ m.fdc.CR &&& 0xf0 = 0x30 then FDC_TypeI_Step m
  else if m.fdc.CR &&& 0xf0 = 0x40 ∨ m.fdc.CR &&& 0xf0 = 0x50 then FDC_TypeI_StepIn m
  else FDC_TypeI_StepOut m

/-- The function `FDC_ExecuteTypeIICommands`: dispatch a type II command. -/
def FDC_ExecuteTypeIICommands (m : Machine) : Machine × Int :=
  let m := withFdc m fun r => { r with CommandType := 2, StatusTypeI := false }
  let m := FDC_ClearIRQ m
  if m.fdc.CR &&& 0xf0 = 0x80 ∨ m.fdc.CR &&& 0xf0 = 0x90 then FDC_TypeII_ReadSector m
  else FDC_TypeII_WriteSector m

/-- The function `FDC_ExecuteTypeIIICommands`: dispatch a type III
command. -/
def FDC_ExecuteTypeIIICommands (m : Machine) : Machine × Int :=
  let m := withFdc m fun r => { r with CommandType := 3, StatusTypeI := false }
  let m := FDC_ClearIRQ m
  if m.fdc.CR &&& 0xf0 = 0xc0 then FDC_TypeIII_ReadAddress m
  else if m.fdc.CR &&& 0xf0 = 0xe0 then FDC_TypeIII_ReadTrack m
  else if m.fdc.CR &&& 0xf0 = 0xf0 then FDC_TypeIII_WriteTrack m
  else (m, 0)

/-- The function `FDC_ExecuteTypeIVCommands`: dispatch a type IV command. -/
def FDC_ExecuteTypeIVCommands (m : Machine) : Machine × Int :=
  let m := withFdc m fun r => { r with CommandType := 4 }
  FDC_TypeIV_ForceInterrupt m

/-- The function `FDC_ExecuteCommand`: classify `CR`, run the matching
starter, then mark the new command replaceable during its prepare+spin-up
phase. -/
def FDC_ExecuteCommand (m : Machine) : Machine :=
  let t := FDC_GetCmdType m.fdc.CR
  let m :=
    if t = 1 then (FDC_ExecuteTypeICommands m).1
    else if t = 2 then (FDC_ExecuteTypeIICommands m).1
    else if t = 3 then (FDC_ExecuteTypeIIICommands m).1
    else (FDC_ExecuteTypeIVCommands m).1
  withFdc m fun r => { r with ReplaceCommandPossible := true }

/-! ### Register write functions -/

/-- The replacement test of `FDC_WriteCommandRegister`: a new command byte
is accepted while BUSY only when it is type IV, or when the running command
is still replace-possible and the new command has the same type I or II. -/
def cmdWriteAllowed (m : Machine) (b : Nat) : Bool :=
  FDC_GetCmdType b = 4 ||
    (m.fdc.ReplaceCommandPossible &&
      ((FDC_GetCmdType b = 1 && m.fdc.CommandType = 1) ||
       (FDC_GetCmdType b = 2 && m.fdc.CommandType = 2)))

/-- The function `FDC_WriteCommandRegister`: store the byte in `CR` and
start it, unless the controller is busy and the replacement test fails, in
which case the write is silently dropped. -/
def FDC_WriteCommandRegister (m : Machine) (b : Nat) : Machine :=
  if m.fdc.STR &&& FDC_STR_BIT_BUSY ≠ 0 ∧ cmdWriteAllowed m (u8 b) = false then m
  else FDC_ExecuteCommand (withFdc m fun r => { r with CR := u8 b })

/-- The function `FDC_WriteTrackRegister`: the byte is stored in `TR`
unconditionally (busy or not). -/
def FDC_WriteTrackRegister (m : Machine) (b : Nat) : Machine :=
  withFdc m fun r => { r with TR := u8 b }

/-- The function `FDC_WriteSectorRegister`: the byte is stored in `SR`
unconditionally (busy or not). -/
def FDC_WriteSectorRegister (m : Machine) (b : Nat) : Machine :=
  withFdc m fun r => { r with SR := u8 b }

/-- The function `FDC_WriteDataRegister`. -/
def FDC_WriteDataRegister (m : Machine) (b : Nat) : Machine :=
  withFdc m fun r => { r with DR := u8 b }

/-- The function `FDC_WriteSectorCountRegister`: store the low byte of the
word written at $ff8604 into the DMA sector counter. -/
def FDC_WriteSectorCountRegister (m : Machine) (b : Nat) : Machine :=
  withDma m fun d => { d with SectorCount := u8 b }

/-! ### The RESTORE command (FDC_UpdateRestoreCmd) -/

/-- Body of the `FDCEMU_RUN_RESTORE_SEEKTOTRACKZERO_LOOP` case.  Note the
source has no `else` between the two `if` blocks: when `TR` has reached 0
the command is completed with RNF, and the drive/head test still runs
afterwards on the completed state. -/
def FDC_RestoreLoopBody (m : Machine) : Machine × Int :=
  let m :=
    if m.fdc.TR = 0 then
      let m := FDC_Update_STR m 0 FDC_STR_BIT_RNF
      let m := FDC_Update_STR m FDC_STR_BIT_TR00 0
      (FDC_CmdCompleteCommon m true).1
    else m
  if m.fdc.DriveSelSignal < 0 ∨ (selDrive m).Enabled = false ∨
      (selDrive m).HeadTrack ≠ 0 then
    let m := FDC_Update_STR m FDC_STR_BIT_TR00 0
    let m := withFdc m fun r => { r with TR := u8dec r.TR }
    let m :=
      if driveEnabledSel m then
        setSelDrive m { selDrive m with HeadTrack := u8dec (selDrive m).HeadTrack }
      else m
    (m, stepRateDelay m)
  else
    let m := FDC_Update_STR m 0 FDC_STR_BIT_TR00
    let m := withFdc m fun r =>
      { r with TR := 0, CommandState := FDCEMU_RUN_RESTORE_VERIFY }
    (m, FDC_DELAY_CYCLE_COMMAND_IMMEDIATE)

/-- Body of the `FDCEMU_RUN_RESTORE_SEEKTOTRACKZERO_MOTOR_ON` case, which
falls through into the loop case. -/
def FDC_RestoreMotorOnBody (m : Machine) : Machine × Int :=
  let m := FDC_Update_STR m 0 FDC_STR_BIT_SPIN_UP
  let m := withFdc m fun r =>
    { r with ReplaceCommandPossible := false, TR := 0xff,
             CommandState := FDCEMU_RUN_RESTORE_SEEKTOTRACKZERO_LOOP }
  FDC_RestoreLoopBody m

/-- Body shared by `_VERIFY_HEAD_OK` (which first clears the index pulse
counter) and `_VERIFY_NEXT_SECTOR_HEADER`. -/
def FDC_RestoreVerifyHeaderBody (env : Env) (m : Machine) : Machine × Int :=
  if FDC_DELAY_IP_ADDRESS_ID ≤ m.fdc.IndexPulse_Counter then
    let m := FDC_Update_STR m 0 FDC_STR_BIT_RNF
    (withFdc m fun r => { r with CommandState := FDCEMU_RUN_RESTORE_COMPLETE },
     FDC_DELAY_CYCLE_COMMAND_COMPLETE)
  else
    let (m, nb) := FDC_NextSectorID_NbBytes env m
    if nb < 0 then (m, FDC_DELAY_CYCLE_WAIT_NO_DRIVE_FLOPPY)
    else
      (withFdc m fun r =>
        { r with CommandState := FDCEMU_RUN_RESTORE_VERIFY_CHECK_SECTOR_HEADER },
       FDC_TransferByte_FdcCycles m (nb + 10))

/-- The function `FDC_UpdateRestoreCmd`: one scheduler visit of the restore
state machine. -/
def FDC_UpdateRestoreCmd (env : Env) (m : Machine) : Machine × Int :=
  if m.fdc.CommandState = FDCEMU_RUN_RESTORE_SEEKTOTRACKZERO then
    let (m, spin) := FDC_Set_MotorON env m m.fdc.CR
    if spin then
      (withFdc m fun r =>
        { r with CommandState := FDCEMU_RUN_RESTORE_SEEKTOTRACKZERO_SPIN_UP },
       FDC_DELAY_CYCLE_REFRESH_INDEX_PULSE)
    else
      (withFdc m fun r =>
        { r with CommandState := FDCEMU_RUN_RESTORE_SEEKTOTRACKZERO_MOTOR_ON },
       FDC_DELAY_CYCLE_COMMAND_IMMEDIATE)
  else if m.fdc.CommandState = FDCEMU_RUN_RESTORE_SEEKTOTRACKZERO_SPIN_UP then
    if m.fdc.IndexPulse_Counter < FDC_DELAY_IP_SPIN_UP then
      (m, FDC_DELAY_CYCLE_REFRESH_INDEX_PULSE)
    else FDC_RestoreMotorOnBody m
  else if m.fdc.CommandState = FDCEMU_RUN_RESTORE_SEEKTOTRACKZERO_MOTOR_ON then
    FDC_RestoreMotorOnBody m
  else if m.fdc.CommandState = FDCEMU_RUN_RESTORE_SEEKTOTRACKZERO_LOOP then
    FDC_RestoreLoopBody m
  else if m.fdc.CommandState = FDCEMU_RUN_RESTORE_VERIFY then
    if m.fdc.CR &&& FDC_COMMAND_BIT_VERIFY ≠ 0 then
      (withFdc m fun r => { r with CommandState := FDCEMU_RUN_RESTORE_VERIFY_HEAD_OK },
       FDC_DelayToFdcCycles FDC_DELAY_US_HEAD_LOAD)
    else
      (withFdc m fun r => { r with CommandState := FDCEMU_RUN_RESTORE_COMPLETE },
       FDC_DELAY_CYCLE_COMMAND_COMPLETE)
  else if m.fdc.CommandState = FDCEMU_RUN_RESTORE_VERIFY_HEAD_OK then
    FDC_RestoreVerifyHeaderBody env
      (withFdc m fun r => { r with IndexPulse_Counter := 0 })
  else if m.fdc.CommandState = FDCEMU_RUN_RESTORE_VERIFY_NEXT_SECTOR_HEADER then
    FDC_RestoreVerifyHeaderBody env m
  else if m.fdc.CommandState = FDCEMU_RUN_RESTORE_VERIFY_CHECK_SECTOR_HEADER then
    if FDC_VerifyTrack env m then
      let m := FDC_Update_STR m FDC_STR_BIT_RNF 0
      (withFdc m fun r => { r with CommandState := FDCEMU_RUN_RESTORE_COMPLETE },
       FDC_DELAY_CYCLE_COMMAND_COMPLETE)
    else
      (withFdc m fun r =>
        { r with CommandState := FDCEMU_RUN_RESTORE_VERIFY_NEXT_SECTOR_HEADER },
       FDC_DELAY_CYCLE_COMMAND_IMMEDIATE)
  else if m.fdc.CommandState = FDCEMU_RUN_RESTORE_COMPLETE then
    FDC_CmdCompleteCommon m true
  else (m, 0)

/-! ### The SEEK command (FDC_UpdateSeekCmd) -/

/-- Body of the `FDCEMU_RUN_SEEK_TOTRACK_MOTOR_ON` case: one step of the
seek loop (the physical head movement is clamped at tracks 0 and 90). -/
def FDC_SeekMotorOnBody (m : Machine) : Machine × Int :=
  let m := FDC_Update_STR m 0 FDC_STR_BIT_SPIN_UP
  let m := withFdc m fun r => { r with ReplaceCommandPossible := false }
  if m.fdc.TR = m.fdc.DR then
    (withFdc m fun r => { r with CommandState := FDCEMU_RUN_SEEK_VERIFY },
     FDC_DELAY_CYCLE_COMMAND_IMMEDIATE)
  else
    let m := withFdc m fun r =>
      { r with StepDirection := if r.DR < r.TR then -1 else 1 }
    let m := withFdc m fun r => { r with TR := u8addInt r.TR r.StepDirection }
    let c := stepRateDelay m
    let m := FDC_Update_STR m FDC_STR_BIT_TR00 0
    if driveEnabledSel m then
      if (selDrive m).HeadTrack = FDC_PHYSICAL_MAX_TRACK ∧ m.fdc.StepDirection = 1 then
        let m := withFdc m fun r => { r with CommandState := FDCEMU_RUN_SEEK_VERIFY }
        let m := if (selDrive m).HeadTrack = 0 then FDC_Update_STR m 0 FDC_STR_BIT_TR00 else m
        (m, FDC_DELAY_CYCLE_COMMAND_IMMEDIATE)
      else if (selDrive m).HeadTrack = 0 ∧ m.fdc.StepDirection = -1 then
        let m := withFdc m fun r =>
          { r with TR := 0, CommandState := FDCEMU_RUN_SEEK_VERIFY }
        let m := if (selDrive m).HeadTrack = 0 then FDC_Update_STR m 0 FDC_STR_BIT_TR00 else m
        (m, FDC_DELAY_CYCLE_COMMAND_IMMEDIATE)
      else
        let m := setSelDrive m
          { selDrive m with HeadTrack := u8addInt (selDrive m).HeadTrack m.fdc.StepDirection }
        let m := if (selDrive m).HeadTrack = 0 then FDC_Update_STR m 0 FDC_STR_BIT_TR00 else m
        (m, c)
    else (m, c)

/-- Body shared by the two seek verify header states. -/
def FDC_SeekVerifyHeaderBody (env : Env) (m : Machine) : Machine × Int :=
  if FDC_DELAY_IP_ADDRESS_ID ≤ m.fdc.IndexPulse_Counter then
    let m := FDC_Update_STR m 0 FDC_STR_BIT_RNF
    (withFdc m fun r => { r with CommandState := FDCEMU_RUN_SEEK_COMPLETE },
     FDC_DELAY_CYCLE_COMMAND_COMPLETE)
  else
    let (m, nb) := FDC_NextSectorID_NbBytes env m
    if nb < 0 then (m, FDC_DELAY_CYCLE_WAIT_NO_DRIVE_FLOPPY)
    else
      (withFdc m fun r =>
        { r with CommandState := FDCEMU_RUN_SEEK_VERIFY_CHECK_SECTOR_HEADER },
       FDC_TransferByte_FdcCycles m (nb + 10))

/-- The function `FDC_UpdateSeekCmd`. -/
def FDC_UpdateSeekCmd (env : Env) (m : Machine) : Machine × Int :=
  if m.fdc.CommandState = FDCEMU_RUN_SEEK_TOTRACK then
    let (m, spin) := FDC_Set_MotorON env m m.fdc.CR
    if spin then
      (withFdc m fun r => { r with CommandState := FDCEMU_RUN_SEEK_TOTRACK_SPIN_UP },
       FDC_DELAY_CYCLE_REFRESH_INDEX_PULSE)
    else
      (withFdc m fun r => { r with CommandState := FDCEMU_RUN_SEEK_TOTRACK_MOTOR_ON },
       FDC_DELAY_CYCLE_COMMAND_IMMEDIATE)
  else if m.fdc.CommandState = FDCEMU_RUN_SEEK_TOTRACK_SPIN_UP then
    if m.fdc.IndexPulse_Counter < FDC_DELAY_IP_SPIN_UP then
      (m, FDC_DELAY_CYCLE_REFRESH_INDEX_PULSE)
    else FDC_SeekMotorOnBody m
  else if m.fdc.CommandState = FDCEMU_RUN_SEEK_TOTRACK_MOTOR_ON then
    FDC_SeekMotorOnBody m
  else if m.fdc.CommandState = FDCEMU_RUN_SEEK_VERIFY then
    if m.fdc.CR &&& FDC_COMMAND_BIT_VERIFY ≠ 0 then
      (withFdc m fun r => { r with CommandState := FDCEMU_RUN_SEEK_VERIFY_HEAD_OK },
       FDC_DelayToFdcCycles FDC_DELAY_US_HEAD_LOAD)
    else
      (withFdc m fun r => { r with CommandState := FDCEMU_RUN_SEEK_COMPLETE },
       FDC_DELAY_CYCLE_COMMAND_COMPLETE)
  else if m.fdc.CommandState = FDCEMU_RUN_SEEK_VERIFY_HEAD_OK then
    FDC_SeekVerifyHeaderBody env
      (withFdc m fun r => { r with IndexPulse_Counter := 0 })
  else if m.fdc.CommandState = FDCEMU_RUN_SEEK_VERIFY_NEXT_SECTOR_HEADER then
    FDC_SeekVerifyHeaderBody env m
  else if m.fdc.CommandState = FDCEMU_RUN_SEEK_VERIFY_CHECK_SECTOR_HEADER then
    if FDC_VerifyTrack env m then
      let m := FDC_Update_STR m FDC_STR_BIT_RNF 0
      (withFdc m fun r => { r with CommandState := FDCEMU_RUN_SEEK_COMPLETE },
       FDC_DELAY_CYCLE_COMMAND_COMPLETE)
    else
      (withFdc m fun r =>
        { r with CommandState := FDCEMU_RUN_SEEK_VERIFY_NEXT_SECTOR_HEADER },
       FDC_DELAY_CYCLE_COMMAND_IMMEDIATE)
  else if m.fdc.CommandState = FDCEMU_RUN_SEEK_COMPLETE then
    FDC_CmdCompleteCommon m true
  else (m, 0)

/-! ### The STEP command (FDC_UpdateStepCmd) -/

/-- Body of the `FDCEMU_RUN_STEP_ONCE_MOTOR_ON` case: one single step, with
the physical head clamped at tracks 0 and 90. -/
def FDC_StepMotorOnBody (m : Machine) : Machine × Int :=
  let m := FDC_Update_STR m 0 FDC_STR_BIT_SPIN_UP
  let m := withFdc m fun r => { r with ReplaceCommandPossible := false }
  let m :=
    if m.fdc.CR &&& FDC_COMMAND_BIT_UPDATE_TRACK ≠ 0 then
      withFdc m fun r => { r with TR := u8addInt r.TR r.StepDirection }
    else m
  let c := stepRateDelay m
  let m := FDC_Update_STR m FDC_STR_BIT_TR00 0
  let (m, c) :=
    if driveEnabledSel m then
      if (selDrive m).HeadTrack = FDC_PHYSICAL_MAX_TRACK ∧ m.fdc.StepDirection = 1 then
        let m := if (selDrive m).HeadTrack = 0 then FDC_Update_STR m 0 FDC_STR_BIT_TR00 else m
        (m, FDC_DELAY_CYCLE_COMMAND_IMMEDIATE)
      else if (selDrive m).HeadTrack = 0 ∧ m.fdc.StepDirection = -1 then
        let m := if (selDrive m).HeadTrack = 0 then FDC_Update_STR m 0 FDC_STR_BIT_TR00 else m
        (m, FDC_DELAY_CYCLE_COMMAND_IMMEDIATE)
      else
        let m := setSelDrive m
          { selDrive m with HeadTrack := u8addInt (selDrive m).HeadTrack m.fdc.StepDirection }
        let m := if (selDrive m).HeadTrack = 0 then FDC_Update_STR m 0 FDC_STR_BIT_TR00 else m
        (m, c)
    else (m, c)
  (withFdc m fun r => { r with CommandState := FDCEMU_RUN_STEP_VERIFY }, c)

/-- Body shared by the two step verify header states. -/
def FDC_StepVerifyHeaderBody (env : Env) (m : Machine) : Machine × Int :=
  if FDC_DELAY_IP_ADDRESS_ID ≤ m.fdc.IndexPulse_Counter then
    let m := FDC_Update_STR m 0 FDC_STR_BIT_RNF
    (withFdc m fun r => { r with CommandState := FDCEMU_RUN_STEP_COMPLETE },
     FDC_DELAY_CYCLE_COMMAND_COMPLETE)
  else
    let (m, nb) := FDC_NextSectorID_NbBytes env m
    if nb < 0 then (m, FDC_DELAY_CYCLE_WAIT_NO_DRIVE_FLOPPY)
    else
      (withFdc m fun r =>
        { r with CommandState := FDCEMU_RUN_STEP_VERIFY_CHECK_SECTOR_HEADER },
       FDC_TransferByte_FdcCycles m (nb + 10))

/-- The function `FDC_UpdateStepCmd`. -/
def FDC_UpdateStepCmd (env : Env) (m : Machine) : Machine × Int :=
  if m.fdc.CommandState = FDCEMU_RUN_STEP_ONCE then
    let (m, spin) := FDC_Set_MotorON env m m.fdc.CR
    if spin then
      (withFdc m fun r => { r with CommandState := FDCEMU_RUN_STEP_ONCE_SPIN_UP },
       FDC_DELAY_CYCLE_REFRESH_INDEX_PULSE)
    else
      (withFdc m fun r => { r with CommandState := FDCEMU_RUN_STEP_ONCE_MOTOR_ON },
       FDC_DELAY_CYCLE_COMMAND_IMMEDIATE)
  else if m.fdc.CommandState = FDCEMU_RUN_STEP_ONCE_SPIN_UP then
    if m.fdc.IndexPulse_Counter < FDC_DELAY_IP_SPIN_UP then
      (m, FDC_DELAY_CYCLE_REFRESH_INDEX_PULSE)
    else FDC_StepMotorOnBody m
  else if m.fdc.CommandState = FDCEMU_RUN_STEP_ONCE_MOTOR_ON then
    FDC_StepMotorOnBody m
  else if m.fdc.CommandState = FDCEMU_RUN_STEP_VERIFY then
    if m.fdc.CR &&& FDC_COMMAND_BIT_VERIFY ≠ 0 then
      (withFdc m fun r => { r with CommandState := FDCEMU_RUN_STEP_VERIFY_HEAD_OK },
       FDC_DelayToFdcCycles FDC_DELAY_US_HEAD_LOAD)
    else
      (withFdc m fun r => { r with CommandState := FDCEMU_RUN_STEP_COMPLETE },
       FDC_DELAY_CYCLE_COMMAND_COMPLETE)
  else if m.fdc.CommandState = FDCEMU_RUN_STEP_VERIFY_HEAD_OK then
    FDC_StepVerifyHeaderBody env
      (withFdc m fun r => { r with IndexPulse_Counter := 0 })
  else if m.fdc.CommandState = FDCEMU_RUN_STEP_VERIFY_NEXT_SECTOR_HEADER then
    FDC_StepVerifyHeaderBody env m
  else if m.fdc.CommandState = FDCEMU_RUN_STEP_VERIFY_CHECK_SECTOR_HEADER then
    if FDC_VerifyTrack env m then
      let m := FDC_Update_STR m FDC_STR_BIT_RNF 0
      (withFdc m fun r => { r with CommandState := FDCEMU_RUN_STEP_COMPLETE },
       FDC_DELAY_CYCLE_COMMAND_COMPLETE)
    else
      (withFdc m fun r =>
        { r with CommandState := FDCEMU_RUN_STEP_VERIFY_NEXT_SECTOR_HEADER },
       FDC_DELAY_CYCLE_COMMAND_IMMEDIATE)
  else if m.fdc.CommandState = FDCEMU_RUN_STEP_COMPLETE then
    FDC_CmdCompleteCommon m true
  else (m, 0)

/-! ### The READ SECTOR(S) command (FDC_UpdateReadSectorsCmd) -/

/-- Body shared by `_READDATA_MOTOR_ON` (which first clears the replace
flag and the index pulse counter) and `_READDATA_NEXT_SECTOR_HEADER`. -/
def FDC_ReadSectorsHeaderBody (env : Env) (m : Machine) : Machine × Int :=
  if FDC_DELAY_IP_ADDRESS_ID ≤ m.fdc.IndexPulse_Counter then
    (withFdc m fun r => { r with CommandState := FDCEMU_RUN_READSECTORS_RNF },
     FDC_DELAY_CYCLE_COMMAND_IMMEDIATE)
  else
    let (m, nb) := FDC_NextSectorID_NbBytes env m
    if nb < 0 then (m, FDC_DELAY_CYCLE_WAIT_NO_DRIVE_FLOPPY)
    else
      (withFdc m fun r =>
        { r with CommandState := FDCEMU_RUN_READSECTORS_READDATA_CHECK_SECTOR_HEADER },
       FDC_TransferByte_FdcCycles m (nb + 7))

/-- The function `FDC_UpdateReadSectorsCmd`. -/
def FDC_UpdateReadSectorsCmd (env : Env) (m : Machine) : Machine × Int :=
  if m.fdc.CommandState = FDCEMU_RUN_READSECTORS_READDATA then
    let (m, spin) := FDC_Set_MotorON env m m.fdc.CR
    if spin then
      (withFdc m fun r =>
        { r with CommandState := FDCEMU_RUN_READSECTORS_READDATA_SPIN_UP },
       FDC_DELAY_CYCLE_REFRESH_INDEX_PULSE)
    else
      (withFdc m fun r =>
        { r with CommandState := FDCEMU_RUN_READSECTORS_READDATA_HEAD_LOAD },
       FDC_DELAY_CYCLE_COMMAND_IMMEDIATE)
  else if m.fdc.CommandState = FDCEMU_RUN_READSECTORS_READDATA_SPIN_UP then
    if m.fdc.IndexPulse_Counter < FDC_DELAY_IP_SPIN_UP then
      (m, FDC_DELAY_CYCLE_REFRESH_INDEX_PULSE)
    else if m.fdc.CR &&& FDC_COMMAND_BIT_HEAD_LOAD ≠ 0 then
      (withFdc m fun r =>
        { r with CommandState := FDCEMU_RUN_READSECTORS_READDATA_MOTOR_ON },
       FDC_DelayToFdcCycles FDC_DELAY_US_HEAD_LOAD)
    else
      FDC_ReadSectorsHeaderBody env
        (withFdc m fun r => { r with ReplaceCommandPossible := false, IndexPulse_Counter := 0 })
  else if m.fdc.CommandState = FDCEMU_RUN_READSECTORS_READDATA_HEAD_LOAD then
    if m.fdc.CR &&& FDC_COMMAND_BIT_HEAD_LOAD ≠ 0 then
      (withFdc m fun r =>
        { r with CommandState := FDCEMU_RUN_READSECTORS_READDATA_MOTOR_ON },
       FDC_DelayToFdcCycles FDC_DELAY_US_HEAD_LOAD)
    else
      FDC_ReadSectorsHeaderBody env
        (withFdc m fun r => { r with ReplaceCommandPossible := false, IndexPulse_Counter := 0 })
  else if m.fdc.CommandState = FDCEMU_RUN_READSECTORS_READDATA_MOTOR_ON then
    FDC_ReadSectorsHeaderBody env
      (withFdc m fun r => { r with ReplaceCommandPossible := false, IndexPulse_Counter := 0 })
  else if m.fdc.CommandState = FDCEMU_RUN_READSECTORS_READDATA_NEXT_SECTOR_HEADER then
    FDC_ReadSectorsHeaderBody env m
  else if m.fdc.CommandState = FDCEMU_RUN_READSECTORS_READDATA_CHECK_SECTOR_HEADER then
    if m.fdc.NextSector_ID_Field_SR = m.fdc.SR then
      (withFdc m fun r =>
        { r with CommandState := FDCEMU_RUN_READSECTORS_READDATA_TRANSFER_START },
       FDC_TransferByte_FdcCycles m
         (1 + 2 + FDC_TRACK_LAYOUT_STANDARD_GAP3a + FDC_TRACK_LAYOUT_STANDARD_GAP3b + 3 + 1))
    else
      (withFdc m fun r =>
        { r with CommandState := FDCEMU_RUN_READSECTORS_READDATA_NEXT_SECTOR_HEADER },
       FDC_DELAY_CYCLE_COMMAND_IMMEDIATE)
  else if m.fdc.CommandState = FDCEMU_RUN_READSECTORS_READDATA_TRANSFER_START then
    if env.readSectorOk then
      let m := withDma m fun d =>
        { d with BytesToTransfer := env.sectorSize, PosInBuffer := 0 }
      (withFdc m fun r =>
        { r with CommandState := FDCEMU_RUN_READSECTORS_READDATA_TRANSFER_LOOP },
       FDC_DELAY_CYCLE_COMMAND_IMMEDIATE)
    else
      (withFdc m fun r => { r with CommandState := FDCEMU_RUN_READSECTORS_RNF },
       FDC_DELAY_CYCLE_COMMAND_IMMEDIATE)
  else if m.fdc.CommandState = FDCEMU_RUN_READSECTORS_READDATA_TRANSFER_LOOP then
    if 0 < m.dma.BytesToTransfer then
      let m := withDma m fun d => { d with BytesToTransfer := d.BytesToTransfer - 1 }
      let m := FDC_DMA_FIFO_Push m (env.workspace m.dma.PosInBuffer)
      let m := withDma m fun d => { d with PosInBuffer := d.PosInBuffer + 1 }
      (m, FDC_TransferByte_FdcCycles m 1)
    else
      let m := withDma m fun d => { d with BytesToTransfer := d.BytesToTransfer - 1 }
      (withFdc m fun r => { r with CommandState := FDCEMU_RUN_READSECTORS_CRC },
       FDC_TransferByte_FdcCycles m 2)
  else if m.fdc.CommandState = FDCEMU_RUN_READSECTORS_CRC then
    if m.fdc.CR &&& FDC_COMMAND_BIT_MULTIPLE_SECTOR ≠ 0 then
      (withFdc m fun r =>
        { r with SR := u8inc r.SR, CommandState := FDCEMU_RUN_READSECTORS_READDATA },
       FDC_DELAY_CYCLE_COMMAND_IMMEDIATE)
    else
      (withFdc m fun r => { r with CommandState := FDCEMU_RUN_READSECTORS_COMPLETE },
       FDC_DELAY_CYCLE_COMMAND_COMPLETE)
  else if m.fdc.CommandState = FDCEMU_RUN_READSECTORS_RNF then
    let m := FDC_Update_STR m 0 FDC_STR_BIT_RNF
    FDC_CmdCompleteCommon m true
  else if m.fdc.CommandState = FDCEMU_RUN_READSECTORS_COMPLETE then
    FDC_CmdCompleteCommon m true
  else (m, 0)

/-! ### The WRITE SECTOR(S) command (FDC_UpdateWriteSectorsCmd) -/

/-- Body shared by `_WRITEDATA_MOTOR_ON` and
`_WRITEDATA_NEXT_SECTOR_HEADER`. -/
def FDC_WriteSectorsHeaderBody (env : Env) (m : Machine) : Machine × Int :=
  if FDC_DELAY_IP_ADDRESS_ID ≤ m.fdc.IndexPulse_Counter then
    (withFdc m fun r => { r with CommandState := FDCEMU_RUN_WRITESECTORS_RNF },
     FDC_DELAY_CYCLE_COMMAND_IMMEDIATE)
  else
    let (m, nb) := FDC_NextSectorID_NbBytes env m
    if nb < 0 then (m, FDC_DELAY_CYCLE_WAIT_NO_DRIVE_FLOPPY)
    else
      (withFdc m fun r =>
        { r with CommandState := FDCEMU_RUN_WRITESECTORS_WRITEDATA_CHECK_SECTOR_HEADER },
       FDC_TransferByte_FdcCycles m (nb + 7))

/-- The switch part of `FDC_UpdateWriteSectorsCmd`, after the
write-protection pre-check; `c0` is the delay carried in when no case
matches. -/
def FDC_WriteSectorsSwitch (env : Env) (m : Machine) (c0 : Int) : Machine × Int :=
  if m.fdc.CommandState = FDCEMU_RUN_WRITESECTORS_WRITEDATA then
    let (m, spin) := FDC_Set_MotorON env m m.fdc.CR
    if spin then
      (withFdc m fun r =>
        { r with CommandState := FDCEMU_RUN_WRITESECTORS_WRITEDATA_SPIN_UP },
       FDC_DELAY_CYCLE_REFRESH_INDEX_PULSE)
    else
      (withFdc m fun r =>
        { r with CommandState := FDCEMU_RUN_WRITESECTORS_WRITEDATA_HEAD_LOAD },
       FDC_DELAY_CYCLE_COMMAND_IMMEDIATE)
  else if m.fdc.CommandState = FDCEMU_RUN_WRITESECTORS_WRITEDATA_SPIN_UP then
    if m.fdc.IndexPulse_Counter < FDC_DELAY_IP_SPIN_UP then
      (m, FDC_DELAY_CYCLE_REFRESH_INDEX_PULSE)
    else if m.fdc.CR &&& FDC_COMMAND_BIT_HEAD_LOAD ≠ 0 then
      (withFdc m fun r =>
        { r with CommandState := FDCEMU_RUN_WRITESECTORS_WRITEDATA_MOTOR_ON },
       FDC_DelayToFdcCycles FDC_DELAY_US_HEAD_LOAD)
    else
      FDC_WriteSectorsHeaderBody env
        (withFdc m fun r => { r with ReplaceCommandPossible := false, IndexPulse_Counter := 0 })
  else if m.fdc.CommandState = FDCEMU_RUN_WRITESECTORS_WRITEDATA_HEAD_LOAD then
    if m.fdc.CR &&& FDC_COMMAND_BIT_HEAD_LOAD ≠ 0 then
      (withFdc m fun r =>
        { r with CommandState := FDCEMU_RUN_WRITESECTORS_WRITEDATA_MOTOR_ON },
       FDC_DelayToFdcCycles FDC_DELAY_US_HEAD_LOAD)
    else
      FDC_WriteSectorsHeaderBody env
        (withFdc m fun r => { r with ReplaceCommandPossible := false, IndexPulse_Counter := 0 })
  else if m.fdc.CommandState = FDCEMU_RUN_WRITESECTORS_WRITEDATA_MOTOR_ON then
    FDC_WriteSectorsHeaderBody env
      (withFdc m fun r => { r with ReplaceCommandPossible := false, IndexPulse_Counter := 0 })
  else if m.fdc.CommandState = FDCEMU_RUN_WRITESECTORS_WRITEDATA_NEXT_SECTOR_HEADER then
    FDC_WriteSectorsHeaderBody env m
  else if m.fdc.CommandState = FDCEMU_RUN_WRITESECTORS_WRITEDATA_CHECK_SECTOR_HEADER then
    if m.fdc.NextSector_ID_Field_SR = m.fdc.SR then
      (withFdc m fun r =>
        { r with CommandState := FDCEMU_RUN_WRITESECTORS_WRITEDATA_TRANSFER_START },
       FDC_TransferByte_FdcCycles m
         (1 + 2 + FDC_TRACK_LAYOUT_STANDARD_GAP3a + FDC_TRACK_LAYOUT_STANDARD_GAP3b + 3 + 1))
    else
      (withFdc m fun r =>
        { r with CommandState := FDCEMU_RUN_WRITESECTORS_WRITEDATA_NEXT_SECTOR_HEADER },
       FDC_DELAY_CYCLE_COMMAND_IMMEDIATE)
  else if m.fdc.CommandState = FDCEMU_RUN_WRITESECTORS_WRITEDATA_TRANSFER_START then
    if env.writeSectorOk then
      let m := withDma m fun d =>
        { d with BytesToTransfer := env.sectorSize, PosInBuffer := 0 }
      (withFdc m fun r =>
        { r with CommandState := FDCEMU_RUN_WRITESECTORS_WRITEDATA_TRANSFER_LOOP },
       FDC_DELAY_CYCLE_COMMAND_IMMEDIATE)
    else
      (withFdc m fun r => { r with CommandState := FDCEMU_RUN_WRITESECTORS_RNF },
       FDC_DELAY_CYCLE_COMMAND_IMMEDIATE)
  else if m.fdc.CommandState = FDCEMU_RUN_WRITESECTORS_WRITEDATA_TRANSFER_LOOP then
    if 0 < m.dma.BytesToTransfer then
      let m := withDma m fun d => { d with BytesToTransfer := d.BytesToTransfer - 1 }
      let m := (FDC_DMA_FIFO_Pull env m).1
      (m, FDC_TransferByte_FdcCycles m 1)
    else
      let m := withDma m fun d => { d with BytesToTransfer := d.BytesToTransfer - 1 }
      (withFdc m fun r => { r with CommandState := FDCEMU_RUN_WRITESECTORS_CRC },
       FDC_TransferByte_FdcCycles m 2)
  else if m.fdc.CommandState = FDCEMU_RUN_WRITESECTORS_CRC then
    if m.fdc.CR &&& FDC_COMMAND_BIT_MULTIPLE_SECTOR ≠ 0 then
      (withFdc m fun r =>
        { r with SR := u8inc r.SR, CommandState := FDCEMU_RUN_WRITESECTORS_WRITEDATA },
       FDC_DELAY_CYCLE_COMMAND_IMMEDIATE)
    else
      (withFdc m fun r => { r with CommandState := FDCEMU_RUN_WRITESECTORS_COMPLETE },
       FDC_DELAY_CYCLE_COMMAND_COMPLETE)
  else if m.fdc.CommandState = FDCEMU_RUN_WRITESECTORS_RNF then
    let m := FDC_Update_STR m 0 FDC_STR_BIT_RNF
    FDC_CmdCompleteCommon m true
  else if m.fdc.CommandState = FDCEMU_RUN_WRITESECTORS_COMPLETE then
    FDC_CmdCompleteCommon m true
  else (m, c0)

/-- The function `FDC_UpdateWriteSectorsCmd`: the write-protection check
runs on every visit before the switch; on a protected disk WPRT is set and
the command completes at once. -/
def FDC_UpdateWriteSectorsCmd (env : Env) (m : Machine) : Machine × Int :=
  let (m, c0) :=
    if driveValidSel m ∧ env.isWriteProtected = true then
      let m := FDC_Update_STR m 0 FDC_STR_BIT_WPRT
      FDC_CmdCompleteCommon m true
    else (FDC_Update_STR m FDC_STR_BIT_WPRT 0, 0)
  FDC_WriteSectorsSwitch env m c0

/-! ### The READ ADDRESS command (FDC_UpdateReadAddressCmd) -/

/-- Body of the `FDCEMU_RUN_READADDRESS_MOTOR_ON` case. -/
def FDC_ReadAddressMotorOnBody (env : Env) (m : Machine) : Machine × Int :=
  let (m, nb) := FDC_NextSectorID_NbBytes env m
  if nb < 0 then (m, FDC_DELAY_CYCLE_WAIT_NO_DRIVE_FLOPPY)
  else
    (withFdc m fun r =>
      { r with CommandState := FDCEMU_RUN_READADDRESS_TRANSFER_START },
     FDC_TransferByte_FdcCycles m (nb + 4))

/-- The function `FDC_UpdateReadAddressCmd`. -/
def FDC_UpdateReadAddressCmd (env : Env) (m : Machine) : Machine × Int :=
  if m.fdc.CommandState = FDCEMU_RUN_READADDRESS then
    let (m, spin) := FDC_Set_MotorON env m m.fdc.CR
    if spin then
      (withFdc m fun r => { r with CommandState := FDCEMU_RUN_READADDRESS_SPIN_UP },
       FDC_DELAY_CYCLE_REFRESH_INDEX_PULSE)
    else
      (withFdc m fun r => { r with CommandState := FDCEMU_RUN_READADDRESS_HEAD_LOAD },
       FDC_DELAY_CYCLE_COMMAND_IMMEDIATE)
  else if m.fdc.CommandState = FDCEMU_RUN_READADDRESS_SPIN_UP then
    if m.fdc.IndexPulse_Counter < FDC_DELAY_IP_SPIN_UP then
      (m, FDC_DELAY_CYCLE_REFRESH_INDEX_PULSE)
    else
      let m := withFdc m fun r => { r with ReplaceCommandPossible := false }
      if m.fdc.CR &&& FDC_COMMAND_BIT_HEAD_LOAD ≠ 0 then
        (withFdc m fun r => { r with CommandState := FDCEMU_RUN_READADDRESS_MOTOR_ON },
         FDC_DelayToFdcCycles FDC_DELAY_US_HEAD_LOAD)
      else FDC_ReadAddressMotorOnBody env m
  else if m.fdc.CommandState = FDCEMU_RUN_READADDRESS_HEAD_LOAD then
    let m := withFdc m fun r => { r with ReplaceCommandPossible := false }
    if m.fdc.CR &&& FDC_COMMAND_BIT_HEAD_LOAD ≠ 0 then
      (withFdc m fun r => { r with CommandState := FDCEMU_RUN_READADDRESS_MOTOR_ON },
       FDC_DelayToFdcCycles FDC_DELAY_US_HEAD_LOAD)
    else FDC_ReadAddressMotorOnBody env m
  else if m.fdc.CommandState = FDCEMU_RUN_READADDRESS_MOTOR_ON then
    FDC_ReadAddressMotorOnBody env m
  else if m.fdc.CommandState = FDCEMU_RUN_READADDRESS_TRANSFER_START then
    let m := withFdc m fun r => { r with SR := (selDrive m).HeadTrack }
    let m := withDma m fun d => { d with BytesToTransfer := 6, PosInBuffer := 4 }
    (withFdc m fun r => { r with CommandState := FDCEMU_RUN_READADDRESS_TRANSFER_LOOP },
     FDC_DELAY_CYCLE_COMMAND_IMMEDIATE)
  else if m.fdc.CommandState = FDCEMU_RUN_READADDRESS_TRANSFER_LOOP then
    if 0 < m.dma.BytesToTransfer then
      let m := withDma m fun d => { d with BytesToTransfer := d.BytesToTransfer - 1 }
      let m := FDC_DMA_FIFO_Push m (env.workspace m.dma.PosInBuffer)
      let m := withDma m fun d => { d with PosInBuffer := d.PosInBuffer + 1 }
      (m, FDC_TransferByte_FdcCycles m 1)
    else
      let m := withDma m fun d => { d with BytesToTransfer := d.BytesToTransfer - 1 }
      (withFdc m fun r => { r with CommandState := FDCEMU_RUN_READADDRESS_COMPLETE },
       FDC_DELAY_CYCLE_COMMAND_COMPLETE)
  else if m.fdc.CommandState = FDCEMU_RUN_READADDRESS_COMPLETE then
    FDC_CmdCompleteCommon m true
  else (m, 0)

/-! ### The READ TRACK command (FDC_UpdateReadTrackCmd) -/

/-- The function `FDC_UpdateReadTrackCmd`.  Building the raw track into the
work buffer only touches the workspace (an `Env` oracle here); the machine
state change of the `_INDEX` case is the transfer set-up. -/
def FDC_UpdateReadTrackCmd (env : Env) (m : Machine) : Machine × Int :=
  if m.fdc.CommandState = FDCEMU_RUN_READTRACK then
    let (m, spin) := FDC_Set_MotorON env m m.fdc.CR
    if spin then
      (withFdc m fun r => { r with CommandState := FDCEMU_RUN_READTRACK_SPIN_UP },
       FDC_DELAY_CYCLE_REFRESH_INDEX_PULSE)
    else
      (withFdc m fun r => { r with CommandState := FDCEMU_RUN_READTRACK_HEAD_LOAD },
       FDC_DELAY_CYCLE_COMMAND_IMMEDIATE)
  else if m.fdc.CommandState = FDCEMU_RUN_READTRACK_SPIN_UP then
    if m.fdc.IndexPulse_Counter < FDC_DELAY_IP_SPIN_UP then
      (m, FDC_DELAY_CYCLE_REFRESH_INDEX_PULSE)
    else
      let m := withFdc m fun r => { r with ReplaceCommandPossible := false }
      if m.fdc.CR &&& FDC_COMMAND_BIT_HEAD_LOAD ≠ 0 then
        (withFdc m fun r => { r with CommandState := FDCEMU_RUN_READTRACK_MOTOR_ON },
         FDC_DelayToFdcCycles FDC_DELAY_US_HEAD_LOAD)
      else if env.nextIndexPulse < 0 then (m, FDC_DELAY_CYCLE_WAIT_NO_DRIVE_FLOPPY)
      else
        (withFdc m fun r => { r with CommandState := FDCEMU_RUN_READTRACK_INDEX },
         env.nextIndexPulse)
  else if m.fdc.CommandState = FDCEMU_RUN_READTRACK_HEAD_LOAD then
    let m := withFdc m fun r => { r with ReplaceCommandPossible := false }
    if m.fdc.CR &&& FDC_COMMAND_BIT_HEAD_LOAD ≠ 0 then
      (withFdc m fun r => { r with CommandState := FDCEMU_RUN_READTRACK_MOTOR_ON },
       FDC_DelayToFdcCycles FDC_DELAY_US_HEAD_LOAD)
    else if env.nextIndexPulse < 0 then (m, FDC_DELAY_CYCLE_WAIT_NO_DRIVE_FLOPPY)
    else
      (withFdc m fun r => { r with CommandState := FDCEMU_RUN_READTRACK_INDEX },
       env.nextIndexPulse)
  else if m.fdc.CommandState = FDCEMU_RUN_READTRACK_MOTOR_ON then
    if env.nextIndexPulse < 0 then (m, FDC_DELAY_CYCLE_WAIT_NO_DRIVE_FLOPPY)
    else
      (withFdc m fun r => { r with CommandState := FDCEMU_RUN_READTRACK_INDEX },
       env.nextIndexPulse)
  else if m.fdc.CommandState = FDCEMU_RUN_READTRACK_INDEX then
    let m := withDma m fun d =>
      { d with BytesToTransfer :=
                 ((FDC_TRACK_BYTES_STANDARD * (selDrive m).Density : Nat) : Int),
               PosInBuffer := 0 }
    (withFdc m fun r => { r with CommandState := FDCEMU_RUN_READTRACK_TRANSFER_LOOP },
     FDC_DELAY_CYCLE_COMMAND_IMMEDIATE)
  else if m.fdc.CommandState = FDCEMU_RUN_READTRACK_TRANSFER_LOOP then
    if 0 < m.dma.BytesToTransfer then
      let m := withDma m fun d => { d with BytesToTransfer := d.BytesToTransfer - 1 }
      let m := FDC_DMA_FIFO_Push m (env.workspace m.dma.PosInBuffer)
      let m := withDma m fun d => { d with PosInBuffer := d.PosInBuffer + 1 }
      (m, FDC_TransferByte_FdcCycles m 1)
    else
      let m := withDma m fun d => { d with BytesToTransfer := d.BytesToTransfer - 1 }
      (withFdc m fun r => { r with CommandState := FDCEMU_RUN_READTRACK_COMPLETE },
       FDC_DELAY_CYCLE_COMMAND_COMPLETE)
  else if m.fdc.CommandState = FDCEMU_RUN_READTRACK_COMPLETE then
    FDC_CmdCompleteCommon m true
  else (m, 0)

/-! ### The fake MOTOR STOP command (FDC_UpdateMotorStop) -/

/-- Body of the `_MOTOR_STOP_COMPLETE` case: clear the motor bit (keeping
spin-up) and go back to no command at all. -/
def FDC_MotorStopCompleteBody (m : Machine) : Machine × Int :=
  let m := FDC_Update_STR m FDC_STR_BIT_MOTOR_ON 0
  (withFdc m fun r => { r with Command := FDCEMU_CMD_NULL }, 0)

/-- The function `FDC_UpdateMotorStop`: wait for 9 index pulses after the
last command, then stop the motor. -/
def FDC_UpdateMotorStop (m : Machine) : Machine × Int :=
  if m.fdc.CommandState = FDCEMU_RUN_MOTOR_STOP then
    let m := withFdc m fun r =>
      { r with IndexPulse_Counter := 0, CommandState := FDCEMU_RUN_MOTOR_STOP_WAIT }
    if m.fdc.IndexPulse_Counter < FDC_DELAY_IP_MOTOR_OFF then
      (m, FDC_DELAY_CYCLE_REFRESH_INDEX_PULSE)
    else FDC_MotorStopCompleteBody m
  else if m.fdc.CommandState = FDCEMU_RUN_MOTOR_STOP_WAIT then
    if m.fdc.IndexPulse_Counter < FDC_DELAY_IP_MOTOR_OFF then
      (m, FDC_DELAY_CYCLE_REFRESH_INDEX_PULSE)
    else FDC_MotorStopCompleteBody m
  else if m.fdc.CommandState = FDCEMU_RUN_MOTOR_STOP_COMPLETE then
    FDC_MotorStopCompleteBody m
  else (m, 0)

/-! ### The scheduler entry point (FDC_InterruptHandler_Update) -/

/-- One iteration of the body of the do/while loop of
`FDC_InterruptHandler_Update`: refresh the angular clock, then advance the
state machine of the running command. -/
def fdcStepOnce (env : Env) (m : Machine) : Machine × Int :=
  let m := FDC_IndexPulse_Update env m
  if m.fdc.Command = FDCEMU_CMD_RESTORE then FDC_UpdateRestoreCmd env m
  else if m.fdc.Command = FDCEMU_CMD_SEEK then FDC_UpdateSeekCmd env m
  else if m.fdc.Command = FDCEMU_CMD_STEP then FDC_UpdateStepCmd env m
  else if m.fdc.Command = FDCEMU_CMD_READSECTORS then FDC_UpdateReadSectorsCmd env m
  else if m.fdc.Command = FDCEMU_CMD_WRITESECTORS then FDC_UpdateWriteSectorsCmd env m
  else if m.fdc.Command = FDCEMU_CMD_READADDRESS then FDC_UpdateReadAddressCmd env m
  else if m.fdc.Command = FDCEMU_CMD_READTRACK then FDC_UpdateReadTrackCmd env m
  else if m.fdc.Command = FDCEMU_CMD_MOTOR_STOP then FDC_UpdateMotorStop m
  else (m, 0)

/-- Iterate `fdcStepOnce` for `n` scheduler visits. -/
def fdcRun (env : Env) (m : Machine) : Nat → Machine
  | 0 => m
  | n + 1 => fdcRun env (fdcStepOnce env m).1 n

/-! ### Bus interface at $ff8604/$ff8606 -/

/-- The FDC-register part of `FDC_DiskController_WriteWord` for the
internal emulation mode: the low byte of the written word is recorded in
the `ff8604` shadow, the clock is refreshed, then the register selected by
bits 1-2 of the DMA mode word receives the byte. -/
def FDC_BusWriteFdcReg (env : Env) (m : Machine) (b : Nat) : Machine :=
  if m.dma.Mode &&& 0x10 ≠ 0 then FDC_WriteSectorCountRegister m b
  else
    let m := withDma m fun d =>
      { d with ff8604_recent_val := (d.ff8604_recent_val &&& 0xff00) ||| u8 b }
    if m.dma.Mode &&& 0x8 ≠ 0 then m
    else
      let m := FDC_IndexPulse_Update env m
      let reg := (m.dma.Mode &&& 0x6) >>> 1
      if reg = 0 then FDC_WriteCommandRegister m b
      else if reg = 1 then FDC_WriteTrackRegister m b
      else if reg = 2 then FDC_WriteSectorRegister m b
      else FDC_WriteDataRegister m b

/-- The status-register part of `FDC_DiskControllerStatus_ReadWord` for the
internal mode: during a type I status view TR00, INDEX and WPRT are
re-derived live (`indexState` and `forceWPRT` are clock/media oracles),
reading clears the IRQ, and the returned byte lands in the shadow. -/
def FDC_BusReadStatusReg (env : Env) (m : Machine)
    (indexState : Bool) (forceWPRT : Int) : Machine × Nat :=
  let m := FDC_IndexPulse_Update env m
  let m :=
    if m.fdc.StatusTypeI then
      if ¬ driveEnabledSel m then
        FDC_Update_STR m (FDC_STR_BIT_TR00 ||| FDC_STR_BIT_INDEX ||| FDC_STR_BIT_WPRT) 0
      else
        let m :=
          if (selDrive m).HeadTrack = 0 then FDC_Update_STR m 0 FDC_STR_BIT_TR00
          else FDC_Update_STR m FDC_STR_BIT_TR00 0
        let m :=
          if indexState then FDC_Update_STR m 0 FDC_STR_BIT_INDEX
          else FDC_Update_STR m FDC_STR_BIT_INDEX 0
        let m :=
          if (selDrive m).DiskInserted = false then FDC_Update_STR m 0 FDC_STR_BIT_WPRT
          else if env.isWriteProtected then FDC_Update_STR m 0 FDC_STR_BIT_WPRT
          else FDC_Update_STR m FDC_STR_BIT_WPRT 0
        if forceWPRT = 1 then FDC_Update_STR m 0 FDC_STR_BIT_WPRT
        else if forceWPRT = -1 then FDC_Update_STR m FDC_STR_BIT_WPRT 0
        else m
    else m
  let byte := m.fdc.STR
  let m := FDC_ClearIRQ m
  let m := withDma m fun d =>
    { d with ff8604_recent_val := (d.ff8604_recent_val &&& 0xff00) ||| u8 byte }
  (m, byte)

/-- The function `FDC_DmaModeControl_WriteWord`: store the mode word; a
toggle of bit 8 resets the DMA. -/
def FDC_DmaModeControl_WriteWord (m : Machine) (w : Nat) : Machine :=
  let prev := m.dma.Mode
  let m := withDma m fun d => { d with Mode := u16 w }
  if (prev ^^^ m.dma.Mode) &&& 0x0100 ≠ 0 then FDC_ResetDMA m else m

/-- The function `FDC_DmaStatus_ReadWord`: refresh the sector-count-zero
bit and return the three status bits overlaid on the shadow. -/
def FDC_DmaStatus_ReadWord (m : Machine) : Machine × Nat :=
  let m :=
    if m.dma.SectorCount ≠ 0 then withDma m fun d => { d with Status := d.Status ||| 0x02 }
    else withDma m fun d => { d with Status := d.Status &&& 0xfffd }
  (m, m.dma.Status ||| (m.dma.ff8604_recent_val &&& 0xfff8))

/-! ### Drive-level events -/

/-- The function `FDC_EnableDrive`. -/
def FDC_EnableDrive (m : Machine) (drive : Int) (value : Bool) : Machine :=
  if drive = 0 then { m with drive0 := { m.drive0 with Enabled := value } }
  else if drive = 1 then { m with drive1 := { m.drive1 with Enabled := value } }
  else m

/-- The function `FDC_InsertFloppy` (`density` is the image-derived density
oracle). -/
def FDC_InsertFloppy (env : Env) (m : Machine) (drive : Int) (density : Nat) : Machine :=
  if drive = 0 ∨ drive = 1 then
    let d0 := if drive = 1 then m.drive1 else m.drive0
    let t :=
      if m.fdc.STR &&& FDC_STR_BIT_MOTOR_ON ≠ 0 then
        if env.indexInit = 0 then 1 else env.indexInit
      else 0
    let d0 := { d0 with DiskInserted := true, IndexPulse_Time := t, Density := density }
    if drive = 1 then { m with drive1 := d0 } else { m with drive0 := d0 }
  else m

/-- The function `FDC_EjectFloppy`. -/
def FDC_EjectFloppy (m : Machine) (drive : Int) : Machine :=
  if drive = 0 then
    { m with drive0 := { m.drive0 with DiskInserted := false, IndexPulse_Time := 0 } }
  else if drive = 1 then
    { m with drive1 := { m.drive1 with DiskInserted := false, IndexPulse_Time := 0 } }
  else m

/-- The function `FDC_SetDriveSide`: decode side and drive from the PSG
port A bits (drive select is active low, drive 0 wins ties); on a change of
drive, the old reference is cleared and the new one re-seeded if a disk is
in and the motor is on. -/
def FDC_SetDriveSide (env : Env) (m : Machine) (portaOld portaNew : Nat) : Machine :=
  if portaOld = portaNew then m
  else
    let side := (255 ^^^ portaNew) &&& 0x01
    let drive : Int :=
      if portaNew &&& 0x02 = 0 then 0
      else if portaNew &&& 0x04 = 0 then 1
      else -1
    let m :=
      if m.fdc.DriveSelSignal ≠ drive then
        let m :=
          if 0 ≤ m.fdc.DriveSelSignal then
            setSelDrive m { selDrive m with IndexPulse_Time := 0 }
          else m
        if 0 ≤ drive then
          let dnew := if drive = 1 then m.drive1 else m.drive0
          let t :=
            if dnew.DiskInserted ∧ m.fdc.STR &&& FDC_STR_BIT_MOTOR_ON ≠ 0 then
              if env.indexInit = 0 then 1 else env.indexInit
            else 0
          let dnew := { dnew with IndexPulse_Time := t }
          if drive = 1 then { m with drive1 := dnew } else { m with drive0 := dnew }
        else m
      else m
    withFdc m fun r => { r with SideSignal := side, DriveSelSignal := drive }

/-! ### Initial machine -/

/-- A freshly initialised drive (`FDC_Init`). -/
def initDrive : Drive :=
  { Enabled := true, DiskInserted := false, RPM := 300 * 1000, Density := 1,
    HeadTrack := 0, IndexPulse_Time := 0 }

/-- The machine after `FDC_Init` and a cold `FDC_Reset`, on a plain ST. -/
def initMachine : Machine :=
  FDC_Reset true
    { machType := .ST
      fdc := { DR := 0, TR := 0, SR := 0, CR := 0, STR := 0, StepDirection := 1,
               SideSignal := 0, DriveSelSignal := -1, Command := 0, CommandState := 0,
               CommandType := 0, ReplaceCommandPossible := false, StatusTypeI := false,
               IndexPulse_Counter := 0, NextSector_ID_Field_SR := 0, InterruptCond := 0 }
      dma := { Status := 0, Mode := 0, SectorCount := 0, BytesInSector := 0,
               FIFO := List.replicate 16 0, FIFO_Size := 0, ff8604_recent_val := 0,
               PosInBuffer := 0, PosInBufferTransfer := 0, BytesToTransfer := 0 }
      drive0 := initDrive, drive1 := initDrive
      dmaAddrHi := 0, dmaAddrMid := 0, dmaAddrLo := 0
      irq := false, memWrites := [] }

/-! ### Reachable states -/

/-- The states reachable from the initial machine through the operations of
the bus interface, the scheduler, the DMA ports and the drive events. -/
inductive Reachable : Machine → Prop where
  | init : Reachable initMachine
  | reset : ∀ {m} (bCold : Bool), Reachable m → Reachable (FDC_Reset bCold m)
  | busWriteFdc : ∀ {m} (env : Env) (b : Nat), Reachable m →
      Reachable (FDC_BusWriteFdcReg env m b)
  | busReadStatus : ∀ {m} (env : Env) (ind : Bool) (fw : Int), Reachable m →
      Reachable (FDC_BusReadStatusReg env m ind fw).1
  | dmaModeWrite : ∀ {m} (w : Nat), Reachable m →
      Reachable (FDC_DmaModeControl_WriteWord m w)
  | dmaStatusRead : ∀ {m}, Reachable m → Reachable (FDC_DmaStatus_ReadWord m).1
  | dmaAddrWrite : ∀ {m} (off val : Nat), Reachable m →
      Reachable (FDC_DmaAddress_WriteByte m off val)
  | dmaPush : ∀ {m} (b : Nat), Reachable m → Reachable (FDC_DMA_FIFO_Push m b)
  | dmaPull : ∀ {m} (env : Env), Reachable m → Reachable (FDC_DMA_FIFO_Pull env m).1
  | step : ∀ {m} (env : Env), Reachable m → Reachable (fdcStepOnce env m).1
  | enable : ∀ {m} (d : Int) (v : Bool), Reachable m → Reachable (FDC_EnableDrive m d v)
  | insert : ∀ {m} (env : Env) (d : Int) (dens : Nat), Reachable m →
      Reachable (FDC_InsertFloppy env m d dens)
  | eject : ∀ {m} (d : Int), Reachable m → Reachable (FDC_EjectFloppy m d)
  | setSide : ∀ {m} (env : Env) (po pn : Nat), Reachable m →
      Reachable (FDC_SetDriveSide env m po pn)

/-! ## Helper lemmas about status register bits -/

theorem testBit_255 (i : Nat) : (255 : Nat).testBit i = decide (i < 8) := by
  have h : (255 : Nat) = 2 ^ 8 - 1 := by norm_num
  rw [h, Nat.testBit_two_pow_sub_one]

/-- Effect of `FDC_Update_STR` on a single status bit below 8. -/
theorem FDC_Update_STR_testBit (m : Machine) (dis en i : Nat) (hi : i < 8) :
    ((FDC_Update_STR m dis en).fdc.STR).testBit i =
      ((m.fdc.STR.testBit i && !(dis.testBit i)) || en.testBit i) := by
  simp [FDC_Update_STR, withFdc, Nat.testBit_or, Nat.testBit_and, Nat.testBit_xor,
    testBit_255, hi]

/-- The fields of the machine other than `STR` are untouched by
`FDC_Update_STR`. -/
theorem FDC_Update_STR_frame (m : Machine) (dis en : Nat) :
    (FDC_Update_STR m dis en).fdc.Command = m.fdc.Command ∧
    (FDC_Update_STR m dis en).fdc.CommandState = m.fdc.CommandState ∧
    (FDC_Update_STR m dis en).fdc.TR = m.fdc.TR ∧
    (FDC_Update_STR m dis en).fdc.CR = m.fdc.CR := by
  simp [FDC_Update_STR, withFdc]

/-! ## Claim C9: track and sector register writes are never dropped -/

/-- C9.  For every write to the track register and every write to the
sector register, the new byte value is stored in the register even when
the status BUSY bit is set: `FDC_WriteTrackRegister` and
`FDC_WriteSectorRegister` store unconditionally, for every machine state
(busy ones included), unlike the command register. -/
theorem C9_track_sector_writes_always_stored (m : Machine) (b : Nat) :
    (FDC_WriteTrackRegister m b).fdc.TR = u8 b ∧
    (FDC_WriteSectorRegister m b).fdc.SR = u8 b ∧
    FDC_WriteTrackRegister m b = withFdc m (fun r => { r with TR := u8 b }) ∧
    FDC_WriteSectorRegister m b = withFdc m (fun r => { r with SR := u8 b }) := by
  refine ⟨?_, ?_, rfl, rfl⟩ <;> simp [FDC_WriteTrackRegister, FDC_WriteSectorRegister, withFdc]

/-! ## Claim C10: reset frame conditions -/

/-- C10.  A warm reset (`bCold = false`) leaves the track register, the
data register and the latest-ff8604-word shadow unchanged, while for both
warm and cold reset the status register becomes 0, the sector register 1,
the command tag Null, the step direction +1, the interrupt-condition mask
0, and both drives' index-pulse reference times 0. -/
theorem C10_reset_frame (m : Machine) (bCold : Bool) :
    ((FDC_Reset false m).fdc.TR = m.fdc.TR ∧
     (FDC_Reset false m).fdc.DR = m.fdc.DR ∧
     (FDC_Reset false m).dma.ff8604_recent_val = m.dma.ff8604_recent_val) ∧
    ((FDC_Reset bCold m).fdc.STR = 0 ∧
     (FDC_Reset bCold m).fdc.SR = 1 ∧
     (FDC_Reset bCold m).fdc.Command = FDCEMU_CMD_NULL ∧
     (FDC_Reset bCold m).fdc.StepDirection = 1 ∧
     (FDC_Reset bCold m).fdc.InterruptCond = 0 ∧
     (FDC_Reset bCold m).drive0.IndexPulse_Time = 0 ∧
     (FDC_Reset bCold m).drive1.IndexPulse_Time = 0) := by
  cases bCold <;>
    simp [FDC_Reset, FDC_ResetDMA, withFdc, withDma, FDCEMU_CMD_NULL]

/-! ## Claim C7: DMA address alignment and high-byte masking -/

/-- A sequence of CPU byte writes to the DMA address registers. -/
def dmaAddrWriteSeq (m : Machine) : List (Nat × Nat) → Machine
  | [] => m
  | (off, v) :: rest => dmaAddrWriteSeq (FDC_DmaAddress_WriteByte m off v) rest

/-- Word alignment of the 24-bit DMA address: bit 0 of the low byte at
$ff860d is 0. -/
def dmaAligned (m : Machine) : Prop := m.dmaAddrLo % 2 = 0

instance (m : Machine) : Decidable (dmaAligned m) := by
  unfold dmaAligned; infer_instance

theorem and_even_mask_even (x mask : Nat) (h : mask &&& 1 = 0) : (x &&& mask) % 2 = 0 := by
  rw [← Nat.and_one_is_mod, Nat.and_assoc, h, Nat.and_zero]

theorem dmaAddr_writeByte_aligned (m : Machine) (off val : Nat)
    (h : dmaAligned m) : dmaAligned (FDC_DmaAddress_WriteByte m off val) := by
  unfold dmaAligned at *
  by_cases h1 : off = ADDR_DMA_HI
  · subst h1
    by_cases h2 : m.machType.limited4MB = true <;>
      simp [FDC_DmaAddress_WriteByte, ADDR_DMA_HI, ADDR_DMA_MID, ADDR_DMA_LO, h2, h]
  · by_cases h2 : off = ADDR_DMA_MID
    · subst h2
      simp [FDC_DmaAddress_WriteByte, ADDR_DMA_HI, ADDR_DMA_MID, ADDR_DMA_LO, h1, h]
    · by_cases h3 : off = ADDR_DMA_LO
      · subst h3
        simp [FDC_DmaAddress_WriteByte, ADDR_DMA_HI, ADDR_DMA_MID, ADDR_DMA_LO,
          and_even_mask_even _ 0xfe (by decide)]
      · simp [FDC_DmaAddress_WriteByte, h1, h2, h3, h]

theorem dmaAddr_writeSeq_aligned (ws : List (Nat × Nat)) (m : Machine)
    (h : dmaAligned m) : dmaAligned (dmaAddrWriteSeq m ws) := by
  induction ws generalizing m with
  | nil => exact h
  | cons hd tl ih =>
    exact ih _ (dmaAddr_writeByte_aligned m hd.1 hd.2 h)

/-- C7.  After every write to a DMA address byte register the 24-bit DMA
address stays word-aligned (a write to $ff860d has bit 0 forced to 0, and
no other write touches the low byte), on 4 MB machines (ST/STE/MegaSTE)
every write to the high byte at $ff8609 is masked to its low six bits, and
the address written back by the DMA engine itself through
`FDC_WriteDMAAddress` satisfies both constraints. -/
theorem C7_dma_address_invariants (m : Machine) (ws : List (Nat × Nat))
    (val a : Nat) (h : dmaAligned m) :
    dmaAligned (dmaAddrWriteSeq m ws) ∧
    (FDC_DmaAddress_WriteByte m ADDR_DMA_LO val).dmaAddrLo % 2 = 0 ∧
    (m.machType.limited4MB = true →
      (FDC_DmaAddress_WriteByte m ADDR_DMA_HI val).dmaAddrHi = u8 val &&& 0x3f ∧
      (FDC_DmaAddress_WriteByte m ADDR_DMA_HI val).dmaAddrHi ≤ 0x3f) ∧
    (FDC_WriteDMAAddress m a).dmaAddrLo % 2 = 0 ∧
    (m.machType.limited4MB = true → (FDC_WriteDMAAddress m a).dmaAddrHi ≤ 0x3f) := by
  refine ⟨dmaAddr_writeSeq_aligned ws m h, ?_, ?_, ?_, ?_⟩
  · exact dmaAddr_writeByte_aligned m ADDR_DMA_LO val h
  · intro h4
    have heq : (FDC_DmaAddress_WriteByte m ADDR_DMA_HI val).dmaAddrHi = u8 val &&& 0x3f := by
      simp [FDC_DmaAddress_WriteByte, ADDR_DMA_HI, ADDR_DMA_MID, ADDR_DMA_LO, h4]
    exact ⟨heq, heq ▸ Nat.and_le_right⟩
  · have hev : ((if m.machType.limited4MB then a &&& 0x3fffff else a) &&& 0xfffffffe)
        % 2 = 0 := and_even_mask_even _ _ (by decide)
    simp only [FDC_WriteDMAAddress, u8]
    omega
  · intro h4
    have hle : (a &&& 0x3fffff) &&& 0xfffffffe ≤ 0x3fffff :=
      le_trans Nat.and_le_left Nat.and_le_right
    have hdiv : ((a &&& 0x3fffff) &&& 0xfffffffe) >>> 16 ≤ 0x3f := by
      rw [Nat.shiftRight_eq_div_pow]
      omega
    simp [FDC_WriteDMAAddress, u8, h4]
    exact le_trans (Nat.mod_le _ _) hdiv

/-- Witness for C7 at a concrete machine and inputs. -/
theorem C7_witness :
    dmaAligned initMachine ∧
    dmaAligned (dmaAddrWriteSeq initMachine [(ADDR_DMA_HI, 0xff), (ADDR_DMA_LO, 0xff)]) := by
  have h0 : dmaAligned initMachine := by decide
  exact ⟨h0, (C7_dma_address_invariants initMachine
    [(ADDR_DMA_HI, 0xff), (ADDR_DMA_LO, 0xff)] 0xff 0x123457 h0).1⟩

/-! ## Low-byte lemmas for the ff8604 shadow -/

theorem mod256_eq_and_255 (x : Nat) : x % 256 = x &&& 255 := by
  have h := Nat.and_pow_two_sub_one_eq_mod x 8
  norm_num at h
  omega

theorem lor_low_byte (x y : Nat) (hx : x % 256 = 0) : (x ||| y) % 256 = y % 256 := by
  rw [mod256_eq_and_255] at hx ⊢
  rw [mod256_eq_and_255]
  apply Nat.eq_of_testBit_eq
  intro i
  by_cases hi : i < 8
  · have hxb : x.testBit i = false := by
      have h : (x &&& 255).testBit i = false := by rw [hx]; exact Nat.zero_testBit i
      rw [Nat.testBit_and, testBit_255] at h
      simpa [hi] using h
    rw [Nat.testBit_and, Nat.testBit_and, Nat.testBit_or, hxb]
    simp
  · rw [Nat.testBit_and, Nat.testBit_and, testBit_255]
    simp [hi]

theorem and_ff00_low_byte (x : Nat) : (x &&& 0xff00) % 256 = 0 := by
  rw [mod256_eq_and_255, Nat.and_assoc]
  have h0 : (0xff00 &&& 255 : Nat) = 0 := by decide
  rw [h0, Nat.and_zero]

theorem shl8_low_byte (x : Nat) : (x <<< 8) % 256 = 0 := by
  rw [Nat.shiftLeft_eq]
  omega

/-- The low half of a freshly composed shadow value is the composed low
byte. -/
theorem shadow_low_and (x y : Nat) : ((x &&& 0xff00) ||| y) % 256 = y % 256 :=
  lor_low_byte _ _ (and_ff00_low_byte x)

theorem shadow_low_shl (x y : Nat) : ((x <<< 8) ||| y) % 256 = y % 256 :=
  lor_low_byte _ _ (shl8_low_byte x)

theorem u8_lt (n : Nat) : u8 n < 256 := Nat.mod_lt _ (by norm_num)

theorem shadow_low_and_eq (x y : Nat) (hy : y < 256) :
    ((x &&& 0xff00) ||| y) % 256 = y := by
  rw [shadow_low_and]
  exact Nat.mod_eq_of_lt hy

theorem getD_lt_256 {l : List Nat} {i : Nat} (h : ∀ x ∈ l, x < 256)
    (hi : i < l.length) : l.getD i 0 < 256 := by
  have hm : l.getD i 0 ∈ l := by
    simp only [List.getD_eq_getElem?_getD, List.getElem?_eq_getElem hi, Option.getD_some]
    exact List.getElem_mem hi
  exact h _ hm

/-! ## Claim C6 (corrected): which DMA port calls record the byte in the
ff8604 shadow -/

/-- A fixed trivial environment used for concrete runs. -/
def env0 : Env :=
  { nextSectorID_NbBytes := -1, nextSectorSR := 0, nextIndexPulse := -1,
    readSectorOk := false, sectorSize := 512, writeSectorOk := false,
    isWriteProtected := false, sidesPerDisk := 1, indexInit := 1,
    pulseCrossed := false, pulsePeriod := 0, ram := fun _ => 0,
    workspace := fun _ => 0 }

/-- A reachable machine with DMA sector count 0 and a non-zero low shadow
byte: select the track register (mode word 2) and write 0xcd through the
bus, which lands in the shadow. -/
def C6cexMachine : Machine :=
  FDC_BusWriteFdcReg env0 (FDC_DmaModeControl_WriteWord initMachine 2) 0xcd

/-- C6 counterexample.  A pull from the DMA FIFO while the sector count is
0 does NOT record the transferred byte in the low half of the ff8604
shadow: on `C6cexMachine` (low shadow byte 0xcd) the pull returns byte 0
and leaves the shadow at 0xcd, so the low half differs from the
transferred byte, refuting the claim for this call. -/
theorem C6_counterexample :
    C6cexMachine.dma.SectorCount = 0 ∧
    Reachable C6cexMachine ∧
    (FDC_DMA_FIFO_Pull env0 C6cexMachine).2 = 0 ∧
    (FDC_DMA_FIFO_Pull env0 C6cexMachine).1.dma.ff8604_recent_val % 256 = 0xcd ∧
    ¬ ((FDC_DMA_FIFO_Pull env0 C6cexMachine).1.dma.ff8604_recent_val % 256 =
        u8 (FDC_DMA_FIFO_Pull env0 C6cexMachine).2) := by
  refine ⟨by decide, ?_, by decide, by decide, by decide⟩
  exact Reachable.busWriteFdc env0 0xcd (Reachable.dmaModeWrite 2 Reachable.init)

/-- C6 as amended.  Every push records the transferred byte in the low
half of the ff8604 shadow, including pushes made while the sector count is
0; a pull records the returned byte only when the sector count is
non-zero, and when it is 0 the pull returns 0 and leaves the shadow
unchanged. -/
theorem C6_amended_shadow_recording (m : Machine) (b : Nat) (env : Env)
    (hlen : m.dma.FIFO.length = 16) (hsz : m.dma.FIFO_Size ≤ 15)
    (hbytes : ∀ x ∈ m.dma.FIFO, x < 256) :
    ((FDC_DMA_FIFO_Push m b).dma.ff8604_recent_val % 256 = u8 b) ∧
    (m.dma.SectorCount ≠ 0 →
      (FDC_DMA_FIFO_Pull env m).1.dma.ff8604_recent_val % 256 =
        (FDC_DMA_FIFO_Pull env m).2) ∧
    (m.dma.SectorCount = 0 →
      (FDC_DMA_FIFO_Pull env m).2 = 0 ∧
      (FDC_DMA_FIFO_Pull env m).1.dma.ff8604_recent_val = m.dma.ff8604_recent_val) := by
  refine ⟨?_, ?_, ?_⟩
  · by_cases hsc : m.dma.SectorCount = 0
    · simp [FDC_DMA_FIFO_Push, hsc, FDC_SetDMAStatus, withDma, shadow_low_and, u8]
    · by_cases hfull : m.dma.FIFO_Size = 15
      · have hget : (m.dma.FIFO.set 15 (b % 256)).getD 15 0 = b % 256 := by
          have h15 : (15 : Nat) < (m.dma.FIFO.set 15 (b % 256)).length := by simp [hlen]
          simp only [List.getD_eq_getElem?_getD, List.getElem?_eq_getElem h15,
            Option.getD_some, List.getElem_set_self]
        simp only [FDC_DMA_FIFO_Push, if_neg hsc, FDC_SetDMAStatus, withDma,
          FDC_DMA_FIFO_SIZE, FDC_WriteDMAAddress, FDC_GetDMAAddress,
          FDC_DMA_SECTOR_SIZE, Bool.not_true, Bool.not_false, hfull, u8]
        split_ifs <;> simp_all [shadow_low_shl]
      · have hlt : m.dma.FIFO_Size + 1 < 16 := by omega
        simp [FDC_DMA_FIFO_Push, hsc, FDC_SetDMAStatus, withDma, FDC_DMA_FIFO_SIZE,
          hlt, shadow_low_and, u8, Nat.mod_mod_of_dvd]
  · intro hsc
    by_cases hfs : 0 < m.dma.FIFO_Size
    · have hidx : FDC_DMA_FIFO_SIZE - m.dma.FIFO_Size < m.dma.FIFO.length := by
        simp only [FDC_DMA_FIFO_SIZE, hlen]
        omega
      have hbyte := getD_lt_256 hbytes hidx
      simp only [FDC_DMA_FIFO_Pull, if_neg hsc, FDC_SetDMAStatus, withDma,
        Bool.not_false, eq_self_iff_true, if_true, FDC_DMA_FIFO_SIZE]
      rw [if_pos hfs]
      exact shadow_low_and_eq _ _ hbyte
    · simp only [FDC_DMA_FIFO_Pull, if_neg hsc, FDC_SetDMAStatus, withDma,
        Bool.not_false, eq_self_iff_true, if_true, FDC_DMA_FIFO_SIZE,
        FDC_WriteDMAAddress, FDC_GetDMAAddress]
      rw [if_neg hfs]
      split_ifs <;>
        exact shadow_low_and_eq _ _ (getD_lt_256 (fun x hx => by
          simp only [List.mem_map] at hx
          obtain ⟨i, _, rfl⟩ := hx
          exact u8_lt _) (by simp))
  · intro hsc
    simp [FDC_DMA_FIFO_Pull, hsc, FDC_SetDMAStatus, withDma]

/-- Witness for the amended C6 at the initial machine. -/
theorem C6_amended_witness :
    initMachine.dma.FIFO.length = 16 ∧ initMachine.dma.FIFO_Size ≤ 15 ∧
    (∀ x ∈ initMachine.dma.FIFO, x < 256) ∧
    ((FDC_DMA_FIFO_Push initMachine 0xab).dma.ff8604_recent_val % 256 = u8 0xab) ∧
    (initMachine.dma.SectorCount = 0 →
      (FDC_DMA_FIFO_Pull env0 initMachine).2 = 0 ∧
      (FDC_DMA_FIFO_Pull env0 initMachine).1.dma.ff8604_recent_val =
        initMachine.dma.ff8604_recent_val) := by
  have h := C6_amended_shadow_recording initMachine 0xab env0 (by decide) (by decide)
    (by decide)
  exact ⟨by decide, by decide, by decide, h.1, h.2.2⟩

/-! ## Claim C1: command register writes while BUSY -/

theorem FDC_ClearIRQ_fdc (m : Machine) : (FDC_ClearIRQ m).fdc = m.fdc := by
  unfold FDC_ClearIRQ
  split_ifs <;> rfl

theorem FDC_GetCmdType_cases (cr : Nat) :
    FDC_GetCmdType cr = 1 ∨ FDC_GetCmdType cr = 2 ∨ FDC_GetCmdType cr = 3 ∨
      FDC_GetCmdType cr = 4 := by
  unfold FDC_GetCmdType
  split_ifs <;> simp

theorem execTypeI_CR_CT (m : Machine) :
    (FDC_ExecuteTypeICommands m).1.fdc.CR = m.fdc.CR ∧
    (FDC_ExecuteTypeICommands m).1.fdc.CommandType = 1 := by
  unfold FDC_ExecuteTypeICommands FDC_TypeI_Restore FDC_TypeI_Seek FDC_TypeI_Step
    FDC_TypeI_StepIn FDC_TypeI_StepOut FDC_ClearIRQ FDC_Update_STR withFdc
  dsimp only
  split_ifs <;> simp_all

theorem execTypeII_CR_CT (m : Machine) :
    (FDC_ExecuteTypeIICommands m).1.fdc.CR = m.fdc.CR ∧
    (FDC_ExecuteTypeIICommands m).1.fdc.CommandType = 2 := by
  unfold FDC_ExecuteTypeIICommands FDC_TypeII_ReadSector FDC_TypeII_WriteSector
    FDC_ClearIRQ FDC_Update_STR withFdc
  dsimp only
  split_ifs <;> simp_all

theorem execTypeIII_CR_CT (m : Machine) :
    (FDC_ExecuteTypeIIICommands m).1.fdc.CR = m.fdc.CR ∧
    (FDC_ExecuteTypeIIICommands m).1.fdc.CommandType = 3 := by
  unfold FDC_ExecuteTypeIIICommands FDC_TypeIII_ReadAddress FDC_TypeIII_ReadTrack
    FDC_TypeIII_WriteTrack FDC_ClearIRQ FDC_Update_STR withFdc
  dsimp only
  split_ifs <;> simp_all

theorem execTypeIV_CR_CT (m : Machine) :
    (FDC_ExecuteTypeIVCommands m).1.fdc.CR = m.fdc.CR ∧
    (FDC_ExecuteTypeIVCommands m).1.fdc.CommandType = 4 := by
  unfold FDC_ExecuteTypeIVCommands FDC_TypeIV_ForceInterrupt FDC_CmdCompleteCommon
    FDC_ClearIRQ FDC_SetIRQ FDC_Update_STR withFdc
  dsimp only
  split_ifs <;> simp_all

/-- The properties of `FDC_ExecuteCommand` needed for C1: the command byte
stays in `CR`, the command type is the classification of `CR`, and the new
command enters its replace-possible window. -/
theorem FDC_ExecuteCommand_props (m : Machine) :
    (FDC_ExecuteCommand m).fdc.CR = m.fdc.CR ∧
    (FDC_ExecuteCommand m).fdc.CommandType = FDC_GetCmdType m.fdc.CR ∧
    (FDC_ExecuteCommand m).fdc.ReplaceCommandPossible = true := by
  unfold FDC_ExecuteCommand
  rcases FDC_GetCmdType_cases m.fdc.CR with h | h | h | h <;>
    simp [h, withFdc, execTypeI_CR_CT, execTypeII_CR_CT, execTypeIII_CR_CT,
      execTypeIV_CR_CT, (execTypeI_CR_CT m).1, (execTypeI_CR_CT m).2,
      (execTypeII_CR_CT m).1, (execTypeII_CR_CT m).2, (execTypeIII_CR_CT m).1,
      (execTypeIII_CR_CT m).2, (execTypeIV_CR_CT m).1, (execTypeIV_CR_CT m).2]

/-- C1.  A write to the command register while the BUSY status bit is set
leaves the whole machine unchanged unless the new byte is type IV or the
running command is still replace-possible with the same type I or II; in
the allowed cases the byte is stored in `CR` and the command is started
(classified and put in its replace window by `FDC_ExecuteCommand`). -/
theorem C1_command_write_while_busy (m : Machine) (b : Nat)
    (hbusy : m.fdc.STR &&& FDC_STR_BIT_BUSY ≠ 0) :
    (cmdWriteAllowed m (u8 b) = false → FDC_WriteCommandRegister m b = m) ∧
    (cmdWriteAllowed m (u8 b) = true →
      FDC_WriteCommandRegister m b =
        FDC_ExecuteCommand (withFdc m fun r => { r with CR := u8 b }) ∧
      (FDC_WriteCommandRegister m b).fdc.CR = u8 b ∧
      (FDC_WriteCommandRegister m b).fdc.CommandType = FDC_GetCmdType (u8 b) ∧
      (FDC_WriteCommandRegister m b).fdc.ReplaceCommandPossible = true) := by
  constructor
  · intro hna
    unfold FDC_WriteCommandRegister
    rw [if_pos ⟨hbusy, hna⟩]
  · intro ha
    have heq : FDC_WriteCommandRegister m b =
        FDC_ExecuteCommand (withFdc m fun r => { r with CR := u8 b }) := by
      unfold FDC_WriteCommandRegister
      rw [if_neg (by simp [ha])]
    have hp := FDC_ExecuteCommand_props (withFdc m fun r => { r with CR := u8 b })
    simp only [withFdc] at hp
    exact ⟨heq, by rw [heq]; exact hp.1, by rw [heq]; exact hp.2.1,
      by rw [heq]; exact hp.2.2⟩

/-- A busy machine used as a witness input for C1. -/
def C1busyMachine : Machine := withFdc initMachine fun r => { r with STR := 1 }

/-- Witness for C1: on a busy controller with no replace window, a type I
byte (0x10, seek) is dropped, while a type IV byte (0xd0) is accepted and
stored. -/
theorem C1_witness :
    C1busyMachine.fdc.STR &&& FDC_STR_BIT_BUSY ≠ 0 ∧
    cmdWriteAllowed C1busyMachine (u8 0x10) = false ∧
    FDC_WriteCommandRegister C1busyMachine 0x10 = C1busyMachine ∧
    cmdWriteAllowed C1busyMachine (u8 0xd0) = true ∧
    (FDC_WriteCommandRegister C1busyMachine 0xd0).fdc.CR = u8 0xd0 := by
  refine ⟨by decide, by decide, ?_, by decide, ?_⟩
  · exact (C1_command_write_while_busy C1busyMachine 0x10 (by decide)).1 (by decide)
  · exact (((C1_command_write_while_busy C1busyMachine 0xd0 (by decide)).2
      (by decide)).2).1

/-! ## Claim C8 (corrected): what accepting a Write Track command does -/

/-- The machine after writing the Write Track command byte 0xf0 through the
bus to an idle controller. -/
def C8cexMachine : Machine := FDC_BusWriteFdcReg env0 initMachine 0xf0

/-- C8 counterexample.  Accepting Write Track does set RNF, but it does
not complete through the common completion path: on the concrete reachable
machine the command tag goes straight to Null (never to the motor-stop
command) and no interrupt is raised, contradicting the claim. -/
theorem C8_counterexample :
    Reachable C8cexMachine ∧
    C8cexMachine.fdc.STR.testBit 4 = true ∧
    C8cexMachine.fdc.Command ≠ FDCEMU_CMD_MOTOR_STOP ∧
    C8cexMachine.fdc.Command = FDCEMU_CMD_NULL ∧
    C8cexMachine.irq = false := by
  refine ⟨Reachable.busWriteFdc env0 0xf0 Reachable.init, by decide, by decide,
    by decide, by decide⟩

/-- C8 as amended.  Accepting a Write Track command (a byte with top
nibble 0xf written while BUSY is clear) sets the RNF status bit and
terminates the command immediately: the command tag is set directly to
Null without entering the motor-stop phase, no interrupt is raised, and
the BUSY bit is left as it was (still clear). -/
theorem C8_amended_write_track (m : Machine) (b : Nat)
    (hnb : m.fdc.STR &&& FDC_STR_BIT_BUSY = 0)
    (hwt : u8 b &&& 0xf0 = 0xf0) :
    (FDC_WriteCommandRegister m b).fdc.STR.testBit 4 = true ∧
    (FDC_WriteCommandRegister m b).fdc.Command = FDCEMU_CMD_NULL ∧
    (FDC_WriteCommandRegister m b).fdc.CommandState = FDCEMU_RUN_NULL ∧
    (FDC_WriteCommandRegister m b).fdc.STR.testBit 0 = m.fdc.STR.testBit 0 ∧
    ((FDC_WriteCommandRegister m b).irq = true → m.irq = true) := by
  have h80 : u8 b &&& 0x80 = 0x80 := by
    rw [show (0x80 : Nat) = 0xf0 &&& 0x80 from by decide, ← Nat.and_assoc, hwt]
  have h40 : u8 b &&& 0x40 = 0x40 := by
    rw [show (0x40 : Nat) = 0xf0 &&& 0x40 from by decide, ← Nat.and_assoc, hwt]
  have htype : FDC_GetCmdType (u8 b) = 3 := by
    simp [FDC_GetCmdType, h80, h40, hwt]
  have hna : ¬ (m.fdc.STR &&& FDC_STR_BIT_BUSY ≠ 0 ∧
      cmdWriteAllowed m (u8 b) = false) := by
    simp [hnb]
  have hwt3 : (withFdc m fun r => { r with CR := u8 b }).fdc.CR &&& 0xf0 = 0xf0 := by
    simpa [withFdc] using hwt
  have hdisp : FDC_WriteCommandRegister m b =
      withFdc (FDC_ExecuteTypeIIICommands (withFdc m fun r => { r with CR := u8 b })).1
        (fun r => { r with ReplaceCommandPossible := true }) := by
    unfold FDC_WriteCommandRegister
    rw [if_neg hna]
    unfold FDC_ExecuteCommand
    have hcr : (withFdc m fun r => { r with CR := u8 b }).fdc.CR = u8 b := by
      simp [withFdc]
    rw [hcr, htype]
    norm_num
  have hiii : (FDC_ExecuteTypeIIICommands (withFdc m fun r => { r with CR := u8 b })).1 =
      withFdc (FDC_Update_STR (FDC_ClearIRQ (withFdc (withFdc m fun r =>
          { r with CR := u8 b }) fun r => { r with CommandType := 3, StatusTypeI := false }))
        0 FDC_STR_BIT_RNF)
        (fun r => { r with Command := FDCEMU_CMD_NULL, CommandState := FDCEMU_RUN_NULL }) := by
    unfold FDC_ExecuteTypeIIICommands FDC_TypeIII_WriteTrack
    dsimp only
    rw [FDC_ClearIRQ_fdc]
    simp only [withFdc]
    simp [hwt]
  rw [hdisp, hiii]
  have h16 : Nat.testBit 16 4 = true := by decide
  unfold FDC_Update_STR FDC_ClearIRQ withFdc
  dsimp only
  split_ifs <;>
    simp_all [Nat.testBit_or, Nat.testBit_and, testBit_255, Nat.testBit_xor,
      FDC_STR_BIT_RNF, FDCEMU_CMD_NULL, FDCEMU_RUN_NULL, h16]

/-- Witness for the amended C8 at the initial machine. -/
theorem C8_amended_witness :
    initMachine.fdc.STR &&& FDC_STR_BIT_BUSY = 0 ∧ u8 0xf0 &&& 0xf0 = 0xf0 ∧
    (FDC_WriteCommandRegister initMachine 0xf0).fdc.STR.testBit 4 = true ∧
    (FDC_WriteCommandRegister initMachine 0xf0).fdc.Command = FDCEMU_CMD_NULL := by
  have h := C8_amended_write_track initMachine 0xf0 (by decide) (by decide)
  exact ⟨by decide, by decide, h.1, h.2.1⟩

/-! ## Claim C5: physical head clamping in [0, 90] -/

theorem selDrive_withFdc (m : Machine) (f : FdcRegs → FdcRegs)
    (h : (f m.fdc).DriveSelSignal = m.fdc.DriveSelSignal) :
    selDrive (withFdc m f) = selDrive m := by
  unfold selDrive withFdc
  dsimp only
  rw [h]

theorem selDrive_setSelDrive (m : Machine) (d : Drive) :
    selDrive (setSelDrive m d) = d := by
  unfold selDrive setSelDrive
  split_ifs <;> simp_all

theorem setSelDrive_fdc (m : Machine) (d : Drive) :
    (setSelDrive m d).fdc = m.fdc := by
  unfold setSelDrive
  split_ifs <;> rfl

theorem selDrive_updSTR (m : Machine) (dis en : Nat) :
    selDrive (FDC_Update_STR m dis en) = selDrive m :=
  selDrive_withFdc m _ rfl

theorem withFdc_fdc (m : Machine) (f : FdcRegs → FdcRegs) :
    (withFdc m f).fdc = f m.fdc := rfl

theorem withFdc_drives (m : Machine) (f : FdcRegs → FdcRegs) :
    (withFdc m f).drive0 = m.drive0 ∧ (withFdc m f).drive1 = m.drive1 := ⟨rfl, rfl⟩

theorem updateStep_at_motorOn (env : Env) (m : Machine)
    (hcs : m.fdc.CommandState = FDCEMU_RUN_STEP_ONCE_MOTOR_ON) :
    FDC_UpdateStepCmd env m = FDC_StepMotorOnBody m := by
  unfold FDC_UpdateStepCmd
  rw [hcs]
  simp [FDCEMU_RUN_STEP_ONCE, FDCEMU_RUN_STEP_ONCE_SPIN_UP,
    FDCEMU_RUN_STEP_ONCE_MOTOR_ON]

theorem updateSeek_at_motorOn (env : Env) (m : Machine)
    (hcs : m.fdc.CommandState = FDCEMU_RUN_SEEK_TOTRACK_MOTOR_ON) :
    FDC_UpdateSeekCmd env m = FDC_SeekMotorOnBody m := by
  unfold FDC_UpdateSeekCmd
  rw [hcs]
  simp [FDCEMU_RUN_SEEK_TOTRACK, FDCEMU_RUN_SEEK_TOTRACK_SPIN_UP,
    FDCEMU_RUN_SEEK_TOTRACK_MOTOR_ON]

theorem updateRestore_at_loop (env : Env) (m : Machine)
    (hcs : m.fdc.CommandState = FDCEMU_RUN_RESTORE_SEEKTOTRACKZERO_LOOP) :
    FDC_UpdateRestoreCmd env m = FDC_RestoreLoopBody m := by
  unfold FDC_UpdateRestoreCmd
  rw [hcs]
  simp [FDCEMU_RUN_RESTORE_SEEKTOTRACKZERO, FDCEMU_RUN_RESTORE_SEEKTOTRACKZERO_SPIN_UP,
    FDCEMU_RUN_RESTORE_SEEKTOTRACKZERO_MOTOR_ON, FDCEMU_RUN_RESTORE_SEEKTOTRACKZERO_LOOP]

set_option maxHeartbeats 2000000 in
/-- C5 for the STEP command: one step on an enabled selected drive keeps
the head in [0, 90]; a step in at track 90 or a step out at track 0 does
not move the head. -/
theorem C5_step_head_clamp (env : Env) (m : Machine)
    (hcs : m.fdc.CommandState = FDCEMU_RUN_STEP_ONCE_MOTOR_ON)
    (hdir : m.fdc.StepDirection = 1 ∨ m.fdc.StepDirection = -1)
    (hen : driveEnabledSel m) (hh : (selDrive m).HeadTrack ≤ 90) :
    (selDrive (FDC_UpdateStepCmd env m).1).HeadTrack ≤ 90 ∧
    ((selDrive m).HeadTrack = 90 → m.fdc.StepDirection = 1 →
      (selDrive (FDC_UpdateStepCmd env m).1).HeadTrack = 90) ∧
    ((selDrive m).HeadTrack = 0 → m.fdc.StepDirection = -1 →
      (selDrive (FDC_UpdateStepCmd env m).1).HeadTrack = 0) := by
  obtain ⟨hge, hena⟩ := hen
  rw [updateStep_at_motorOn env m hcs]
  unfold FDC_StepMotorOnBody driveEnabledSel FDC_PHYSICAL_MAX_TRACK
  dsimp only
  simp only [FDC_Update_STR, selDrive_withFdc, selDrive_setSelDrive, setSelDrive_fdc,
    withFdc_fdc]
  rcases hdir with hd1 | hd1 <;> rw [hd1] <;>
    split_ifs <;>
      simp_all [u8addInt, FDC_Update_STR, selDrive_withFdc, selDrive_setSelDrive,
        setSelDrive_fdc, withFdc_fdc] <;>
      omega

set_option maxHeartbeats 2000000 in
/-- C5 for one step of the SEEK command: the head stays in [0, 90], and at
the boundaries (track 90 moving inward, track 0 moving outward, or already
on target) the head does not move. -/
theorem C5_seek_head_clamp (env : Env) (m : Machine)
    (hcs : m.fdc.CommandState = FDCEMU_RUN_SEEK_TOTRACK_MOTOR_ON)
    (hen : driveEnabledSel m) (hh : (selDrive m).HeadTrack ≤ 90) :
    (selDrive (FDC_UpdateSeekCmd env m).1).HeadTrack ≤ 90 ∧
    ((selDrive m).HeadTrack = 90 → ¬ (m.fdc.DR < m.fdc.TR) →
      (selDrive (FDC_UpdateSeekCmd env m).1).HeadTrack = 90) ∧
    ((selDrive m).HeadTrack = 0 → (m.fdc.DR < m.fdc.TR ∨ m.fdc.TR = m.fdc.DR) →
      (selDrive (FDC_UpdateSeekCmd env m).1).HeadTrack = 0) := by
  obtain ⟨hge, hena⟩ := hen
  rw [updateSeek_at_motorOn env m hcs]
  unfold FDC_SeekMotorOnBody driveEnabledSel FDC_PHYSICAL_MAX_TRACK
  dsimp only
  simp only [FDC_Update_STR, selDrive_withFdc, selDrive_setSelDrive, setSelDrive_fdc,
    withFdc_fdc]
  split_ifs <;>
    simp_all [u8addInt, FDC_Update_STR, selDrive_withFdc, selDrive_setSelDrive,
      setSelDrive_fdc, withFdc_fdc] <;>
    omega

set_option maxHeartbeats 2000000 in
/-- C5 for one attempt of the RESTORE loop: the head stays in [0, 90], and
when the head is already at track 0 (with an enabled selected drive) it
does not move. -/
theorem C5_restore_head_clamp (env : Env) (m : Machine)
    (hcs : m.fdc.CommandState = FDCEMU_RUN_RESTORE_SEEKTOTRACKZERO_LOOP)
    (hen : driveEnabledSel m) (hh : (selDrive m).HeadTrack ≤ 90) :
    (selDrive (FDC_UpdateRestoreCmd env m).1).HeadTrack ≤ 90 ∧
    ((selDrive m).HeadTrack = 0 →
      (selDrive (FDC_UpdateRestoreCmd env m).1).HeadTrack = 0) := by
  obtain ⟨hge, hena⟩ := hen
  rw [updateRestore_at_loop env m hcs]
  unfold FDC_RestoreLoopBody FDC_CmdCompleteCommon FDC_SetIRQ driveEnabledSel
  dsimp only
  simp only [FDC_Update_STR, selDrive_withFdc, selDrive_setSelDrive, setSelDrive_fdc,
    withFdc_fdc]
  split_ifs <;>
    simp_all [u8dec, FDC_Update_STR, selDrive, setSelDrive, withFdc] <;>
    split_ifs <;> simp_all <;> omega

/-- C5.  For every step operation (Step, each step of Seek, and each step
attempt of Restore) on an enabled selected drive, the physical head track
stays in [0, 90]; stepping inward at track 90 and stepping outward at
track 0 leave the head unchanged. -/
theorem C5_head_clamping (env : Env) (m : Machine)
    (hdir : m.fdc.StepDirection = 1 ∨ m.fdc.StepDirection = -1)
    (hen : driveEnabledSel m) (hh : (selDrive m).HeadTrack ≤ 90) :
    (m.fdc.CommandState = FDCEMU_RUN_STEP_ONCE_MOTOR_ON →
      (selDrive (FDC_UpdateStepCmd env m).1).HeadTrack ≤ 90 ∧
      ((selDrive m).HeadTrack = 90 → m.fdc.StepDirection = 1 →
        (selDrive (FDC_UpdateStepCmd env m).1).HeadTrack = 90) ∧
      ((selDrive m).HeadTrack = 0 → m.fdc.StepDirection = -1 →
        (selDrive (FDC_UpdateStepCmd env m).1).HeadTrack = 0)) ∧
    (m.fdc.CommandState = FDCEMU_RUN_SEEK_TOTRACK_MOTOR_ON →
      (selDrive (FDC_UpdateSeekCmd env m).1).HeadTrack ≤ 90 ∧
      ((selDrive m).HeadTrack = 90 → ¬ (m.fdc.DR < m.fdc.TR) →
        (selDrive (FDC_UpdateSeekCmd env m).1).HeadTrack = 90) ∧
      ((selDrive m).HeadTrack = 0 → (m.fdc.DR < m.fdc.TR ∨ m.fdc.TR = m.fdc.DR) →
        (selDrive (FDC_UpdateSeekCmd env m).1).HeadTrack = 0)) ∧
    (m.fdc.CommandState = FDCEMU_RUN_RESTORE_SEEKTOTRACKZERO_LOOP →
      (selDrive (FDC_UpdateRestoreCmd env m).1).HeadTrack ≤ 90 ∧
      ((selDrive m).HeadTrack = 0 →
        (selDrive (FDC_UpdateRestoreCmd env m).1).HeadTrack = 0)) :=
  ⟨fun hcs => C5_step_head_clamp env m hcs hdir hen hh,
   fun hcs => C5_seek_head_clamp env m hcs hen hh,
   fun hcs => C5_restore_head_clamp env m hcs hen hh⟩

/-- A machine used as a witness input for C5: drive 0 selected and
enabled, head at track 90, ready to step inward. -/
def C5stepMachine : Machine :=
  { initMachine with
    fdc := { initMachine.fdc with
             DriveSelSignal := 0
             StepDirection := 1
             Command := FDCEMU_CMD_STEP
             CommandState := FDCEMU_RUN_STEP_ONCE_MOTOR_ON }
    drive0 := { initMachine.drive0 with HeadTrack := 90 } }

/-! ## Claim C4: the Restore command -/

/-- Iterate the restore state machine for `n` scheduler visits. -/
def restoreRun (env : Env) : Nat → Machine → Machine
  | 0, m => m
  | n + 1, m => restoreRun env n (FDC_UpdateRestoreCmd env m).1

theorem restoreRun_zero (env : Env) (m : Machine) : restoreRun env 0 m = m := rfl

theorem restoreRun_succ (env : Env) (n : Nat) (m : Machine) :
    restoreRun env (n + 1) m = restoreRun env n (FDC_UpdateRestoreCmd env m).1 := rfl

theorem restoreRun_add (env : Env) (a b : Nat) (m : Machine) :
    restoreRun env (a + b) m = restoreRun env b (restoreRun env a m) := by
  induction a generalizing m with
  | zero => rw [Nat.zero_add, restoreRun_zero]
  | succ k ih =>
      have h : k + 1 + b = (k + b) + 1 := by omega
      rw [h, restoreRun_succ, ih, restoreRun_succ]

/-- A single status bit extracted with a mask is non-zero iff the bit
tests true. -/
theorem and_two_pow_ne_zero (x n : Nat) (h : x.testBit n = true) : x &&& 2 ^ n ≠ 0 := by
  rw [Nat.and_two_pow, h]
  simp

/-- A single status bit extracted with a mask is zero iff the bit tests
false. -/
theorem and_two_pow_eq_zero (x n : Nat) (h : x.testBit n = false) : x &&& 2 ^ n = 0 := by
  rw [Nat.and_two_pow, h]
  simp

set_option maxHeartbeats 2000000 in
/-- One visit of the restore loop with an enabled selected drive whose head
is not yet at track 0: `TR` and the physical head each decrement (mod 256),
the TR00 status bit is cleared and the state stays in the loop. -/
theorem restore_loop_step_en (env : Env) (m : Machine)
    (hcs : m.fdc.CommandState = FDCEMU_RUN_RESTORE_SEEKTOTRACKZERO_LOOP)
    (ht : m.fdc.TR ≠ 0) (hen : driveEnabledSel m)
    (hh : (selDrive m).HeadTrack ≠ 0) :
    (FDC_UpdateRestoreCmd env m).1.fdc.CommandState = m.fdc.CommandState ∧
    (FDC_UpdateRestoreCmd env m).1.fdc.TR = u8dec m.fdc.TR ∧
    (selDrive (FDC_UpdateRestoreCmd env m).1).HeadTrack =
      u8dec (selDrive m).HeadTrack ∧
    (FDC_UpdateRestoreCmd env m).1.fdc.CR = m.fdc.CR ∧
    (FDC_UpdateRestoreCmd env m).1.fdc.Command = m.fdc.Command ∧
    (FDC_UpdateRestoreCmd env m).1.fdc.DriveSelSignal = m.fdc.DriveSelSignal ∧
    (selDrive (FDC_UpdateRestoreCmd env m).1).Enabled = (selDrive m).Enabled := by
  obtain ⟨hge, hena⟩ := hen
  rw [updateRestore_at_loop env m hcs]
  unfold FDC_RestoreLoopBody driveEnabledSel
  dsimp only
  simp only [FDC_Update_STR, selDrive_withFdc, selDrive_setSelDrive, setSelDrive_fdc,
    withFdc_fdc]
  split_ifs <;>
    simp_all [u8dec, FDC_Update_STR, selDrive, setSelDrive, withFdc] <;>
    split_ifs <;> simp_all <;> omega

set_option maxHeartbeats 2000000 in
/-- One visit of the restore loop with an enabled selected drive already at
track 0: the track register is cleared, the TR00 bit is set and the command
moves on to its verify phase. -/
theorem restore_loop_finish_en (env : Env) (m : Machine)
    (hcs : m.fdc.CommandState = FDCEMU_RUN_RESTORE_SEEKTOTRACKZERO_LOOP)
    (ht : m.fdc.TR ≠ 0) (hen : driveEnabledSel m)
    (hh : (selDrive m).HeadTrack = 0) :
    (FDC_UpdateRestoreCmd env m).1.fdc.CommandState = FDCEMU_RUN_RESTORE_VERIFY ∧
    (FDC_UpdateRestoreCmd env m).1.fdc.TR = 0 ∧
    (FDC_UpdateRestoreCmd env m).1.fdc.CR = m.fdc.CR ∧
    (FDC_UpdateRestoreCmd env m).1.fdc.STR = (m.fdc.STR &&& 255) ||| 4 := by
  obtain ⟨hge, hena⟩ := hen
  rw [updateRestore_at_loop env m hcs]
  unfold FDC_RestoreLoopBody driveEnabledSel
  dsimp only
  simp only [FDC_Update_STR, selDrive_withFdc, selDrive_setSelDrive, setSelDrive_fdc,
    withFdc_fdc]
  split_ifs <;>
    simp_all [u8dec, FDC_Update_STR, FDC_STR_BIT_TR00, selDrive, setSelDrive, withFdc] <;>
    split_ifs <;> simp_all <;> omega

set_option maxHeartbeats 2000000 in
/-- One visit of the restore loop without a usable drive (none selected, or
the selected drive disabled): `TR` decrements, the state stays in the loop
and the drive condition persists. -/
theorem restore_loop_step_bad (env : Env) (m : Machine)
    (hcs : m.fdc.CommandState = FDCEMU_RUN_RESTORE_SEEKTOTRACKZERO_LOOP)
    (ht : m.fdc.TR ≠ 0)
    (hbad : m.fdc.DriveSelSignal < 0 ∨ (selDrive m).Enabled = false) :
    (FDC_UpdateRestoreCmd env m).1.fdc.CommandState = m.fdc.CommandState ∧
    (FDC_UpdateRestoreCmd env m).1.fdc.TR = u8dec m.fdc.TR ∧
    (FDC_UpdateRestoreCmd env m).1.fdc.DriveSelSignal = m.fdc.DriveSelSignal ∧
    (selDrive (FDC_UpdateRestoreCmd env m).1).Enabled = (selDrive m).Enabled := by
  rcases hbad with hbad | hbad <;>
  · rw [updateRestore_at_loop env m hcs]
    unfold FDC_RestoreLoopBody driveEnabledSel
    dsimp only
    simp only [FDC_Update_STR, selDrive_withFdc, selDrive_setSelDrive, setSelDrive_fdc,
      withFdc_fdc]
    split_ifs <;>
      simp_all [u8dec, FDC_Update_STR, selDrive, setSelDrive, withFdc] <;>
      split_ifs <;> simp_all <;> omega

set_option maxHeartbeats 2000000 in
/-- The visit of the restore loop on which `TR` has reached 0 without a
usable drive: the command completes with RNF set, TR00 cleared, BUSY
cleared, the fake motor-stop command installed and the IRQ raised. -/
theorem restore_loop_rnf (env : Env) (m : Machine)
    (hcs : m.fdc.CommandState = FDCEMU_RUN_RESTORE_SEEKTOTRACKZERO_LOOP)
    (ht : m.fdc.TR = 0)
    (hbad : m.fdc.DriveSelSignal < 0 ∨ (selDrive m).Enabled = false) :
    (FDC_UpdateRestoreCmd env m).1.fdc.Command = FDCEMU_CMD_MOTOR_STOP ∧
    (FDC_UpdateRestoreCmd env m).1.irq = true ∧
    (FDC_UpdateRestoreCmd env m).1.fdc.STR =
      ((((m.fdc.STR &&& 255) ||| 16) &&& 251) &&& 254) &&& 251 := by
  rcases hbad with hbad | hbad <;>
  · rw [updateRestore_at_loop env m hcs]
    unfold FDC_RestoreLoopBody driveEnabledSel FDC_CmdCompleteCommon FDC_SetIRQ
    dsimp only
    simp only [FDC_Update_STR, selDrive_withFdc, selDrive_setSelDrive, setSelDrive_fdc,
      withFdc_fdc]
    split_ifs <;>
      simp_all [u8dec, FDC_Update_STR, FDC_STR_BIT_TR00, FDC_STR_BIT_RNF,
        FDC_STR_BIT_BUSY, FDCEMU_CMD_MOTOR_STOP, FDCEMU_RUN_MOTOR_STOP,
        selDrive, setSelDrive, withFdc] <;>
      split_ifs <;> simp_all <;> omega

/-- The verify phase when the command's verify bit is clear: go straight to
the complete phase, everything else untouched. -/
theorem restore_verify_skip (env : Env) (m : Machine)
    (hcs : m.fdc.CommandState = FDCEMU_RUN_RESTORE_VERIFY)
    (hv : m.fdc.CR &&& FDC_COMMAND_BIT_VERIFY = 0) :
    (FDC_UpdateRestoreCmd env m).1 =
      withFdc m fun r => { r with CommandState := FDCEMU_RUN_RESTORE_COMPLETE } := by
  unfold FDC_UpdateRestoreCmd
  rw [hcs]
  simp [FDCEMU_RUN_RESTORE_SEEKTOTRACKZERO, FDCEMU_RUN_RESTORE_SEEKTOTRACKZERO_SPIN_UP,
    FDCEMU_RUN_RESTORE_SEEKTOTRACKZERO_MOTOR_ON, FDCEMU_RUN_RESTORE_SEEKTOTRACKZERO_LOOP,
    FDCEMU_RUN_RESTORE_VERIFY, hv]

/-- The complete phase of restore calls the common completion path with an
interrupt. -/
theorem restore_complete_step (env : Env) (m : Machine)
    (hcs : m.fdc.CommandState = FDCEMU_RUN_RESTORE_COMPLETE) :
    (FDC_UpdateRestoreCmd env m).1 = (FDC_CmdCompleteCommon m true).1 := by
  unfold FDC_UpdateRestoreCmd
  rw [hcs]
  simp [FDCEMU_RUN_RESTORE_SEEKTOTRACKZERO, FDCEMU_RUN_RESTORE_SEEKTOTRACKZERO_SPIN_UP,
    FDCEMU_RUN_RESTORE_SEEKTOTRACKZERO_MOTOR_ON, FDCEMU_RUN_RESTORE_SEEKTOTRACKZERO_LOOP,
    FDCEMU_RUN_RESTORE_VERIFY, FDCEMU_RUN_RESTORE_VERIFY_HEAD_OK,
    FDCEMU_RUN_RESTORE_VERIFY_NEXT_SECTOR_HEADER,
    FDCEMU_RUN_RESTORE_VERIFY_CHECK_SECTOR_HEADER, FDCEMU_RUN_RESTORE_COMPLETE]

/-- Field effects of the common completion path with an interrupt. -/
theorem cmdComplete_fields (m : Machine) :
    (FDC_CmdCompleteCommon m true).1.fdc.Command = FDCEMU_CMD_MOTOR_STOP ∧
    (FDC_CmdCompleteCommon m true).1.fdc.TR = m.fdc.TR ∧
    (FDC_CmdCompleteCommon m true).1.fdc.STR = m.fdc.STR &&& 254 ∧
    (FDC_CmdCompleteCommon m true).1.irq = true := by
  simp [FDC_CmdCompleteCommon, FDC_Update_STR, FDC_SetIRQ, FDC_STR_BIT_BUSY, withFdc]

/-- Stepping phase of a successful restore: with the selected drive enabled,
head `h` tracks away from track 0 and `h < TR`, after `h + 1` visits of the
loop the verify phase is entered with `TR = 0` and the TR00 bit set. -/
theorem restore_success_ind (env : Env) : ∀ h : Nat, ∀ m : Machine,
    m.fdc.CommandState = FDCEMU_RUN_RESTORE_SEEKTOTRACKZERO_LOOP →
    driveEnabledSel m → (selDrive m).HeadTrack = h →
    h < m.fdc.TR → m.fdc.TR ≤ 255 →
    (restoreRun env (h + 1) m).fdc.CommandState = FDCEMU_RUN_RESTORE_VERIFY ∧
    (restoreRun env (h + 1) m).fdc.TR = 0 ∧
    (restoreRun env (h + 1) m).fdc.CR = m.fdc.CR ∧
    (restoreRun env (h + 1) m).fdc.STR.testBit 2 = true := by
  intro h
  induction h with
  | zero =>
      intro m hcs hen hh hlt hle
      have hfin := restore_loop_finish_en env m hcs (by omega) hen hh
      rw [restoreRun_succ, restoreRun_zero]
      refine ⟨hfin.1, hfin.2.1, hfin.2.2.1, ?_⟩
      rw [hfin.2.2.2]
      simp [Nat.testBit_or, show Nat.testBit 4 2 = true from by decide]
  | succ k ih =>
      intro m hcs hen hh hlt hle
      have hstep := restore_loop_step_en env m hcs (by omega) hen (by omega)
      obtain ⟨hcs1, hTR1, hhd1, hCR1, -, hds1, hEn1⟩ := hstep
      have hen1 : driveEnabledSel (FDC_UpdateRestoreCmd env m).1 := by
        unfold driveEnabledSel at hen ⊢
        exact ⟨by rw [hds1]; exact hen.1, by rw [hEn1]; exact hen.2⟩
      have hh1 : (selDrive (FDC_UpdateRestoreCmd env m).1).HeadTrack = k := by
        rw [hhd1, hh]; unfold u8dec; omega
      have hTR1' : (FDC_UpdateRestoreCmd env m).1.fdc.TR = m.fdc.TR - 1 := by
        rw [hTR1]; unfold u8dec; omega
      have hres := ih (FDC_UpdateRestoreCmd env m).1 (hcs1.trans hcs) hen1 hh1
        (by omega) (by omega)
      rw [restoreRun_succ]
      exact ⟨hres.1, hres.2.1, hres.2.2.1.trans hCR1, hres.2.2.2⟩

/-- Stepping phase of a failing restore (no drive selected, or the selected
drive disabled): `TR` counts down to 0 while the state stays in the loop
and the drive condition persists. -/
theorem restore_fail_ind (env : Env) : ∀ t : Nat, ∀ m : Machine,
    m.fdc.CommandState = FDCEMU_RUN_RESTORE_SEEKTOTRACKZERO_LOOP →
    m.fdc.TR = t → t ≤ 255 →
    (m.fdc.DriveSelSignal < 0 ∨ (selDrive m).Enabled = false) →
    (restoreRun env t m).fdc.CommandState = FDCEMU_RUN_RESTORE_SEEKTOTRACKZERO_LOOP ∧
    (restoreRun env t m).fdc.TR = 0 ∧
    ((restoreRun env t m).fdc.DriveSelSignal < 0 ∨
      (selDrive (restoreRun env t m)).Enabled = false) := by
  intro t
  induction t with
  | zero =>
      intro m hcs hTR hle hbad
      exact ⟨hcs, hTR, hbad⟩
  | succ k ih =>
      intro m hcs hTR hle hbad
      have hstep := restore_loop_step_bad env m hcs (by omega) hbad
      obtain ⟨hcs1, hTR1, hds1, hEn1⟩ := hstep
      have hbad1 : (FDC_UpdateRestoreCmd env m).1.fdc.DriveSelSignal < 0 ∨
          (selDrive (FDC_UpdateRestoreCmd env m).1).Enabled = false := by
        rw [hds1, hEn1]; exact hbad
      have hTR1' : (FDC_UpdateRestoreCmd env m).1.fdc.TR = k := by
        rw [hTR1, hTR]; unfold u8dec; omega
      rw [restoreRun_succ]
      exact ih (FDC_UpdateRestoreCmd env m).1 (hcs1.trans hcs) hTR1' (by omega) hbad1

/-- Bits of the status byte produced by the failing-restore completion:
RNF set, TR00 clear, BUSY clear. -/
theorem rnf_str_bits (s : Nat) :
    (((((s &&& 255) ||| 16) &&& 251) &&& 254) &&& 251) &&& 16 ≠ 0 ∧
    (((((s &&& 255) ||| 16) &&& 251) &&& 254) &&& 251) &&& 4 = 0 ∧
    (((((s &&& 255) ||| 16) &&& 251) &&& 254) &&& 251) &&& 1 = 0 := by
  have h4 : ((((((s &&& 255) ||| 16) &&& 251) &&& 254) &&& 251)).testBit 4 = true := by
    simp [Nat.testBit_and, Nat.testBit_or,
      show Nat.testBit 16 4 = true from by decide,
      show Nat.testBit 251 4 = true from by decide,
      show Nat.testBit 254 4 = true from by decide]
  have h2 : ((((((s &&& 255) ||| 16) &&& 251) &&& 254) &&& 251)).testBit 2 = false := by
    simp [Nat.testBit_and, Nat.testBit_or,
      show Nat.testBit 251 2 = false from by decide]
  have h0 : ((((((s &&& 255) ||| 16) &&& 251) &&& 254) &&& 251)).testBit 0 = false := by
    simp [Nat.testBit_and, Nat.testBit_or,
      show Nat.testBit 254 0 = false from by decide]
  refine ⟨?_, ?_, ?_⟩
  · have := and_two_pow_ne_zero _ 4 h4
    simpa using this
  · have := and_two_pow_eq_zero _ 2 h2
    simpa using this
  · have := and_two_pow_eq_zero _ 0 h0
    simpa using this

set_option maxHeartbeats 1000000 in
/-- C4.  A Restore command in its stepping loop (entered from the source
with `TR = 255`): (success) if the selected drive is enabled and its head is
`h` tracks from track 0 with `h < TR`, then after the `h + 1` loop visits
plus the verify and complete visits the command has completed — busy clear,
fake motor-stop command, IRQ raised — with the TR00 status bit set and the
track register equal to 0; (failure) if no drive is selected or the selected
drive is disabled, the head never reports track 0, so after the `TR` loop
visits that exhaust the track register and one further visit the command has
completed with the RNF status bit set and the TR00 bit clear. -/
theorem C4_restore_command (env : Env) (m : Machine)
    (hcs : m.fdc.CommandState = FDCEMU_RUN_RESTORE_SEEKTOTRACKZERO_LOOP)
    (hTR : m.fdc.TR ≤ 255) :
    (∀ h : Nat, driveEnabledSel m → (selDrive m).HeadTrack = h → h < m.fdc.TR →
      m.fdc.CR &&& FDC_COMMAND_BIT_VERIFY = 0 →
      (restoreRun env (h + 3) m).fdc.TR = 0 ∧
      (restoreRun env (h + 3) m).fdc.STR &&& FDC_STR_BIT_TR00 ≠ 0 ∧
      (restoreRun env (h + 3) m).fdc.STR &&& FDC_STR_BIT_BUSY = 0 ∧
      (restoreRun env (h + 3) m).fdc.Command = FDCEMU_CMD_MOTOR_STOP ∧
      (restoreRun env (h + 3) m).irq = true) ∧
    ((m.fdc.DriveSelSignal < 0 ∨ (selDrive m).Enabled = false) →
      (restoreRun env (m.fdc.TR + 1) m).fdc.STR &&& FDC_STR_BIT_RNF ≠ 0 ∧
      (restoreRun env (m.fdc.TR + 1) m).fdc.STR &&& FDC_STR_BIT_TR00 = 0 ∧
      (restoreRun env (m.fdc.TR + 1) m).fdc.STR &&& FDC_STR_BIT_BUSY = 0 ∧
      (restoreRun env (m.fdc.TR + 1) m).fdc.Command = FDCEMU_CMD_MOTOR_STOP ∧
      (restoreRun env (m.fdc.TR + 1) m).irq = true) := by
  constructor
  · intro h hen hh hlt hv
    have hsucc := restore_success_ind env h m hcs hen hh hlt hTR
    obtain ⟨hcs1, hTR1, hCR1, hSTR1⟩ := hsucc
    have hadd : h + 3 = (h + 1) + 2 := by omega
    rw [hadd, restoreRun_add]
    rw [show (2 : Nat) = 1 + 1 from rfl, restoreRun_succ, restoreRun_succ, restoreRun_zero]
    have hskip := restore_verify_skip env (restoreRun env (h + 1) m) hcs1
      (by rw [hCR1]; exact hv)
    rw [hskip]
    have hcs2 : (withFdc (restoreRun env (h + 1) m) fun r =>
        { r with CommandState := FDCEMU_RUN_RESTORE_COMPLETE }).fdc.CommandState =
        FDCEMU_RUN_RESTORE_COMPLETE := rfl
    rw [restore_complete_step env _ hcs2]
    have hcc := cmdComplete_fields (withFdc (restoreRun env (h + 1) m) fun r =>
      { r with CommandState := FDCEMU_RUN_RESTORE_COMPLETE })
    obtain ⟨hccC, hccTR, hccSTR, hccIrq⟩ := hcc
    have hTRw : (withFdc (restoreRun env (h + 1) m) fun r =>
        { r with CommandState := FDCEMU_RUN_RESTORE_COMPLETE }).fdc.TR =
        (restoreRun env (h + 1) m).fdc.TR := rfl
    have hSTRw : (withFdc (restoreRun env (h + 1) m) fun r =>
        { r with CommandState := FDCEMU_RUN_RESTORE_COMPLETE }).fdc.STR =
        (restoreRun env (h + 1) m).fdc.STR := rfl
    refine ⟨by rw [hccTR, hTRw, hTR1], ?_, ?_, hccC, hccIrq⟩
    · rw [hccSTR, hSTRw]
      have hb : ((restoreRun env (h + 1) m).fdc.STR &&& 254).testBit 2 = true := by
        simp [Nat.testBit_and, hSTR1, show Nat.testBit 254 2 = true from by decide]
      have := and_two_pow_ne_zero _ 2 hb
      simpa [FDC_STR_BIT_TR00] using this
    · rw [hccSTR, hSTRw]
      have hb : ((restoreRun env (h + 1) m).fdc.STR &&& 254).testBit 0 = false := by
        simp [Nat.testBit_and, show Nat.testBit 254 0 = false from by decide]
      have := and_two_pow_eq_zero _ 0 hb
      simpa [FDC_STR_BIT_BUSY] using this
  · intro hbad
    have hfail := restore_fail_ind env m.fdc.TR m hcs rfl hTR hbad
    obtain ⟨hcs1, hTR1, hbad1⟩ := hfail
    rw [restoreRun_add env m.fdc.TR 1 m, restoreRun_succ, restoreRun_zero]
    have hrnf := restore_loop_rnf env (restoreRun env m.fdc.TR m) hcs1 hTR1 hbad1
    obtain ⟨hC, hIrq, hSTR⟩ := hrnf
    have hbits := rnf_str_bits (restoreRun env m.fdc.TR m).fdc.STR
    refine ⟨?_, ?_, ?_, hC, hIrq⟩
    · rw [hSTR]
      simpa [FDC_STR_BIT_RNF] using hbits.1
    · rw [hSTR]
      simpa [FDC_STR_BIT_TR00] using hbits.2.1
    · rw [hSTR]
      simpa [FDC_STR_BIT_BUSY] using hbits.2.2

/-- A machine used as a witness input for C4: drive 0 selected and enabled,
head at track 1, `TR = 3`, restore loop entered, no verify bit. -/
def C4restoreMachine : Machine :=
  { initMachine with
    fdc := { initMachine.fdc with
             DriveSelSignal := 0
             TR := 3
             CR := 0
             Command := FDCEMU_CMD_RESTORE
             CommandState := FDCEMU_RUN_RESTORE_SEEKTOTRACKZERO_LOOP }
    drive0 := { initMachine.drive0 with HeadTrack := 1 } }

/-- Witness for C4: the successful branch at head distance 1. -/
theorem C4_witness :
    C4restoreMachine.fdc.CommandState = FDCEMU_RUN_RESTORE_SEEKTOTRACKZERO_LOOP ∧
    C4restoreMachine.fdc.TR ≤ 255 ∧
    ((restoreRun env0 (1 + 3) C4restoreMachine).fdc.TR = 0 ∧
     (restoreRun env0 (1 + 3) C4restoreMachine).fdc.STR &&& FDC_STR_BIT_TR00 ≠ 0 ∧
     (restoreRun env0 (1 + 3) C4restoreMachine).fdc.STR &&& FDC_STR_BIT_BUSY = 0 ∧
     (restoreRun env0 (1 + 3) C4restoreMachine).fdc.Command = FDCEMU_CMD_MOTOR_STOP ∧
     (restoreRun env0 (1 + 3) C4restoreMachine).irq = true) := by
  refine ⟨by decide, by decide, ?_⟩
  exact (C4_restore_command env0 C4restoreMachine (by decide) (by decide)).1 1
    (by decide) (by decide) (by decide) (by decide)

/-- Witness for C5: stepping inward at track 90 leaves the head at 90. -/
theorem C5_witness :
    (C5stepMachine.fdc.StepDirection = 1 ∨ C5stepMachine.fdc.StepDirection = -1) ∧
    driveEnabledSel C5stepMachine ∧ (selDrive C5stepMachine).HeadTrack ≤ 90 ∧
    (selDrive (FDC_UpdateStepCmd env0 C5stepMachine).1).HeadTrack = 90 := by
  refine ⟨by decide, by decide, by decide, ?_⟩
  exact (((C5_head_clamping env0 C5stepMachine (by decide) (by decide)
    (by decide)).1 (by decide)).2).1 (by decide) (by decide)

/-! ## Claim C3: DMA FIFO pushes with sector count 0 -/

/-- Iterate the read-sector(s) state machine for `n` scheduler visits. -/
def readRun (env : Env) : Nat → Machine → Machine
  | 0, m => m
  | n + 1, m => readRun env n (FDC_UpdateReadSectorsCmd env m).1

theorem readRun_zero (env : Env) (m : Machine) : readRun env 0 m = m := rfl

theorem readRun_succ (env : Env) (n : Nat) (m : Machine) :
    readRun env (n + 1) m = readRun env n (FDC_UpdateReadSectorsCmd env m).1 := rfl

theorem readRun_add (env : Env) (a b : Nat) (m : Machine) :
    readRun env (a + b) m = readRun env b (readRun env a m) := by
  induction a generalizing m with
  | zero => rw [Nat.zero_add, readRun_zero]
  | succ k ih =>
      have h : k + 1 + b = (k + b) + 1 := by omega
      rw [h, readRun_succ, ih, readRun_succ]

/-- Masking with the even constant 65534 (the DMA-error update) yields an
even number: its low bit reads 0. -/
theorem and_65534_even (s : Nat) : (s &&& 65534) % 2 = 0 := by
  rw [← Nat.and_one_is_mod, Nat.and_assoc]
  simp

/-- A push while the sector count is 0 only records the byte in the
`ff8604` shadow and flags the DMA error: FIFO, counters, DMA address and
memory are untouched. -/
theorem push_discard (m : Machine) (b : Nat) (hsc : m.dma.SectorCount = 0) :
    (FDC_DMA_FIFO_Push m b).dma.Status &&& 1 = 0 ∧
    (FDC_DMA_FIFO_Push m b).dma.FIFO = m.dma.FIFO ∧
    (FDC_DMA_FIFO_Push m b).dma.FIFO_Size = m.dma.FIFO_Size ∧
    (FDC_DMA_FIFO_Push m b).dma.SectorCount = m.dma.SectorCount ∧
    (FDC_DMA_FIFO_Push m b).dma.BytesInSector = m.dma.BytesInSector ∧
    FDC_GetDMAAddress (FDC_DMA_FIFO_Push m b) = FDC_GetDMAAddress m ∧
    (FDC_DMA_FIFO_Push m b).memWrites = m.memWrites ∧
    (FDC_DMA_FIFO_Push m b).fdc = m.fdc := by
  unfold FDC_DMA_FIFO_Push FDC_SetDMAStatus FDC_GetDMAAddress
  simp [withDma, hsc, Nat.and_assoc, and_65534_even]

set_option maxHeartbeats 1000000 in
/-- One visit of the read-sector transfer loop with sector count 0: the FDC
registers are untouched, one byte is pushed (and discarded, flagging the
DMA error), the byte counter decrements and the buffer position advances. -/
theorem read_loop_step (env : Env) (m : Machine)
    (hcs : m.fdc.CommandState = FDCEMU_RUN_READSECTORS_READDATA_TRANSFER_LOOP)
    (hsc : m.dma.SectorCount = 0) (hbt : 0 < m.dma.BytesToTransfer) :
    (FDC_UpdateReadSectorsCmd env m).1.fdc = m.fdc ∧
    (FDC_UpdateReadSectorsCmd env m).1.dma.BytesToTransfer =
      m.dma.BytesToTransfer - 1 ∧
    (FDC_UpdateReadSectorsCmd env m).1.dma.SectorCount = 0 ∧
    (FDC_UpdateReadSectorsCmd env m).1.dma.FIFO = m.dma.FIFO ∧
    (FDC_UpdateReadSectorsCmd env m).1.dma.FIFO_Size = m.dma.FIFO_Size ∧
    (FDC_UpdateReadSectorsCmd env m).1.dma.Status &&& 1 = 0 ∧
    (FDC_UpdateReadSectorsCmd env m).1.dma.PosInBuffer = m.dma.PosInBuffer + 1 ∧
    (FDC_UpdateReadSectorsCmd env m).1.memWrites = m.memWrites := by
  unfold FDC_UpdateReadSectorsCmd
  rw [hcs]
  simp only [FDCEMU_RUN_READSECTORS_READDATA, FDCEMU_RUN_READSECTORS_READDATA_SPIN_UP,
    FDCEMU_RUN_READSECTORS_READDATA_HEAD_LOAD, FDCEMU_RUN_READSECTORS_READDATA_MOTOR_ON,
    FDCEMU_RUN_READSECTORS_READDATA_NEXT_SECTOR_HEADER,
    FDCEMU_RUN_READSECTORS_READDATA_CHECK_SECTOR_HEADER,
    FDCEMU_RUN_READSECTORS_READDATA_TRANSFER_START,
    FDCEMU_RUN_READSECTORS_READDATA_TRANSFER_LOOP]
  simp_all [FDC_DMA_FIFO_Push, FDC_SetDMAStatus, withDma, withFdc, Nat.and_assoc,
    and_65534_even]

/-- The visit of the transfer loop on which the byte counter has reached 0:
move to the CRC state, everything observable untouched. -/
theorem read_loop_exit (env : Env) (m : Machine)
    (hcs : m.fdc.CommandState = FDCEMU_RUN_READSECTORS_READDATA_TRANSFER_LOOP)
    (hbt : ¬ 0 < m.dma.BytesToTransfer) :
    (FDC_UpdateReadSectorsCmd env m).1.fdc.CommandState = FDCEMU_RUN_READSECTORS_CRC ∧
    (FDC_UpdateReadSectorsCmd env m).1.fdc.CR = m.fdc.CR ∧
    (FDC_UpdateReadSectorsCmd env m).1.fdc.STR = m.fdc.STR ∧
    (FDC_UpdateReadSectorsCmd env m).1.fdc.Command = m.fdc.Command ∧
    (FDC_UpdateReadSectorsCmd env m).1.dma.Status = m.dma.Status ∧
    (FDC_UpdateReadSectorsCmd env m).1.dma.FIFO = m.dma.FIFO ∧
    (FDC_UpdateReadSectorsCmd env m).1.dma.FIFO_Size = m.dma.FIFO_Size ∧
    (FDC_UpdateReadSectorsCmd env m).1.dma.PosInBuffer = m.dma.PosInBuffer ∧
    (FDC_UpdateReadSectorsCmd env m).1.memWrites = m.memWrites ∧
    (FDC_UpdateReadSectorsCmd env m).1.irq = m.irq := by
  unfold FDC_UpdateReadSectorsCmd
  rw [hcs]
  simp only [FDCEMU_RUN_READSECTORS_READDATA, FDCEMU_RUN_READSECTORS_READDATA_SPIN_UP,
    FDCEMU_RUN_READSECTORS_READDATA_HEAD_LOAD, FDCEMU_RUN_READSECTORS_READDATA_MOTOR_ON,
    FDCEMU_RUN_READSECTORS_READDATA_NEXT_SECTOR_HEADER,
    FDCEMU_RUN_READSECTORS_READDATA_CHECK_SECTOR_HEADER,
    FDCEMU_RUN_READSECTORS_READDATA_TRANSFER_START,
    FDCEMU_RUN_READSECTORS_READDATA_TRANSFER_LOOP]
  simp only [if_neg hbt]
  simp_all [withDma, withFdc]

/-- The CRC visit of a single-sector read: go to the complete state,
everything observable untouched. -/
theorem read_crc_step (env : Env) (m : Machine)
    (hcs : m.fdc.CommandState = FDCEMU_RUN_READSECTORS_CRC)
    (hmul : m.fdc.CR &&& FDC_COMMAND_BIT_MULTIPLE_SECTOR = 0) :
    (FDC_UpdateReadSectorsCmd env m).1.fdc.CommandState =
      FDCEMU_RUN_READSECTORS_COMPLETE ∧
    (FDC_UpdateReadSectorsCmd env m).1.fdc.STR = m.fdc.STR ∧
    (FDC_UpdateReadSectorsCmd env m).1.fdc.Command = m.fdc.Command ∧
    (FDC_UpdateReadSectorsCmd env m).1.dma = m.dma ∧
    (FDC_UpdateReadSectorsCmd env m).1.memWrites = m.memWrites ∧
    (FDC_UpdateReadSectorsCmd env m).1.irq = m.irq := by
  unfold FDC_UpdateReadSectorsCmd
  rw [hcs]
  simp only [FDCEMU_RUN_READSECTORS_READDATA, FDCEMU_RUN_READSECTORS_READDATA_SPIN_UP,
    FDCEMU_RUN_READSECTORS_READDATA_HEAD_LOAD, FDCEMU_RUN_READSECTORS_READDATA_MOTOR_ON,
    FDCEMU_RUN_READSECTORS_READDATA_NEXT_SECTOR_HEADER,
    FDCEMU_RUN_READSECTORS_READDATA_CHECK_SECTOR_HEADER,
    FDCEMU_RUN_READSECTORS_READDATA_TRANSFER_START,
    FDCEMU_RUN_READSECTORS_READDATA_TRANSFER_LOOP, FDCEMU_RUN_READSECTORS_CRC]
  simp_all [withFdc]

/-- The complete visit of a read: the common completion path with an
interrupt, leaving the DMA state and memory untouched. -/
theorem read_complete_step (env : Env) (m : Machine)
    (hcs : m.fdc.CommandState = FDCEMU_RUN_READSECTORS_COMPLETE) :
    (FDC_UpdateReadSectorsCmd env m).1.fdc.Command = FDCEMU_CMD_MOTOR_STOP ∧
    (FDC_UpdateReadSectorsCmd env m).1.fdc.STR = m.fdc.STR &&& 254 ∧
    (FDC_UpdateReadSectorsCmd env m).1.dma = m.dma ∧
    (FDC_UpdateReadSectorsCmd env m).1.memWrites = m.memWrites ∧
    (FDC_UpdateReadSectorsCmd env m).1.irq = true := by
  unfold FDC_UpdateReadSectorsCmd
  rw [hcs]
  simp only [FDCEMU_RUN_READSECTORS_READDATA, FDCEMU_RUN_READSECTORS_READDATA_SPIN_UP,
    FDCEMU_RUN_READSECTORS_READDATA_HEAD_LOAD, FDCEMU_RUN_READSECTORS_READDATA_MOTOR_ON,
    FDCEMU_RUN_READSECTORS_READDATA_NEXT_SECTOR_HEADER,
    FDCEMU_RUN_READSECTORS_READDATA_CHECK_SECTOR_HEADER,
    FDCEMU_RUN_READSECTORS_READDATA_TRANSFER_START,
    FDCEMU_RUN_READSECTORS_READDATA_TRANSFER_LOOP, FDCEMU_RUN_READSECTORS_CRC,
    FDCEMU_RUN_READSECTORS_RNF, FDCEMU_RUN_READSECTORS_COMPLETE]
  simp_all [FDC_CmdCompleteCommon, FDC_Update_STR, FDC_SetIRQ, FDC_STR_BIT_BUSY,
    withFdc]

/-- The transfer loop visited `n` times with sector count 0: all `n` bytes
are pushed and discarded, the FDC registers and memory are untouched, and
after at least one push the DMA error bit reads 0 (error). -/
theorem read_loop_ind (env : Env) : ∀ n : Nat, ∀ m : Machine,
    m.fdc.CommandState = FDCEMU_RUN_READSECTORS_READDATA_TRANSFER_LOOP →
    m.dma.BytesToTransfer = (n : Int) → m.dma.SectorCount = 0 →
    (readRun env n m).fdc = m.fdc ∧
    (readRun env n m).dma.BytesToTransfer = 0 ∧
    (readRun env n m).dma.SectorCount = 0 ∧
    (readRun env n m).dma.FIFO = m.dma.FIFO ∧
    (readRun env n m).dma.FIFO_Size = m.dma.FIFO_Size ∧
    (readRun env n m).dma.PosInBuffer = m.dma.PosInBuffer + (n : Int) ∧
    (readRun env n m).memWrites = m.memWrites ∧
    (0 < n → (readRun env n m).dma.Status &&& 1 = 0) ∧
    (n = 0 → (readRun env n m).dma.Status = m.dma.Status) := by
  intro n
  induction n with
  | zero =>
      intro m hcs hbt hsc
      rw [readRun_zero]
      refine ⟨rfl, by rw [hbt]; rfl, hsc, rfl, rfl, by simp, rfl, by omega, fun _ => rfl⟩
  | succ k ih =>
      intro m hcs hbt hsc
      have hbt0 : (0 : Int) < m.dma.BytesToTransfer := by
        rw [hbt]; exact_mod_cast Nat.succ_pos k
      have hstep := read_loop_step env m hcs hsc hbt0
      obtain ⟨hfdc1, hbt1, hsc1, hfifo1, hfs1, hst1, hpos1, hmw1⟩ := hstep
      have hcs1 : (FDC_UpdateReadSectorsCmd env m).1.fdc.CommandState =
          FDCEMU_RUN_READSECTORS_READDATA_TRANSFER_LOOP := by rw [hfdc1]; exact hcs
      have hbt1' : (FDC_UpdateReadSectorsCmd env m).1.dma.BytesToTransfer = (k : Int) := by
        rw [hbt1, hbt]; push_cast; ring
      have hres := ih (FDC_UpdateReadSectorsCmd env m).1 hcs1 hbt1' hsc1
      rw [readRun_succ]
      refine ⟨hres.1.trans hfdc1, hres.2.1, hres.2.2.1, hres.2.2.2.1.trans hfifo1,
        hres.2.2.2.2.1.trans hfs1, ?_, hres.2.2.2.2.2.2.1.trans hmw1, ?_, by omega⟩
      · rw [hres.2.2.2.2.2.1, hpos1]
        push_cast
        ring
      · intro _
        rcases Nat.eq_zero_or_pos k with hk | hk
        · rw [hres.2.2.2.2.2.2.2.2 hk]
          exact hst1
        · exact hres.2.2.2.2.2.2.2.1 hk

/-- C3.  (discard) A byte pushed through the DMA FIFO while the sector
count is 0 flags the DMA error (status bit 0 reads 0) and is discarded:
FIFO contents, FIFO size, sector count, bytes-in-sector, DMA address and
memory are unchanged.  (read run) A Read Sector command in its transfer
loop with 512 bytes to go and sector count 0 still pushes all 512 bytes
(the buffer position advances by 512), writes nothing to memory, flags the
DMA error, and completes — busy cleared, fake motor-stop command, IRQ
raised — without setting RNF. -/
theorem C3_push_discard_and_read_run (env : Env) (m : Machine) :
    (m.dma.SectorCount = 0 → ∀ b : Nat,
      (FDC_DMA_FIFO_Push m b).dma.Status &&& 1 = 0 ∧
      (FDC_DMA_FIFO_Push m b).dma.FIFO = m.dma.FIFO ∧
      (FDC_DMA_FIFO_Push m b).dma.FIFO_Size = m.dma.FIFO_Size ∧
      (FDC_DMA_FIFO_Push m b).dma.SectorCount = m.dma.SectorCount ∧
      (FDC_DMA_FIFO_Push m b).dma.BytesInSector = m.dma.BytesInSector ∧
      FDC_GetDMAAddress (FDC_DMA_FIFO_Push m b) = FDC_GetDMAAddress m ∧
      (FDC_DMA_FIFO_Push m b).memWrites = m.memWrites) ∧
    (m.fdc.CommandState = FDCEMU_RUN_READSECTORS_READDATA_TRANSFER_LOOP →
      m.dma.BytesToTransfer = (512 : Int) →
      m.dma.SectorCount = 0 →
      m.fdc.CR &&& FDC_COMMAND_BIT_MULTIPLE_SECTOR = 0 →
      m.fdc.STR &&& FDC_STR_BIT_RNF = 0 →
      (readRun env 515 m).memWrites = m.memWrites ∧
      (readRun env 515 m).dma.PosInBuffer = m.dma.PosInBuffer + 512 ∧
      (readRun env 515 m).dma.Status &&& 1 = 0 ∧
      (readRun env 515 m).fdc.STR &&& FDC_STR_BIT_RNF = 0 ∧
      (readRun env 515 m).fdc.STR &&& FDC_STR_BIT_BUSY = 0 ∧
      (readRun env 515 m).fdc.Command = FDCEMU_CMD_MOTOR_STOP ∧
      (readRun env 515 m).irq = true) := by
  constructor
  · intro hsc b
    have h := push_discard m b hsc
    exact ⟨h.1, h.2.1, h.2.2.1, h.2.2.2.1, h.2.2.2.2.1, h.2.2.2.2.2.1, h.2.2.2.2.2.2.1⟩
  · intro hcs hbt hsc hmul hrnf
    have hind := read_loop_ind env 512 m hcs (by rw [hbt]; norm_num) hsc
    obtain ⟨hfdc1, hbt1, hsc1, -, -, hpos1, hmw1, hst1, -⟩ := hind
    rw [show (515 : Nat) = 512 + 3 from rfl, readRun_add]
    rw [show (3 : Nat) = 1 + 1 + 1 from rfl, readRun_succ, readRun_succ, readRun_succ,
      readRun_zero]
    have hcs1 : (readRun env 512 m).fdc.CommandState =
        FDCEMU_RUN_READSECTORS_READDATA_TRANSFER_LOOP := by rw [hfdc1]; exact hcs
    have hexit := read_loop_exit env (readRun env 512 m) hcs1 (by rw [hbt1]; omega)
    obtain ⟨hecs, heCR, heSTR, heCmd, heSt, -, -, hePos, heMW, -⟩ := hexit
    have hcrc := read_crc_step env (FDC_UpdateReadSectorsCmd env (readRun env 512 m)).1
      hecs (by rw [heCR, hfdc1]; exact hmul)
    obtain ⟨hccs, hcSTR, hcCmd, hcDma, hcMW, -⟩ := hcrc
    have hcomp := read_complete_step env _ hccs
    obtain ⟨hfC, hfSTR, hfDma, hfMW, hfIrq⟩ := hcomp
    refine ⟨?_, ?_, ?_, ?_, ?_, hfC, hfIrq⟩
    · rw [hfMW, hcMW, heMW, hmw1]
    · rw [hfDma, hcDma, hePos, hpos1]
      norm_num
    · rw [hfDma, hcDma, heSt, hst1 (by omega)]
    · rw [hfSTR, hcSTR, heSTR, hfdc1]
      have hb : ((m.fdc.STR &&& 254)).testBit 4 = m.fdc.STR.testBit 4 := by
        simp [Nat.testBit_and, show Nat.testBit 254 4 = true from by decide]
      have hb0 : m.fdc.STR.testBit 4 = false := by
        have := hrnf
        rw [FDC_STR_BIT_RNF, show (16 : Nat) = 2 ^ 4 from by norm_num,
          Nat.and_two_pow] at this
        rcases h : m.fdc.STR.testBit 4 with _ | _
        · rfl
        · rw [h] at this; simp at this
      have := and_two_pow_eq_zero (m.fdc.STR &&& 254) 4 (hb.trans hb0)
      simpa [FDC_STR_BIT_RNF] using this
    · rw [hfSTR, hcSTR, heSTR, hfdc1]
      have hb : ((m.fdc.STR &&& 254)).testBit 0 = false := by
        simp [Nat.testBit_and, show Nat.testBit 254 0 = false from by decide]
      have := and_two_pow_eq_zero (m.fdc.STR &&& 254) 0 hb
      simpa [FDC_STR_BIT_BUSY] using this

/-- A machine used as a witness input for C3: read-sector transfer loop
entered with 512 bytes to transfer and a DMA sector count of 0. -/
def C3readMachine : Machine :=
  { initMachine with
    fdc := { initMachine.fdc with
             Command := FDCEMU_CMD_READSECTORS
             CommandState := FDCEMU_RUN_READSECTORS_READDATA_TRANSFER_LOOP
             CR := 0x80 }
    dma := { initMachine.dma with
             SectorCount := 0
             BytesToTransfer := 512 } }

/-- Witness for C3, exercising both the single-push discard and the full
512-byte run on `C3readMachine`. -/
theorem C3_witness :
    (C3readMachine.dma.SectorCount = 0 ∧
     (FDC_DMA_FIFO_Push C3readMachine 0xaa).dma.Status &&& 1 = 0 ∧
     (FDC_DMA_FIFO_Push C3readMachine 0xaa).memWrites = C3readMachine.memWrites) ∧
    ((readRun env0 515 C3readMachine).memWrites = C3readMachine.memWrites ∧
     (readRun env0 515 C3readMachine).dma.PosInBuffer =
       C3readMachine.dma.PosInBuffer + 512 ∧
     (readRun env0 515 C3readMachine).fdc.STR &&& FDC_STR_BIT_RNF = 0 ∧
     (readRun env0 515 C3readMachine).fdc.Command = FDCEMU_CMD_MOTOR_STOP) := by
  have h := C3_push_discard_and_read_run env0 C3readMachine
  have hA := h.1 (by decide) 0xaa
  have hB := h.2 (by decide) (by decide) (by decide) (by decide) (by decide)
  exact ⟨⟨by decide, hA.1, hA.2.2.2.2.2.2⟩,
    hB.1, hB.2.1, hB.2.2.2.1, hB.2.2.2.2.2.1⟩

/-! ## Claim C2: the BUSY bit against the current command tag -/

/-- The busy/command relation that actually holds in every reachable state:
the BUSY status bit is set exactly when a command is in flight, where the
fake motor-stop command of the stop period does not count as in flight. -/
def BusyInvB (m : Machine) : Prop :=
  m.fdc.STR % 2 = 1 ↔
    (m.fdc.Command ≠ FDCEMU_CMD_NULL ∧ m.fdc.Command ≠ FDCEMU_CMD_MOTOR_STOP)

/-- Bit 0 of the status register after `FDC_Update_STR`, without the
bound-side condition. -/
theorem FDC_Update_STR_testBit0 (m : Machine) (dis en : Nat) :
    ((FDC_Update_STR m dis en).fdc.STR).testBit 0 =
      ((m.fdc.STR.testBit 0 && !(dis.testBit 0)) || en.testBit 0) :=
  FDC_Update_STR_testBit m dis en 0 (by norm_num)

theorem updSTR_Command (m : Machine) (dis en : Nat) :
    (FDC_Update_STR m dis en).fdc.Command = m.fdc.Command :=
  (FDC_Update_STR_frame m dis en).1

theorem SetIRQ_fdc (m : Machine) : (FDC_SetIRQ m).fdc = m.fdc := rfl

theorem ipu_STR (env : Env) (m : Machine) :
    (FDC_IndexPulse_Update env m).fdc.STR = m.fdc.STR := by
  unfold FDC_IndexPulse_Update FDC_IndexPulse_Init FDC_SetIRQ
  dsimp only
  split_ifs <;> simp [withFdc, setSelDrive_fdc]

theorem ipu_Command (env : Env) (m : Machine) :
    (FDC_IndexPulse_Update env m).fdc.Command = m.fdc.Command := by
  unfold FDC_IndexPulse_Update FDC_IndexPulse_Init FDC_SetIRQ
  dsimp only
  split_ifs <;> simp [withFdc, setSelDrive_fdc]

theorem motorON_testBit0 (env : Env) (m : Machine) (cr : Nat) :
    (((FDC_Set_MotorON env m cr).1).fdc.STR).testBit 0 = m.fdc.STR.testBit 0 := by
  unfold FDC_Set_MotorON FDC_IndexPulse_Init
  dsimp only
  split_ifs <;>
    simp [FDC_Update_STR_testBit0, FDC_STR_BIT_SPIN_UP, FDC_STR_BIT_MOTOR_ON,
      withFdc, setSelDrive_fdc, FDC_Update_STR, FDC_STR_BIT_BUSY, Nat.testBit_or,
      Nat.testBit_and]

theorem motorON_Command (env : Env) (m : Machine) (cr : Nat) :
    ((FDC_Set_MotorON env m cr).1).fdc.Command = m.fdc.Command := by
  unfold FDC_Set_MotorON FDC_IndexPulse_Init
  dsimp only
  split_ifs <;> simp [updSTR_Command, withFdc, setSelDrive_fdc, FDC_Update_STR]

theorem nextID_STR (env : Env) (m : Machine) :
    ((FDC_NextSectorID_NbBytes env m).1).fdc.STR = m.fdc.STR := by
  unfold FDC_NextSectorID_NbBytes
  split_ifs <;> simp [withFdc]

theorem nextID_Command (env : Env) (m : Machine) :
    ((FDC_NextSectorID_NbBytes env m).1).fdc.Command = m.fdc.Command := by
  unfold FDC_NextSectorID_NbBytes
  split_ifs <;> simp [withFdc]

theorem cmdComplete_testBit0 (m : Machine) (b : Bool) :
    (((FDC_CmdCompleteCommon m b).1).fdc.STR).testBit 0 = false := by
  unfold FDC_CmdCompleteCommon FDC_SetIRQ
  split_ifs <;>
    simp [FDC_Update_STR_testBit0, FDC_STR_BIT_BUSY, withFdc, FDC_Update_STR,
      Nat.testBit_or, Nat.testBit_and]

theorem cmdComplete_Command2 (m : Machine) (b : Bool) :
    ((FDC_CmdCompleteCommon m b).1).fdc.Command = FDCEMU_CMD_MOTOR_STOP := by
  unfold FDC_CmdCompleteCommon FDC_SetIRQ
  split_ifs <;> simp [withFdc, FDC_Update_STR]

theorem push_fdc (m : Machine) (b : Nat) : (FDC_DMA_FIFO_Push m b).fdc = m.fdc := by
  unfold FDC_DMA_FIFO_Push FDC_SetDMAStatus FDC_WriteDMAAddress
  dsimp only
  split_ifs <;> simp [withDma]

theorem pull_fdc (env : Env) (m : Machine) :
    ((FDC_DMA_FIFO_Pull env m).1).fdc = m.fdc := by
  unfold FDC_DMA_FIFO_Pull FDC_SetDMAStatus FDC_WriteDMAAddress
  dsimp only
  split_ifs <;> simp [withDma]


/-- The low bit of the status register (busy) through `FDC_Update_STR`,
when neither mask touches bit 0. -/
theorem updSTR_mod2 (m : Machine) (dis en : Nat) (hd : dis % 2 = 0)
    (he : en % 2 = 0) :
    (FDC_Update_STR m dis en).fdc.STR % 2 = m.fdc.STR % 2 := by
  have h := FDC_Update_STR_testBit0 m dis en
  have hd' : dis.testBit 0 = false := by rw [Nat.testBit_zero]; simp [hd]
  have he' : en.testBit 0 = false := by rw [Nat.testBit_zero]; simp [he]
  rw [hd', he'] at h
  simp only [Bool.not_false, Bool.and_true, Bool.or_false] at h
  rw [Nat.testBit_zero, Nat.testBit_zero] at h
  rw [decide_eq_decide] at h
  omega

/-- The busy bit after the common completion path is 0. -/
theorem cmdComplete_mod2 (m : Machine) (b : Bool) :
    ((FDC_CmdCompleteCommon m b).1).fdc.STR % 2 = 0 := by
  have h := cmdComplete_testBit0 m b
  rw [Nat.testBit_zero] at h
  simp at h
  omega

/-- The busy bit through `FDC_Set_MotorON`. -/
theorem motorON_mod2 (env : Env) (m : Machine) (cr : Nat) :
    ((FDC_Set_MotorON env m cr).1).fdc.STR % 2 = m.fdc.STR % 2 := by
  have h := motorON_testBit0 env m cr
  rw [Nat.testBit_zero, Nat.testBit_zero] at h
  rw [decide_eq_decide] at h
  omega

theorem frame_restoreVerify (env : Env) (m : Machine) :
    ((FDC_RestoreVerifyHeaderBody env m).1).fdc.STR % 2 = m.fdc.STR % 2 ∧
    ((FDC_RestoreVerifyHeaderBody env m).1).fdc.Command = m.fdc.Command := by
  unfold FDC_RestoreVerifyHeaderBody
  rcases hn : FDC_NextSectorID_NbBytes env m with ⟨m1, nb⟩
  have h1 : m1.fdc.STR = m.fdc.STR := by
    rw [show m1 = (FDC_NextSectorID_NbBytes env m).1 from by rw [hn]]
    exact nextID_STR env m
  have h2 : m1.fdc.Command = m.fdc.Command := by
    rw [show m1 = (FDC_NextSectorID_NbBytes env m).1 from by rw [hn]]
    exact nextID_Command env m
  dsimp only
  split_ifs <;>
    simp [updSTR_mod2, updSTR_Command, withFdc, FDC_STR_BIT_RNF, h1, h2]

theorem frame_seekVerify (env : Env) (m : Machine) :
    ((FDC_SeekVerifyHeaderBody env m).1).fdc.STR % 2 = m.fdc.STR % 2 ∧
    ((FDC_SeekVerifyHeaderBody env m).1).fdc.Command = m.fdc.Command := by
  unfold FDC_SeekVerifyHeaderBody
  rcases hn : FDC_NextSectorID_NbBytes env m with ⟨m1, nb⟩
  have h1 : m1.fdc.STR = m.fdc.STR := by
    rw [show m1 = (FDC_NextSectorID_NbBytes env m).1 from by rw [hn]]
    exact nextID_STR env m
  have h2 : m1.fdc.Command = m.fdc.Command := by
    rw [show m1 = (FDC_NextSectorID_NbBytes env m).1 from by rw [hn]]
    exact nextID_Command env m
  dsimp only
  split_ifs <;>
    simp [updSTR_mod2, updSTR_Command, withFdc, FDC_STR_BIT_RNF, h1, h2]

theorem frame_stepVerify (env : Env) (m : Machine) :
    ((FDC_StepVerifyHeaderBody env m).1).fdc.STR % 2 = m.fdc.STR % 2 ∧
    ((FDC_StepVerifyHeaderBody env m).1).fdc.Command = m.fdc.Command := by
  unfold FDC_StepVerifyHeaderBody
  rcases hn : FDC_NextSectorID_NbBytes env m with ⟨m1, nb⟩
  have h1 : m1.fdc.STR = m.fdc.STR := by
    rw [show m1 = (FDC_NextSectorID_NbBytes env m).1 from by rw [hn]]
    exact nextID_STR env m
  have h2 : m1.fdc.Command = m.fdc.Command := by
    rw [show m1 = (FDC_NextSectorID_NbBytes env m).1 from by rw [hn]]
    exact nextID_Command env m
  dsimp only
  split_ifs <;>
    simp [updSTR_mod2, updSTR_Command, withFdc, FDC_STR_BIT_RNF, h1, h2]

theorem frame_readSecHeader (env : Env) (m : Machine) :
    ((FDC_ReadSectorsHeaderBody env m).1).fdc.STR % 2 = m.fdc.STR % 2 ∧
    ((FDC_ReadSectorsHeaderBody env m).1).fdc.Command = m.fdc.Command := by
  unfold FDC_ReadSectorsHeaderBody
  rcases hn : FDC_NextSectorID_NbBytes env m with ⟨m1, nb⟩
  have h1 : m1.fdc.STR = m.fdc.STR := by
    rw [show m1 = (FDC_NextSectorID_NbBytes env m).1 from by rw [hn]]
    exact nextID_STR env m
  have h2 : m1.fdc.Command = m.fdc.Command := by
    rw [show m1 = (FDC_NextSectorID_NbBytes env m).1 from by rw [hn]]
    exact nextID_Command env m
  dsimp only
  split_ifs <;> simp [withFdc, h1, h2]

theorem frame_writeSecHeader (env : Env) (m : Machine) :
    ((FDC_WriteSectorsHeaderBody env m).1).fdc.STR % 2 = m.fdc.STR % 2 ∧
    ((FDC_WriteSectorsHeaderBody env m).1).fdc.Command = m.fdc.Command := by
  unfold FDC_WriteSectorsHeaderBody
  rcases hn : FDC_NextSectorID_NbBytes env m with ⟨m1, nb⟩
  have h1 : m1.fdc.STR = m.fdc.STR := by
    rw [show m1 = (FDC_NextSectorID_NbBytes env m).1 from by rw [hn]]
    exact nextID_STR env m
  have h2 : m1.fdc.Command = m.fdc.Command := by
    rw [show m1 = (FDC_NextSectorID_NbBytes env m).1 from by rw [hn]]
    exact nextID_Command env m
  dsimp only
  split_ifs <;> simp [withFdc, h1, h2]

theorem frame_readAddrMotorOn (env : Env) (m : Machine) :
    ((FDC_ReadAddressMotorOnBody env m).1).fdc.STR % 2 = m.fdc.STR % 2 ∧
    ((FDC_ReadAddressMotorOnBody env m).1).fdc.Command = m.fdc.Command := by
  unfold FDC_ReadAddressMotorOnBody
  rcases hn : FDC_NextSectorID_NbBytes env m with ⟨m1, nb⟩
  have h1 : m1.fdc.STR = m.fdc.STR := by
    rw [show m1 = (FDC_NextSectorID_NbBytes env m).1 from by rw [hn]]
    exact nextID_STR env m
  have h2 : m1.fdc.Command = m.fdc.Command := by
    rw [show m1 = (FDC_NextSectorID_NbBytes env m).1 from by rw [hn]]
    exact nextID_Command env m
  dsimp only
  split_ifs <;> simp [withFdc, h1, h2]

set_option maxHeartbeats 1000000 in
theorem frame_seekMotorOn (m : Machine) :
    ((FDC_SeekMotorOnBody m).1).fdc.STR % 2 = m.fdc.STR % 2 ∧
    ((FDC_SeekMotorOnBody m).1).fdc.Command = m.fdc.Command := by
  unfold FDC_SeekMotorOnBody
  dsimp only
  split_ifs <;>
    simp [updSTR_mod2, updSTR_Command, withFdc, setSelDrive_fdc,
      FDC_STR_BIT_SPIN_UP, FDC_STR_BIT_TR00]

set_option maxHeartbeats 1000000 in
theorem frame_stepMotorOn (m : Machine) :
    ((FDC_StepMotorOnBody m).1).fdc.STR % 2 = m.fdc.STR % 2 ∧
    ((FDC_StepMotorOnBody m).1).fdc.Command = m.fdc.Command := by
  unfold FDC_StepMotorOnBody
  dsimp only
  split_ifs <;>
    simp [updSTR_mod2, updSTR_Command, withFdc, setSelDrive_fdc,
      FDC_STR_BIT_SPIN_UP, FDC_STR_BIT_TR00]

theorem frame_motorStopComplete (m : Machine) :
    ((FDC_MotorStopCompleteBody m).1).fdc.STR % 2 = m.fdc.STR % 2 ∧
    ((FDC_MotorStopCompleteBody m).1).fdc.Command = FDCEMU_CMD_NULL := by
  unfold FDC_MotorStopCompleteBody
  simp [updSTR_mod2, updSTR_Command, withFdc, FDC_STR_BIT_MOTOR_ON]

set_option maxHeartbeats 1000000 in
theorem inv_restoreLoopBody (m : Machine) (h : BusyInvB m) :
    BusyInvB ((FDC_RestoreLoopBody m).1) := by
  unfold FDC_RestoreLoopBody
  unfold BusyInvB at h ⊢
  dsimp only
  split_ifs <;>
    simp_all [updSTR_mod2, updSTR_Command, cmdComplete_mod2,
      cmdComplete_Command2, withFdc, setSelDrive_fdc, FDC_STR_BIT_TR00,
      FDC_STR_BIT_RNF, FDCEMU_CMD_MOTOR_STOP, FDCEMU_CMD_NULL]

theorem inv_restoreMotorOnBody (m : Machine) (h : BusyInvB m) :
    BusyInvB ((FDC_RestoreMotorOnBody m).1) := by
  unfold FDC_RestoreMotorOnBody
  apply inv_restoreLoopBody
  unfold BusyInvB at h ⊢
  simpa [updSTR_mod2, updSTR_Command, withFdc, FDC_STR_BIT_SPIN_UP] using h

/-- Transfer of the busy/command relation along a step that keeps the FDC
record. -/
theorem businv_of_fdc_eq {m m' : Machine} (h : BusyInvB m) (he : m'.fdc = m.fdc) :
    BusyInvB m' := by
  unfold BusyInvB at h ⊢
  rw [he]
  exact h

/-- Transfer of the busy/command relation along a step that keeps the busy
bit and the command tag. -/
theorem businv_of_eq {m m' : Machine} (h : BusyInvB m)
    (hs : m'.fdc.STR % 2 = m.fdc.STR % 2) (hc : m'.fdc.Command = m.fdc.Command) :
    BusyInvB m' := by
  unfold BusyInvB at h ⊢
  rw [hs, hc]
  exact h

theorem or_one_mod2 (x : Nat) : (x ||| 1) % 2 = 1 := by
  have h : (x ||| 1).testBit 0 = true := by simp
  rw [Nat.testBit_zero, decide_eq_true_eq] at h
  exact h

set_option maxHeartbeats 2000000 in
/-- Every type I starter raises BUSY and installs a non-null, non-motor-stop
command: the busy/command relation holds after it unconditionally. -/
theorem inv_execI (m : Machine) : BusyInvB ((FDC_ExecuteTypeICommands m).1) := by
  unfold FDC_ExecuteTypeICommands FDC_TypeI_Restore FDC_TypeI_Seek FDC_TypeI_Step
    FDC_TypeI_StepIn FDC_TypeI_StepOut FDC_ClearIRQ BusyInvB
  dsimp only
  split_ifs <;>
    simp [FDC_Update_STR, withFdc, or_one_mod2, FDC_STR_BIT_BUSY,
      FDCEMU_CMD_RESTORE, FDCEMU_CMD_SEEK, FDCEMU_CMD_STEP, FDCEMU_CMD_NULL,
      FDCEMU_CMD_MOTOR_STOP]

set_option maxHeartbeats 2000000 in
/-- Both type II starters raise BUSY with a non-null command. -/
theorem inv_execII (m : Machine) : BusyInvB ((FDC_ExecuteTypeIICommands m).1) := by
  unfold FDC_ExecuteTypeIICommands FDC_TypeII_ReadSector FDC_TypeII_WriteSector
    FDC_ClearIRQ BusyInvB
  dsimp only
  split_ifs <;>
    simp [FDC_Update_STR, withFdc, or_one_mod2, FDC_STR_BIT_BUSY,
      FDCEMU_CMD_READSECTORS, FDCEMU_CMD_WRITESECTORS, FDCEMU_CMD_NULL,
      FDCEMU_CMD_MOTOR_STOP]

set_option maxHeartbeats 2000000 in
/-- Type III starters keep the invariant when entered with BUSY clear (the
only way the source reaches them): Read Address and Read Track raise BUSY
with their commands, Write Track terminates at once with the null tag. -/
theorem inv_execIII (m : Machine) (h : BusyInvB m) (hb : m.fdc.STR % 2 = 0) :
    BusyInvB ((FDC_ExecuteTypeIIICommands m).1) := by
  unfold FDC_ExecuteTypeIIICommands FDC_TypeIII_ReadAddress FDC_TypeIII_ReadTrack
    FDC_TypeIII_WriteTrack FDC_ClearIRQ
  unfold BusyInvB at h ⊢
  dsimp only
  split_ifs <;>
    simp_all [FDC_Update_STR, withFdc, or_one_mod2, updSTR_mod2, FDC_STR_BIT_BUSY,
      FDC_STR_BIT_RNF, FDCEMU_CMD_READADDRESS, FDCEMU_CMD_READTRACK,
      FDCEMU_CMD_NULL, FDCEMU_CMD_MOTOR_STOP]

/-- The type IV starter completes through the common path: busy cleared and
the motor-stop tag installed. -/
theorem inv_execIV (m : Machine) : BusyInvB ((FDC_ExecuteTypeIVCommands m).1) := by
  unfold FDC_ExecuteTypeIVCommands FDC_TypeIV_ForceInterrupt
  unfold BusyInvB
  dsimp only
  simp [cmdComplete_mod2, cmdComplete_Command2, FDCEMU_CMD_MOTOR_STOP, FDCEMU_CMD_NULL]

set_option maxHeartbeats 2000000 in
/-- The busy/command relation is preserved through one visit of the restore
state machine. -/
theorem inv_updateRestore (env : Env) (m : Machine) (h : BusyInvB m) :
    BusyInvB ((FDC_UpdateRestoreCmd env m).1) := by
  have hA := inv_restoreMotorOnBody m h
  have hB := inv_restoreLoopBody m h
  have hC := frame_restoreVerify env (withFdc m fun r => { r with IndexPulse_Counter := 0 })
  have hD := frame_restoreVerify env m
  unfold FDC_UpdateRestoreCmd
  rcases hms : FDC_Set_MotorON env m m.fdc.CR with ⟨m1, spin⟩
  have hs1 : m1.fdc.STR % 2 = m.fdc.STR % 2 := by
    rw [show m1 = (FDC_Set_MotorON env m m.fdc.CR).1 from by rw [hms]]
    exact motorON_mod2 env m m.fdc.CR
  have hc1 : m1.fdc.Command = m.fdc.Command := by
    rw [show m1 = (FDC_Set_MotorON env m m.fdc.CR).1 from by rw [hms]]
    exact motorON_Command env m m.fdc.CR
  unfold BusyInvB at h hA hB ⊢
  dsimp only
  split_ifs <;>
    simp_all [updSTR_mod2, updSTR_Command, cmdComplete_mod2, cmdComplete_Command2,
      withFdc, FDC_STR_BIT_RNF, FDCEMU_CMD_MOTOR_STOP, FDCEMU_CMD_NULL]

theorem withDma_fdc (m : Machine) (f : DmaRegs → DmaRegs) :
    (withDma m f).fdc = m.fdc := rfl

set_option maxHeartbeats 2000000 in
/-- The busy/command relation is preserved through one visit of the seek
state machine. -/
theorem inv_updateSeek (env : Env) (m : Machine) (h : BusyInvB m) :
    BusyInvB ((FDC_UpdateSeekCmd env m).1) := by
  have hA := frame_seekMotorOn m
  have hC := frame_seekVerify env (withFdc m fun r => { r with IndexPulse_Counter := 0 })
  have hD := frame_seekVerify env m
  unfold FDC_UpdateSeekCmd
  unfold BusyInvB at h ⊢
  dsimp only
  split_ifs <;>
    simp_all [motorON_mod2, motorON_Command, updSTR_mod2, updSTR_Command,
      cmdComplete_mod2, cmdComplete_Command2, withFdc_fdc, FDC_STR_BIT_RNF,
      FDCEMU_CMD_MOTOR_STOP, FDCEMU_CMD_NULL]

set_option maxHeartbeats 2000000 in
/-- The busy/command relation is preserved through one visit of the step
state machine. -/
theorem inv_updateStep (env : Env) (m : Machine) (h : BusyInvB m) :
    BusyInvB ((FDC_UpdateStepCmd env m).1) := by
  have hA := frame_stepMotorOn m
  have hC := frame_stepVerify env (withFdc m fun r => { r with IndexPulse_Counter := 0 })
  have hD := frame_stepVerify env m
  unfold FDC_UpdateStepCmd
  unfold BusyInvB at h ⊢
  dsimp only
  split_ifs <;>
    simp_all [motorON_mod2, motorON_Command, updSTR_mod2, updSTR_Command,
      cmdComplete_mod2, cmdComplete_Command2, withFdc_fdc, FDC_STR_BIT_RNF,
      FDCEMU_CMD_MOTOR_STOP, FDCEMU_CMD_NULL]

set_option maxHeartbeats 2000000 in
/-- The busy/command relation is preserved through one visit of the
read-sector(s) state machine. -/
theorem inv_updateReadSectors (env : Env) (m : Machine) (h : BusyInvB m) :
    BusyInvB ((FDC_UpdateReadSectorsCmd env m).1) := by
  have hC := frame_readSecHeader env
    (withFdc m fun r => { r with ReplaceCommandPossible := false, IndexPulse_Counter := 0 })
  have hD := frame_readSecHeader env m
  unfold BusyInvB at h ⊢
  by_cases hs1 : m.fdc.CommandState = FDCEMU_RUN_READSECTORS_READDATA
  · unfold FDC_UpdateReadSectorsCmd
    rw [if_pos hs1]
    try dsimp only
    first
      | (split_ifs <;>
          simp_all [motorON_mod2, motorON_Command, updSTR_mod2, updSTR_Command,
        cmdComplete_mod2, cmdComplete_Command2, push_fdc, withFdc_fdc, withDma_fdc,
        FDC_STR_BIT_RNF, FDCEMU_CMD_MOTOR_STOP, FDCEMU_CMD_NULL])
      | simp_all [motorON_mod2, motorON_Command, updSTR_mod2, updSTR_Command,
        cmdComplete_mod2, cmdComplete_Command2, push_fdc, withFdc_fdc, withDma_fdc,
        FDC_STR_BIT_RNF, FDCEMU_CMD_MOTOR_STOP, FDCEMU_CMD_NULL]
  by_cases hs2 : m.fdc.CommandState = FDCEMU_RUN_READSECTORS_READDATA_SPIN_UP
  · unfold FDC_UpdateReadSectorsCmd
    rw [if_neg hs1, if_pos hs2]
    try dsimp only
    first
      | (split_ifs <;>
          simp_all [motorON_mod2, motorON_Command, updSTR_mod2, updSTR_Command,
        cmdComplete_mod2, cmdComplete_Command2, push_fdc, withFdc_fdc, withDma_fdc,
        FDC_STR_BIT_RNF, FDCEMU_CMD_MOTOR_STOP, FDCEMU_CMD_NULL])
      | simp_all [motorON_mod2, motorON_Command, updSTR_mod2, updSTR_Command,
        cmdComplete_mod2, cmdComplete_Command2, push_fdc, withFdc_fdc, withDma_fdc,
        FDC_STR_BIT_RNF, FDCEMU_CMD_MOTOR_STOP, FDCEMU_CMD_NULL]
  by_cases hs3 : m.fdc.CommandState = FDCEMU_RUN_READSECTORS_READDATA_HEAD_LOAD
  · unfold FDC_UpdateReadSectorsCmd
    rw [if_neg hs1, if_neg hs2, if_pos hs3]
    try dsimp only
    first
      | (split_ifs <;>
          simp_all [motorON_mod2, motorON_Command, updSTR_mod2, updSTR_Command,
        cmdComplete_mod2, cmdComplete_Command2, push_fdc, withFdc_fdc, withDma_fdc,
        FDC_STR_BIT_RNF, FDCEMU_CMD_MOTOR_STOP, FDCEMU_CMD_NULL])
      | simp_all [motorON_mod2, motorON_Command, updSTR_mod2, updSTR_Command,
        cmdComplete_mod2, cmdComplete_Command2, push_fdc, withFdc_fdc, withDma_fdc,
        FDC_STR_BIT_RNF, FDCEMU_CMD_MOTOR_STOP, FDCEMU_CMD_NULL]
  by_cases hs4 : m.fdc.CommandState = FDCEMU_RUN_READSECTORS_READDATA_MOTOR_ON
  · unfold FDC_UpdateReadSectorsCmd
    rw [if_neg hs1, if_neg hs2, if_neg hs3, if_pos hs4]
    try dsimp only
    first
      | (split_ifs <;>
          simp_all [motorON_mod2, motorON_Command, updSTR_mod2, updSTR_Command,
        cmdComplete_mod2, cmdComplete_Command2, push_fdc, withFdc_fdc, withDma_fdc,
        FDC_STR_BIT_RNF, FDCEMU_CMD_MOTOR_STOP, FDCEMU_CMD_NULL])
      | simp_all [motorON_mod2, motorON_Command, updSTR_mod2, updSTR_Command,
        cmdComplete_mod2, cmdComplete_Command2, push_fdc, withFdc_fdc, withDma_fdc,
        FDC_STR_BIT_RNF, FDCEMU_CMD_MOTOR_STOP, FDCEMU_CMD_NULL]
  by_cases hs5 : m.fdc.CommandState = FDCEMU_RUN_READSECTORS_READDATA_NEXT_SECTOR_HEADER
  · unfold FDC_UpdateReadSectorsCmd
    rw [if_neg hs1, if_neg hs2, if_neg hs3, if_neg hs4, if_pos hs5]
    try dsimp only
    first
      | (split_ifs <;>
          simp_all [motorON_mod2, motorON_Command, updSTR_mod2, updSTR_Command,
        cmdComplete_mod2, cmdComplete_Command2, push_fdc, withFdc_fdc, withDma_fdc,
        FDC_STR_BIT_RNF, FDCEMU_CMD_MOTOR_STOP, FDCEMU_CMD_NULL])
      | simp_all [motorON_mod2, motorON_Command, updSTR_mod2, updSTR_Command,
        cmdComplete_mod2, cmdComplete_Command2, push_fdc, withFdc_fdc, withDma_fdc,
        FDC_STR_BIT_RNF, FDCEMU_CMD_MOTOR_STOP, FDCEMU_CMD_NULL]
  by_cases hs6 : m.fdc.CommandState = FDCEMU_RUN_READSECTORS_READDATA_CHECK_SECTOR_HEADER
  · unfold FDC_UpdateReadSectorsCmd
    rw [if_neg hs1, if_neg hs2, if_neg hs3, if_neg hs4, if_neg hs5, if_pos hs6]
    try dsimp only
    first
      | (split_ifs <;>
          simp_all [motorON_mod2, motorON_Command, updSTR_mod2, updSTR_Command,
        cmdComplete_mod2, cmdComplete_Command2, push_fdc, withFdc_fdc, withDma_fdc,
        FDC_STR_BIT_RNF, FDCEMU_CMD_MOTOR_STOP, FDCEMU_CMD_NULL])
      | simp_all [motorON_mod2, motorON_Command, updSTR_mod2, updSTR_Command,
        cmdComplete_mod2, cmdComplete_Command2, push_fdc, withFdc_fdc, withDma_fdc,
        FDC_STR_BIT_RNF, FDCEMU_CMD_MOTOR_STOP, FDCEMU_CMD_NULL]
  by_cases hs7 : m.fdc.CommandState = FDCEMU_RUN_READSECTORS_READDATA_TRANSFER_START
  · unfold FDC_UpdateReadSectorsCmd
    rw [if_neg hs1, if_neg hs2, if_neg hs3, if_neg hs4, if_neg hs5, if_neg hs6, if_pos hs7]
    try dsimp only
    first
      | (split_ifs <;>
          simp_all [motorON_mod2, motorON_Command, updSTR_mod2, updSTR_Command,
        cmdComplete_mod2, cmdComplete_Command2, push_fdc, withFdc_fdc, withDma_fdc,
        FDC_STR_BIT_RNF, FDCEMU_CMD_MOTOR_STOP, FDCEMU_CMD_NULL])
      | simp_all [motorON_mod2, motorON_Command, updSTR_mod2, updSTR_Command,
        cmdComplete_mod2, cmdComplete_Command2, push_fdc, withFdc_fdc, withDma_fdc,
        FDC_STR_BIT_RNF, FDCEMU_CMD_MOTOR_STOP, FDCEMU_CMD_NULL]
  by_cases hs8 : m.fdc.CommandState = FDCEMU_RUN_READSECTORS_READDATA_TRANSFER_LOOP
  · unfold FDC_UpdateReadSectorsCmd
    rw [if_neg hs1, if_neg hs2, if_neg hs3, if_neg hs4, if_neg hs5, if_neg hs6, if_neg hs7, if_pos hs8]
    try dsimp only
    first
      | (split_ifs <;>
          simp_all [motorON_mod2, motorON_Command, updSTR_mod2, updSTR_Command,
        cmdComplete_mod2, cmdComplete_Command2, push_fdc, withFdc_fdc, withDma_fdc,
        FDC_STR_BIT_RNF, FDCEMU_CMD_MOTOR_STOP, FDCEMU_CMD_NULL])
      | simp_all [motorON_mod2, motorON_Command, updSTR_mod2, updSTR_Command,
        cmdComplete_mod2, cmdComplete_Command2, push_fdc, withFdc_fdc, withDma_fdc,
        FDC_STR_BIT_RNF, FDCEMU_CMD_MOTOR_STOP, FDCEMU_CMD_NULL]
  by_cases hs9 : m.fdc.CommandState = FDCEMU_RUN_READSECTORS_CRC
  · unfold FDC_UpdateReadSectorsCmd
    rw [if_neg hs1, if_neg hs2, if_neg hs3, if_neg hs4, if_neg hs5, if_neg hs6, if_neg hs7, if_neg hs8, if_pos hs9]
    try dsimp only
    first
      | (split_ifs <;>
          simp_all [motorON_mod2, motorON_Command, updSTR_mod2, updSTR_Command,
        cmdComplete_mod2, cmdComplete_Command2, push_fdc, withFdc_fdc, withDma_fdc,
        FDC_STR_BIT_RNF, FDCEMU_CMD_MOTOR_STOP, FDCEMU_CMD_NULL])
      | simp_all [motorON_mod2, motorON_Command, updSTR_mod2, updSTR_Command,
        cmdComplete_mod2, cmdComplete_Command2, push_fdc, withFdc_fdc, withDma_fdc,
        FDC_STR_BIT_RNF, FDCEMU_CMD_MOTOR_STOP, FDCEMU_CMD_NULL]
  by_cases hs10 : m.fdc.CommandState = FDCEMU_RUN_READSECTORS_RNF
  · unfold FDC_UpdateReadSectorsCmd
    rw [if_neg hs1, if_neg hs2, if_neg hs3, if_neg hs4, if_neg hs5, if_neg hs6, if_neg hs7, if_neg hs8, if_neg hs9, if_pos hs10]
    try dsimp only
    first
      | (split_ifs <;>
          simp_all [motorON_mod2, motorON_Command, updSTR_mod2, updSTR_Command,
        cmdComplete_mod2, cmdComplete_Command2, push_fdc, withFdc_fdc, withDma_fdc,
        FDC_STR_BIT_RNF, FDCEMU_CMD_MOTOR_STOP, FDCEMU_CMD_NULL])
      | simp_all [motorON_mod2, motorON_Command, updSTR_mod2, updSTR_Command,
        cmdComplete_mod2, cmdComplete_Command2, push_fdc, withFdc_fdc, withDma_fdc,
        FDC_STR_BIT_RNF, FDCEMU_CMD_MOTOR_STOP, FDCEMU_CMD_NULL]
  by_cases hs11 : m.fdc.CommandState = FDCEMU_RUN_READSECTORS_COMPLETE
  · unfold FDC_UpdateReadSectorsCmd
    rw [if_neg hs1, if_neg hs2, if_neg hs3, if_neg hs4, if_neg hs5, if_neg hs6, if_neg hs7, if_neg hs8, if_neg hs9, if_neg hs10, if_pos hs11]
    try dsimp only
    first
      | (split_ifs <;>
          simp_all [motorON_mod2, motorON_Command, updSTR_mod2, updSTR_Command,
        cmdComplete_mod2, cmdComplete_Command2, push_fdc, withFdc_fdc, withDma_fdc,
        FDC_STR_BIT_RNF, FDCEMU_CMD_MOTOR_STOP, FDCEMU_CMD_NULL])
      | simp_all [motorON_mod2, motorON_Command, updSTR_mod2, updSTR_Command,
        cmdComplete_mod2, cmdComplete_Command2, push_fdc, withFdc_fdc, withDma_fdc,
        FDC_STR_BIT_RNF, FDCEMU_CMD_MOTOR_STOP, FDCEMU_CMD_NULL]
  unfold FDC_UpdateReadSectorsCmd
  rw [if_neg hs1, if_neg hs2, if_neg hs3, if_neg hs4, if_neg hs5, if_neg hs6, if_neg hs7, if_neg hs8, if_neg hs9, if_neg hs10, if_neg hs11]
  exact h

set_option maxHeartbeats 2000000 in
/-- The busy/command relation is preserved through the switch part of the
write-sector(s) state machine. -/
theorem inv_writeSectorsSwitch (env : Env) (m : Machine) (c0 : Int)
    (h : BusyInvB m) : BusyInvB ((FDC_WriteSectorsSwitch env m c0).1) := by
  have hC := frame_writeSecHeader env
    (withFdc m fun r => { r with ReplaceCommandPossible := false, IndexPulse_Counter := 0 })
  have hD := frame_writeSecHeader env m
  unfold BusyInvB at h ⊢
  by_cases hs1 : m.fdc.CommandState = FDCEMU_RUN_WRITESECTORS_WRITEDATA
  · unfold FDC_WriteSectorsSwitch
    rw [if_pos hs1]
    try dsimp only
    first
      | (split_ifs <;>
          simp_all [motorON_mod2, motorON_Command, updSTR_mod2, updSTR_Command,
        cmdComplete_mod2, cmdComplete_Command2, pull_fdc, withFdc_fdc, withDma_fdc,
        FDC_STR_BIT_RNF, FDCEMU_CMD_MOTOR_STOP, FDCEMU_CMD_NULL])
      | simp_all [motorON_mod2, motorON_Command, updSTR_mod2, updSTR_Command,
        cmdComplete_mod2, cmdComplete_Command2, pull_fdc, withFdc_fdc, withDma_fdc,
        FDC_STR_BIT_RNF, FDCEMU_CMD_MOTOR_STOP, FDCEMU_CMD_NULL]
  by_cases hs2 : m.fdc.CommandState = FDCEMU_RUN_WRITESECTORS_WRITEDATA_SPIN_UP
  · unfold FDC_WriteSectorsSwitch
    rw [if_neg hs1, if_pos hs2]
    try dsimp only
    first
      | (split_ifs <;>
          simp_all [motorON_mod2, motorON_Command, updSTR_mod2, updSTR_Command,
        cmdComplete_mod2, cmdComplete_Command2, pull_fdc, withFdc_fdc, withDma_fdc,
        FDC_STR_BIT_RNF, FDCEMU_CMD_MOTOR_STOP, FDCEMU_CMD_NULL])
      | simp_all [motorON_mod2, motorON_Command, updSTR_mod2, updSTR_Command,
        cmdComplete_mod2, cmdComplete_Command2, pull_fdc, withFdc_fdc, withDma_fdc,
        FDC_STR_BIT_RNF, FDCEMU_CMD_MOTOR_STOP, FDCEMU_CMD_NULL]
  by_cases hs3 : m.fdc.CommandState = FDCEMU_RUN_WRITESECTORS_WRITEDATA_HEAD_LOAD
  · unfold FDC_WriteSectorsSwitch
    rw [if_neg hs1, if_neg hs2, if_pos hs3]
    try dsimp only
    first
      | (split_ifs <;>
          simp_all [motorON_mod2, motorON_Command, updSTR_mod2, updSTR_Command,
        cmdComplete_mod2, cmdComplete_Command2, pull_fdc, withFdc_fdc, withDma_fdc,
        FDC_STR_BIT_RNF, FDCEMU_CMD_MOTOR_STOP, FDCEMU_CMD_NULL])
      | simp_all [motorON_mod2, motorON_Command, updSTR_mod2, updSTR_Command,
        cmdComplete_mod2, cmdComplete_Command2, pull_fdc, withFdc_fdc, withDma_fdc,
        FDC_STR_BIT_RNF, FDCEMU_CMD_MOTOR_STOP, FDCEMU_CMD_NULL]
  by_cases hs4 : m.fdc.CommandState = FDCEMU_RUN_WRITESECTORS_WRITEDATA_MOTOR_ON
  · unfold FDC_WriteSectorsSwitch
    rw [if_neg hs1, if_neg hs2, if_neg hs3, if_pos hs4]
    try dsimp only
    first
      | (split_ifs <;>
          simp_all [motorON_mod2, motorON_Command, updSTR_mod2, updSTR_Command,
        cmdComplete_mod2, cmdComplete_Command2, pull_fdc, withFdc_fdc, withDma_fdc,
        FDC_STR_BIT_RNF, FDCEMU_CMD_MOTOR_STOP, FDCEMU_CMD_NULL])
      | simp_all [motorON_mod2, motorON_Command, updSTR_mod2, updSTR_Command,
        cmdComplete_mod2, cmdComplete_Command2, pull_fdc, withFdc_fdc, withDma_fdc,
        FDC_STR_BIT_RNF, FDCEMU_CMD_MOTOR_STOP, FDCEMU_CMD_NULL]
  by_cases hs5 : m.fdc.CommandState = FDCEMU_RUN_WRITESECTORS_WRITEDATA_NEXT_SECTOR_HEADER
  · unfold FDC_WriteSectorsSwitch
    rw [if_neg hs1, if_neg hs2, if_neg hs3, if_neg hs4, if_pos hs5]
    try dsimp only
    first
      | (split_ifs <;>
          simp_all [motorON_mod2, motorON_Command, updSTR_mod2, updSTR_Command,
        cmdComplete_mod2, cmdComplete_Command2, pull_fdc, withFdc_fdc, withDma_fdc,
        FDC_STR_BIT_RNF, FDCEMU_CMD_MOTOR_STOP, FDCEMU_CMD_NULL])
      | simp_all [motorON_mod2, motorON_Command, updSTR_mod2, updSTR_Command,
        cmdComplete_mod2, cmdComplete_Command2, pull_fdc, withFdc_fdc, withDma_fdc,
        FDC_STR_BIT_RNF, FDCEMU_CMD_MOTOR_STOP, FDCEMU_CMD_NULL]
  by_cases hs6 : m.fdc.CommandState = FDCEMU_RUN_WRITESECTORS_WRITEDATA_CHECK_SECTOR_HEADER
  · unfold FDC_WriteSectorsSwitch
    rw [if_neg hs1, if_neg hs2, if_neg hs3, if_neg hs4, if_neg hs5, if_pos hs6]
    try dsimp only
    first
      | (split_ifs <;>
          simp_all [motorON_mod2, motorON_Command, updSTR_mod2, updSTR_Command,
        cmdComplete_mod2, cmdComplete_Command2, pull_fdc, withFdc_fdc, withDma_fdc,
        FDC_STR_BIT_RNF, FDCEMU_CMD_MOTOR_STOP, FDCEMU_CMD_NULL])
      | simp_all [motorON_mod2, motorON_Command, updSTR_mod2, updSTR_Command,
        cmdComplete_mod2, cmdComplete_Command2, pull_fdc, withFdc_fdc, withDma_fdc,
        FDC_STR_BIT_RNF, FDCEMU_CMD_MOTOR_STOP, FDCEMU_CMD_NULL]
  by_cases hs7 : m.fdc.CommandState = FDCEMU_RUN_WRITESECTORS_WRITEDATA_TRANSFER_START
  · unfold FDC_WriteSectorsSwitch
    rw [if_neg hs1, if_neg hs2, if_neg hs3, if_neg hs4, if_neg hs5, if_neg hs6, if_pos hs7]
    try dsimp only
    first
      | (split_ifs <;>
          simp_all [motorON_mod2, motorON_Command, updSTR_mod2, updSTR_Command,
        cmdComplete_mod2, cmdComplete_Command2, pull_fdc, withFdc_fdc, withDma_fdc,
        FDC_STR_BIT_RNF, FDCEMU_CMD_MOTOR_STOP, FDCEMU_CMD_NULL])
      | simp_all [motorON_mod2, motorON_Command, updSTR_mod2, updSTR_Command,
        cmdComplete_mod2, cmdComplete_Command2, pull_fdc, withFdc_fdc, withDma_fdc,
        FDC_STR_BIT_RNF, FDCEMU_CMD_MOTOR_STOP, FDCEMU_CMD_NULL]
  by_cases hs8 : m.fdc.CommandState = FDCEMU_RUN_WRITESECTORS_WRITEDATA_TRANSFER_LOOP
  · unfold FDC_WriteSectorsSwitch
    rw [if_neg hs1, if_neg hs2, if_neg hs3, if_neg hs4, if_neg hs5, if_neg hs6, if_neg hs7, if_pos hs8]
    try dsimp only
    first
      | (split_ifs <;>
          simp_all [motorON_mod2, motorON_Command, updSTR_mod2, updSTR_Command,
        cmdComplete_mod2, cmdComplete_Command2, pull_fdc, withFdc_fdc, withDma_fdc,
        FDC_STR_BIT_RNF, FDCEMU_CMD_MOTOR_STOP, FDCEMU_CMD_NULL])
      | simp_all [motorON_mod2, motorON_Command, updSTR_mod2, updSTR_Command,
        cmdComplete_mod2, cmdComplete_Command2, pull_fdc, withFdc_fdc, withDma_fdc,
        FDC_STR_BIT_RNF, FDCEMU_CMD_MOTOR_STOP, FDCEMU_CMD_NULL]
  by_cases hs9 : m.fdc.CommandState = FDCEMU_RUN_WRITESECTORS_CRC
  · unfold FDC_WriteSectorsSwitch
    rw [if_neg hs1, if_neg hs2, if_neg hs3, if_neg hs4, if_neg hs5, if_neg hs6, if_neg hs7, if_neg hs8, if_pos hs9]
    try dsimp only
    first
      | (split_ifs <;>
          simp_all [motorON_mod2, motorON_Command, updSTR_mod2, updSTR_Command,
        cmdComplete_mod2, cmdComplete_Command2, pull_fdc, withFdc_fdc, withDma_fdc,
        FDC_STR_BIT_RNF, FDCEMU_CMD_MOTOR_STOP, FDCEMU_CMD_NULL])
      | simp_all [motorON_mod2, motorON_Command, updSTR_mod2, updSTR_Command,
        cmdComplete_mod2, cmdComplete_Command2, pull_fdc, withFdc_fdc, withDma_fdc,
        FDC_STR_BIT_RNF, FDCEMU_CMD_MOTOR_STOP, FDCEMU_CMD_NULL]
  by_cases hs10 : m.fdc.CommandState = FDCEMU_RUN_WRITESECTORS_RNF
  · unfold FDC_WriteSectorsSwitch
    rw [if_neg hs1, if_neg hs2, if_neg hs3, if_neg hs4, if_neg hs5, if_neg hs6, if_neg hs7, if_neg hs8, if_neg hs9, if_pos hs10]
    try dsimp only
    first
      | (split_ifs <;>
          simp_all [motorON_mod2, motorON_Command, updSTR_mod2, updSTR_Command,
        cmdComplete_mod2, cmdComplete_Command2, pull_fdc, withFdc_fdc, withDma_fdc,
        FDC_STR_BIT_RNF, FDCEMU_CMD_MOTOR_STOP, FDCEMU_CMD_NULL])
      | simp_all [motorON_mod2, motorON_Command, updSTR_mod2, updSTR_Command,
        cmdComplete_mod2, cmdComplete_Command2, pull_fdc, withFdc_fdc, withDma_fdc,
        FDC_STR_BIT_RNF, FDCEMU_CMD_MOTOR_STOP, FDCEMU_CMD_NULL]
  by_cases hs11 : m.fdc.CommandState = FDCEMU_RUN_WRITESECTORS_COMPLETE
  · unfold FDC_WriteSectorsSwitch
    rw [if_neg hs1, if_neg hs2, if_neg hs3, if_neg hs4, if_neg hs5, if_neg hs6, if_neg hs7, if_neg hs8, if_neg hs9, if_neg hs10, if_pos hs11]
    try dsimp only
    first
      | (split_ifs <;>
          simp_all [motorON_mod2, motorON_Command, updSTR_mod2, updSTR_Command,
        cmdComplete_mod2, cmdComplete_Command2, pull_fdc, withFdc_fdc, withDma_fdc,
        FDC_STR_BIT_RNF, FDCEMU_CMD_MOTOR_STOP, FDCEMU_CMD_NULL])
      | simp_all [motorON_mod2, motorON_Command, updSTR_mod2, updSTR_Command,
        cmdComplete_mod2, cmdComplete_Command2, pull_fdc, withFdc_fdc, withDma_fdc,
        FDC_STR_BIT_RNF, FDCEMU_CMD_MOTOR_STOP, FDCEMU_CMD_NULL]
  unfold FDC_WriteSectorsSwitch
  rw [if_neg hs1, if_neg hs2, if_neg hs3, if_neg hs4, if_neg hs5, if_neg hs6, if_neg hs7, if_neg hs8, if_neg hs9, if_neg hs10, if_neg hs11]
  exact h

/-- The busy/command relation is preserved through one visit of the
write-sector(s) state machine (write-protection pre-check included). -/
theorem inv_updateWriteSectors (env : Env) (m : Machine) (h : BusyInvB m) :
    BusyInvB ((FDC_UpdateWriteSectorsCmd env m).1) := by
  unfold FDC_UpdateWriteSectorsCmd
  dsimp only
  split_ifs with hwp
  · apply inv_writeSectorsSwitch
    unfold BusyInvB
    simp [cmdComplete_mod2, cmdComplete_Command2, FDCEMU_CMD_MOTOR_STOP,
      FDCEMU_CMD_NULL]
  · apply inv_writeSectorsSwitch
    exact businv_of_eq h (updSTR_mod2 m FDC_STR_BIT_WPRT 0 (by decide) (by decide))
      (updSTR_Command m FDC_STR_BIT_WPRT 0)

set_option maxHeartbeats 2000000 in
/-- The busy/command relation is preserved through one visit of the
read-address state machine. -/
theorem inv_updateReadAddress (env : Env) (m : Machine) (h : BusyInvB m) :
    BusyInvB ((FDC_UpdateReadAddressCmd env m).1) := by
  have hC := frame_readAddrMotorOn env
    (withFdc m fun r => { r with ReplaceCommandPossible := false })
  have hD := frame_readAddrMotorOn env m
  unfold FDC_UpdateReadAddressCmd
  unfold BusyInvB at h ⊢
  dsimp only
  split_ifs <;>
    simp_all [motorON_mod2, motorON_Command, updSTR_mod2, updSTR_Command,
      cmdComplete_mod2, cmdComplete_Command2, push_fdc, withFdc, withDma_fdc,
      FDC_STR_BIT_RNF, FDCEMU_CMD_MOTOR_STOP, FDCEMU_CMD_NULL]

set_option maxHeartbeats 2000000 in
/-- The busy/command relation is preserved through one visit of the
read-track state machine. -/
theorem inv_updateReadTrack (env : Env) (m : Machine) (h : BusyInvB m) :
    BusyInvB ((FDC_UpdateReadTrackCmd env m).1) := by
  unfold FDC_UpdateReadTrackCmd
  unfold BusyInvB at h ⊢
  dsimp only
  split_ifs <;>
    simp_all [motorON_mod2, motorON_Command, updSTR_mod2, updSTR_Command,
      cmdComplete_mod2, cmdComplete_Command2, push_fdc, withFdc, withDma_fdc,
      FDC_STR_BIT_RNF, FDCEMU_CMD_MOTOR_STOP, FDCEMU_CMD_NULL]

set_option maxHeartbeats 2000000 in
/-- The busy/command relation is preserved through one visit of the fake
motor-stop command (the only command that ends with the null tag): during
the stop period busy stays 0 and the tag stays motor-stop; at the end the
tag returns to null with busy still 0. -/
theorem inv_updateMotorStop (m : Machine) (h : BusyInvB m)
    (hc : m.fdc.Command = FDCEMU_CMD_MOTOR_STOP) :
    BusyInvB ((FDC_UpdateMotorStop m).1) := by
  have hE := frame_motorStopComplete
    (withFdc m fun r =>
      { r with IndexPulse_Counter := 0, CommandState := FDCEMU_RUN_MOTOR_STOP_WAIT })
  have hF := frame_motorStopComplete m
  unfold FDC_UpdateMotorStop
  unfold BusyInvB at h ⊢
  dsimp only
  split_ifs <;>
    simp_all [withFdc, FDCEMU_CMD_MOTOR_STOP, FDCEMU_CMD_NULL]

/-- The busy/command relation is preserved through one scheduler visit. -/
theorem inv_stepOnce (env : Env) (m : Machine) (h : BusyInvB m) :
    BusyInvB ((fdcStepOnce env m).1) := by
  have hI : BusyInvB (FDC_IndexPulse_Update env m) :=
    businv_of_eq h (by rw [ipu_STR]) (ipu_Command env m)
  unfold fdcStepOnce
  dsimp only
  split_ifs with h1 h2 h3 h4 h5 h6 h7 h8
  · exact inv_updateRestore env _ hI
  · exact inv_updateSeek env _ hI
  · exact inv_updateStep env _ hI
  · exact inv_updateReadSectors env _ hI
  · exact inv_updateWriteSectors env _ hI
  · exact inv_updateReadAddress env _ hI
  · exact inv_updateReadTrack env _ hI
  · exact inv_updateMotorStop _ hI h8
  · exact hI

/-- A hardware reset establishes the busy/command relation outright: status
0 and the null command. -/
theorem inv_reset (b : Bool) (m : Machine) : BusyInvB (FDC_Reset b m) := by
  unfold FDC_Reset FDC_ResetDMA BusyInvB
  dsimp only
  split_ifs <;> simp [withFdc, withDma, FDCEMU_CMD_NULL, FDCEMU_CMD_MOTOR_STOP]

/-- `FDC_ExecuteCommand` establishes the busy/command relation; a type III
byte is only executed with BUSY clear (which the caller guarantees). -/
theorem inv_executeCommand (m : Machine) (h : BusyInvB m)
    (hb3 : FDC_GetCmdType m.fdc.CR = 3 → m.fdc.STR % 2 = 0) :
    BusyInvB (FDC_ExecuteCommand m) := by
  unfold FDC_ExecuteCommand
  dsimp only
  rcases FDC_GetCmdType_cases m.fdc.CR with ht | ht | ht | ht
  · rw [ht, if_pos rfl]
    exact businv_of_eq (inv_execI m) rfl rfl
  · rw [ht, if_neg (by decide), if_pos rfl]
    exact businv_of_eq (inv_execII m) rfl rfl
  · rw [ht, if_neg (by decide), if_neg (by decide), if_pos rfl]
    exact businv_of_eq (inv_execIII m h (hb3 ht)) rfl rfl
  · rw [ht, if_neg (by decide), if_neg (by decide), if_neg (by decide)]
    exact businv_of_eq (inv_execIV m) rfl rfl

/-- The busy/command relation is preserved by a write to the command
register (dropped writes included). -/
theorem inv_writeCommandRegister (m : Machine) (b : Nat) (h : BusyInvB m) :
    BusyInvB (FDC_WriteCommandRegister m b) := by
  unfold FDC_WriteCommandRegister
  split_ifs with hcase
  · exact h
  · apply inv_executeCommand
    · exact businv_of_eq h rfl rfl
    intro h3
    have h3' : FDC_GetCmdType (u8 b) = 3 := h3
    have hal : cmdWriteAllowed m (u8 b) = false := by
      unfold cmdWriteAllowed
      rw [h3']
      simp
    have hb : m.fdc.STR &&& FDC_STR_BIT_BUSY = 0 := by
      by_contra hne
      exact hcase ⟨hne, hal⟩
    rw [FDC_STR_BIT_BUSY, Nat.and_one_is_mod] at hb
    exact hb

/-- The busy/command relation is preserved by any word written to the FDC
access register $ff8604. -/
theorem inv_busWriteFdc (env : Env) (m : Machine) (b : Nat) (h : BusyInvB m) :
    BusyInvB (FDC_BusWriteFdcReg env m b) := by
  unfold FDC_BusWriteFdcReg
  dsimp only
  split_ifs with h1 h2 h3 h4 h5
  · exact businv_of_fdc_eq h rfl
  · exact businv_of_fdc_eq h rfl
  · apply inv_writeCommandRegister
    exact businv_of_eq h (by simp [ipu_STR, withDma]) (by simp [ipu_Command, withDma])
  · unfold FDC_WriteTrackRegister
    exact businv_of_eq h (by simp [withFdc_fdc, ipu_STR, withDma])
      (by simp [withFdc_fdc, ipu_Command, withDma])
  · unfold FDC_WriteSectorRegister
    exact businv_of_eq h (by simp [withFdc_fdc, ipu_STR, withDma])
      (by simp [withFdc_fdc, ipu_Command, withDma])
  · unfold FDC_WriteDataRegister
    exact businv_of_eq h (by simp [withFdc_fdc, ipu_STR, withDma])
      (by simp [withFdc_fdc, ipu_Command, withDma])

set_option maxHeartbeats 2000000 in
/-- The busy/command relation is preserved by a read of the status
register: the type I re-derivation touches TR00, INDEX and WPRT only. -/
theorem inv_busReadStatus (env : Env) (m : Machine) (ind : Bool) (fw : Int)
    (h : BusyInvB m) : BusyInvB ((FDC_BusReadStatusReg env m ind fw).1) := by
  have h1 : BusyInvB (FDC_IndexPulse_Update env m) :=
    businv_of_eq h (by rw [ipu_STR]) (ipu_Command env m)
  unfold FDC_BusReadStatusReg
  dsimp only
  refine businv_of_fdc_eq (businv_of_fdc_eq ?_ (FDC_ClearIRQ_fdc _)) rfl
  split_ifs <;>
    refine businv_of_eq h1 ?_ ?_ <;>
      simp [updSTR_mod2, updSTR_Command, FDC_STR_BIT_TR00, FDC_STR_BIT_INDEX,
        FDC_STR_BIT_WPRT]

/-- The busy/command relation is untouched by the DMA mode register. -/
theorem inv_dmaModeWrite (m : Machine) (w : Nat) (h : BusyInvB m) :
    BusyInvB (FDC_DmaModeControl_WriteWord m w) := by
  unfold FDC_DmaModeControl_WriteWord FDC_ResetDMA
  dsimp only
  split_ifs <;> exact businv_of_fdc_eq h rfl

/-- The busy/command relation is untouched by a DMA status read. -/
theorem inv_dmaStatusRead (m : Machine) (h : BusyInvB m) :
    BusyInvB ((FDC_DmaStatus_ReadWord m).1) := by
  unfold FDC_DmaStatus_ReadWord
  dsimp only
  split_ifs <;> exact businv_of_fdc_eq h rfl

/-- The busy/command relation is untouched by the DMA address bytes. -/
theorem inv_dmaAddrWrite (m : Machine) (off val : Nat) (h : BusyInvB m) :
    BusyInvB (FDC_DmaAddress_WriteByte m off val) := by
  unfold FDC_DmaAddress_WriteByte
  dsimp only
  split_ifs <;> exact businv_of_fdc_eq h rfl

/-- The busy/command relation is untouched by drive enabling. -/
theorem inv_enable (m : Machine) (d : Int) (v : Bool) (h : BusyInvB m) :
    BusyInvB (FDC_EnableDrive m d v) := by
  unfold FDC_EnableDrive
  split_ifs <;> exact businv_of_fdc_eq h rfl

/-- The busy/command relation is untouched by disk insertion. -/
theorem inv_insert (env : Env) (m : Machine) (d : Int) (dens : Nat)
    (h : BusyInvB m) : BusyInvB (FDC_InsertFloppy env m d dens) := by
  unfold FDC_InsertFloppy
  dsimp only
  split_ifs <;> exact businv_of_fdc_eq h rfl

/-- The busy/command relation is untouched by disk ejection. -/
theorem inv_eject (m : Machine) (d : Int) (h : BusyInvB m) :
    BusyInvB (FDC_EjectFloppy m d) := by
  unfold FDC_EjectFloppy
  split_ifs <;> exact businv_of_fdc_eq h rfl

/-- The busy/command relation is untouched by the PSG side/drive select
port. -/
theorem inv_setSide (env : Env) (m : Machine) (po pn : Nat) (h : BusyInvB m) :
    BusyInvB (FDC_SetDriveSide env m po pn) := by
  unfold FDC_SetDriveSide
  dsimp only
  split_ifs <;>
    refine businv_of_eq h ?_ ?_ <;>
      simp [withFdc_fdc, setSelDrive_fdc]

/-- The busy/command relation holds in every reachable machine state. -/
theorem businv_reachable : ∀ {m : Machine}, Reachable m → BusyInvB m := by
  intro m hr
  induction hr with
  | init => exact inv_reset true _
  | reset bCold hm ih => exact inv_reset bCold _
  | busWriteFdc env b hm ih => exact inv_busWriteFdc env _ b ih
  | busReadStatus env ind fw hm ih => exact inv_busReadStatus env _ ind fw ih
  | dmaModeWrite w hm ih => exact inv_dmaModeWrite _ w ih
  | dmaStatusRead hm ih => exact inv_dmaStatusRead _ ih
  | dmaAddrWrite off val hm ih => exact inv_dmaAddrWrite _ off val ih
  | dmaPush b hm ih => exact businv_of_fdc_eq ih (push_fdc _ b)
  | dmaPull env hm ih => exact businv_of_fdc_eq ih (pull_fdc env _)
  | step env hm ih => exact inv_stepOnce env _ ih
  | enable d v hm ih => exact inv_enable _ d v ih
  | insert env d dens hm ih => exact inv_insert env _ d dens ih
  | eject d hm ih => exact inv_eject _ d ih
  | setSide env po pn hm ih => exact inv_setSide env _ po pn ih

/-- The machine after writing the force-interrupt byte 0xd0 through the bus
to the freshly reset controller. -/
def C2cexMachine : Machine := FDC_BusWriteFdcReg env0 initMachine 0xd0

/-- C2 counterexample.  In the motor-stop period that follows a command
completion the claimed equivalence fails: on this reachable machine the
command tag is the (non-null) fake motor-stop command while the BUSY bit
is 0. -/
theorem C2_counterexample :
    Reachable C2cexMachine ∧
    C2cexMachine.fdc.STR &&& FDC_STR_BIT_BUSY = 0 ∧
    C2cexMachine.fdc.Command ≠ FDCEMU_CMD_NULL ∧
    C2cexMachine.fdc.Command = FDCEMU_CMD_MOTOR_STOP :=
  ⟨Reachable.busWriteFdc env0 0xd0 Reachable.init, by decide, by decide, by decide⟩

/-- C2 as amended.  In every reachable controller state the BUSY status bit
is set if and only if a command is in flight, where "in flight" excludes
both the null tag and the fake motor-stop tag: during the motor-stop period
that follows every command completion the controller reports not busy. -/
theorem C2_amended_busy_invariant (m : Machine) (h : Reachable m) :
    (m.fdc.STR &&& FDC_STR_BIT_BUSY ≠ 0 ↔
      (m.fdc.Command ≠ FDCEMU_CMD_NULL ∧
       m.fdc.Command ≠ FDCEMU_CMD_MOTOR_STOP)) := by
  have hb := businv_reachable h
  unfold BusyInvB at hb
  rw [FDC_STR_BIT_BUSY, Nat.and_one_is_mod]
  constructor
  · intro hne
    exact hb.mp (by omega)
  · intro hc
    have := hb.mpr hc
    omega

/-- Witness for C2: the amended invariant applied to the reachable initial
machine. -/
theorem C2_witness :
    Reachable initMachine ∧
    (initMachine.fdc.STR &&& FDC_STR_BIT_BUSY ≠ 0 ↔
      (initMachine.fdc.Command ≠ FDCEMU_CMD_NULL ∧
       initMachine.fdc.Command ≠ FDCEMU_CMD_MOTOR_STOP)) :=
  ⟨Reachable.init, C2_amended_busy_invariant initMachine Reachable.init⟩

end Fdc
